import Mathlib

/-!
# NextVolt backend: reservation ledger and recommendation scorer

A shallow embedding of `backend/server.js`.

Modelling conventions.

* JSON numbers are exact rationals (`ℚ`); `NaN` is the `none` of `Option ℚ`.
  Infinite values are outside the model.
* Arithmetic is exact, where the server computes in IEEE doubles: the score of lines
  208-213 and the server's value can differ in the last places, and so, on a rounding tie,
  can the 4-decimal score.  The replies evaluated in this file are at inputs where the double
  computation gives the same 4-decimal scores.
* A JSON field that the server coerces with `Number(..)`, `!..` or `||` is a
  `JsVal`: absent, `null`, a boolean, a number, the empty string, or some other value
  that is truthy and converts to `NaN` (a non-numeric string, a plain object).
  Strings that spell a number are outside the model of the stored records and of the
  request body; a query parameter is represented by the number it spells.
* A handler is modelled from the point where Express hands it the parsed request
  (`req.params`, `req.body`, `req.query`).
* Time stamps are integer milliseconds since the epoch; `toISOString` is the
  injective rendering of such a time value, so a time stamp string is identified
  with the time value it renders.
* `Date.now()` and `uuid()` are inputs of the handlers.
* The two JSON files are the `Store`; a handler maps a store and a request to a
  reply and the store it leaves behind.  Storage I/O failures are outside the model,
  except for the history append of `/recommend`: `getRecommendWith` takes the failing
  access to `users.json` as a parameter.
* Requests are served one at a time; handlers whose file reads and writes interleave
  are outside the model.
-/

namespace NextVolt

/-! ## JavaScript values and coercions -/

/-- JSON / JavaScript values in the positions the server coerces. -/
inductive JsVal where
  | undefined
  | null
  | bool (b : Bool)
  | num (q : ℚ)
  | other
  | emptyString
  deriving DecidableEq

/-- The JavaScript conversion `Number(v)`; `none` is `NaN`.  The empty string converts
to 0. -/
def jsNumber : JsVal → Option ℚ
  | .undefined => none
  | .null => some 0
  | .bool b => some (if b then 1 else 0)
  | .num q => some q
  | .other => none
  | .emptyString => some 0

/-- JavaScript truthiness, the value of `!!v`. -/
def truthy : JsVal → Bool
  | .undefined => false
  | .null => false
  | .bool b => b
  | .num q => decide (q ≠ 0)
  | .other => true
  | .emptyString => false

/-- The expression `Number(v) || d`: the number when it is neither `NaN` nor zero. -/
def numberOr (v : JsVal) (d : ℚ) : ℚ :=
  match jsNumber v with
  | some q => if q = 0 then d else q
  | none => d

/-- Strict equality `a === b` of two numbers: `NaN` equals nothing. -/
def numStrictEq : Option ℚ → Option ℚ → Bool
  | some a, some b => decide (a = b)
  | _, _ => false

/-- The call `Math.max(a, b)`: `NaN` when an argument is `NaN`. -/
def mathMax : Option ℚ → Option ℚ → Option ℚ
  | some a, some b => some (max a b)
  | _, _ => none

/-- What `JSON.stringify` writes for a number: `NaN` becomes `null`. -/
def ofNumber : Option ℚ → JsVal
  | some q => .num q
  | none => .null

/-- Truncation toward zero of a rational (ECMAScript `ToIntegerOrInfinity`):
`floor q` for `q ≥ 0` and `-floor (-q)` otherwise. -/
def truncate (q : ℚ) : Int := if 0 ≤ q then ⌊q⌋ else -⌊-q⌋

/-- The largest time value of a `Date`, in milliseconds. -/
def maxTimeValue : ℚ := 8640000000000000

/-- Time stamp `new Date(t).toISOString()`: the time value is `TimeClip t`;
`none` is the `RangeError` thrown for an invalid date. -/
def toISOString (t : Option ℚ) : Option Int :=
  match t with
  | none => none
  | some q => if |q| ≤ maxTimeValue then some (truncate q) else none

/-! ## Records -/

/-- One entry of a station's `connections`. -/
structure Connector where
  type_name : String
  level : JsVal
  num_connectors : JsVal
  deriving DecidableEq

/-- A record of `station.json`. -/
structure Station where
  id : JsVal
  name : String
  latitude : JsVal
  longitude : JsVal
  is_active : JsVal
  available : JsVal
  price_per_kwh : JsVal
  queue_time : JsVal
  reserved_count : JsVal
  connections : Option (List Connector)
  deriving DecidableEq

/-- A reservation as built by `POST /users/:id/reservations`. -/
structure Reservation where
  id : String
  stationId : JsVal
  stationName : String
  createdAt : Int
  expiresAt : Int
  deriving DecidableEq

/-- A record of `users.json`; `reservations` may be absent. -/
structure User where
  id : String
  username : String
  password : String
  favorites : List JsVal
  history : List String
  reservations : Option (List Reservation)
  deriving DecidableEq

/-- The persisted state: the contents of `users.json` and `station.json`. -/
structure Store where
  users : List User
  stations : List Station
  deriving DecidableEq

/-- What a handler does with the response. -/
inductive Reply where
  | message (status : Nat) (msg : String)
  | reservation (status : Nat) (r : Reservation)
  | reservations (status : Nat) (rs : List Reservation)
  | rangeError
  deriving DecidableEq

/-! ## Array helpers -/

/-- First element satisfying `p` with its index: `Array.prototype.findIndex`
together with the element found (`none` is index `-1`). -/
def findFirst {α : Type} (p : α → Bool) : List α → Option (Nat × α)
  | [] => none
  | x :: xs => if p x then some (0, x) else (findFirst p xs).map (fun r => (r.1 + 1, r.2))

/-- The predicate `u => u.id === userId`. -/
def isUser (userId : String) (u : User) : Bool := decide (u.id = userId)

/-- The predicate `s => Number(s.id) === Number(stationId)`. -/
def isStation (stationId : JsVal) (s : Station) : Bool :=
  numStrictEq (jsNumber s.id) (jsNumber stationId)

/-! ## Reservation handlers -/

/-- The station mutation of a create, lines 263-268. -/
def reserveStation (st : Station) (minutes : JsVal) : Station :=
  let current := numberOr st.reserved_count 0
  let reserved_count := current + 1
  let q := numberOr st.queue_time 0
  { st with
    reserved_count := .num reserved_count
    available := .bool (decide (reserved_count = 0))
    queue_time := ofNumber (mathMax (some q) (jsNumber minutes)) }

/-- The station mutation of a cancel, lines 289-293. -/
def releaseStation (st : Station) : Station :=
  let current := numberOr st.reserved_count 0
  let reserved_count := max 0 (current - 1)
  { st with
    reserved_count := .num reserved_count
    available := .bool (decide (reserved_count = 0))
    queue_time := if reserved_count = 0 then .num 0 else st.queue_time }

/-- Handler `POST /users/:id/reservations` (create).  `minutes` is the body field
before the default is applied, `now` is `Date.now()`, `newId` is `uuid()`. -/
def postReservation (db : Store) (userId : String) (stationId minutes : JsVal)
    (now : Int) (newId : String) : Reply × Store :=
  let minutes := if minutes = .undefined then .num 30 else minutes
  match findFirst (isUser userId) db.users with
  | none => (.message 404 "User not found", db)
  | some (ui, user) =>
    match findFirst (isStation stationId) db.stations with
    | none => (.message 404 "Station not found", db)
    | some (stationIndex, st) =>
      if !truthy st.is_active then (.message 400 "Station under maintenance", db)
      else if !truthy st.available then (.message 400 "Station not available", db)
      else
        match toISOString ((mathMax (some 10) (jsNumber minutes)).map
            (fun m => (now : ℚ) + m * 60 * 1000)) with
        | none => (.rangeError, db)
        | some expiresAt =>
          match toISOString (some (now : ℚ)) with
          | none => (.rangeError, db)
          | some createdAt =>
            let reservation : Reservation :=
              { id := newId, stationId := stationId, stationName := st.name,
                createdAt := createdAt, expiresAt := expiresAt }
            let user1 : User :=
              { user with reservations := some (user.reservations.getD [] ++ [reservation]) }
            (.reservation 201 reservation,
              { users := db.users.set ui user1,
                stations := db.stations.set stationIndex (reserveStation st minutes) })

/-- Handler `DELETE /users/:id/reservations/:resId` (cancel). -/
def deleteReservation (db : Store) (userId resId : String) : Reply × Store :=
  match findFirst (isUser userId) db.users with
  | none => (.message 404 "User not found", db)
  | some (ui, user) =>
    let existing := (user.reservations.getD []).find? (fun r => decide (r.id = resId))
    let remaining := (user.reservations.getD []).filter (fun r => decide (r.id ≠ resId))
    let user1 : User := { user with reservations := some remaining }
    let stations1 : List Station :=
      match existing with
      | none => db.stations
      | some ex =>
        match findFirst (isStation ex.stationId) db.stations with
        | none => db.stations
        | some (idx, st) => db.stations.set idx (releaseStation st)
    (.reservations 200 remaining, { users := db.users.set ui user1, stations := stations1 })

/-- A request to the reservation ledger. -/
inductive Op where
  | create (userId : String) (stationId minutes : JsVal) (now : Int) (newId : String)
  | cancel (userId resId : String)

/-- The store left behind by one request. -/
def step (db : Store) : Op → Store
  | .create userId stationId minutes now newId =>
    (postReservation db userId stationId minutes now newId).2
  | .cancel userId resId => (deleteReservation db userId resId).2

/-- The store left behind by a sequence of requests, served one after the other. -/
def run (db : Store) (ops : List Op) : Store := ops.foldl step db

/-! ## Station capacity -/

/-- The count the handlers read: `Number(st.reserved_count) || 0`. -/
def reservedCount (st : Station) : ℚ := numberOr st.reserved_count 0

/-- The queue time the handlers read: `Number(st.queue_time) || 0`. -/
def queueTime (st : Station) : ℚ := numberOr st.queue_time 0

/-- The capacity invariant of a station record. -/
def StationInv (st : Station) : Prop :=
  0 ≤ reservedCount st ∧ truthy st.available = decide (reservedCount st = 0)

instance (st : Station) : Decidable (StationInv st) := by
  unfold StationInv; infer_instance

/-! ## Recommendation score -/

/-- The normalisation range `rangeKm || 50`; `rangeKm` is `null` (`none`) or a finite number. -/
def maxRange (rangeKm : Option ℚ) : ℚ :=
  match rangeKm with
  | some r => if r = 0 then 50 else r
  | none => 50

/-- Normalisation ceiling of the price. -/
def maxPrice : ℚ := 20

/-- Normalisation ceiling of the queue time. -/
def maxQueue : ℚ := 30

/-- The price read from a station: `Number(st.price_per_kwh) || 8`. -/
def price (st : Station) : ℚ := numberOr st.price_per_kwh 8

/-- The availability read from a station: `!!st.available`. -/
def available (st : Station) : Bool := truthy st.available

/-- The queue time read from a station: `Number(st.queue_time) || 0`. -/
def queue (st : Station) : ℚ := numberOr st.queue_time 0

/-- Whether the preferred connector type occurs among the connections; `preferred` is
`req.query.preferred || ""`, so the empty string is "no preference". -/
def hasPreferred (preferred : String) (st : Station) : Bool :=
  if preferred ≠ "" then
    match st.connections with
    | some cs => cs.any (fun c => decide (c.type_name = preferred))
    | none => false
  else false

/-- The range filter of line 191: the station is skipped when this is true. -/
def outOfRange (d : ℚ) (rangeKm : Option ℚ) : Bool :=
  match rangeKm with
  | some r => decide (d > r)
  | none => false

/-- A station is scored when it is active and passes the range filter. -/
def scored (d : ℚ) (st : Station) (rangeKm : Option ℚ) : Bool :=
  truthy st.is_active && !outOfRange d rangeKm

/-- Distance component. -/
def distScore (d : ℚ) (rangeKm : Option ℚ) : ℚ := max 0 (1 - d / maxRange rangeKm)

/-- Price component. -/
def priceScore (st : Station) : ℚ := max 0 (1 - price st / maxPrice)

/-- Availability component. -/
def availScore (st : Station) : ℚ := if available st then 1 else 0

/-- Queue component. -/
def queueScore (st : Station) : ℚ := max 0 (1 - queue st / maxQueue)

/-- Connector component. -/
def plugScore (preferred : String) (st : Station) : ℚ :=
  if hasPreferred preferred st then 1 else 0

/-- The critical condition of line 201. -/
def critical (battery : ℚ) (rangeKm : Option ℚ) : Bool :=
  decide (battery < 20) ||
    (match rangeKm with
     | some r => decide (r < 20)
     | none => false)

/-- Weight of the distance component. -/
def wDist (c : Bool) : ℚ := if c then 0.4 else 0.25

/-- Weight of the price component. -/
def wPrice (c : Bool) : ℚ := if c then 0.1 else 0.25

/-- Weight of the availability component. -/
def wAvail (c : Bool) : ℚ := if c then 0.3 else 0.2

/-- Weight of the queue component. -/
def wQueue : ℚ := 0.15

/-- Weight of the connector component. -/
def wPlug : ℚ := 0.1

/-- The score of lines 208-213, before rounding; `d` is the distance computed at line 183. -/
def score (d : ℚ) (st : Station) (battery : ℚ) (preferred : String) (rangeKm : Option ℚ) : ℚ :=
  wDist (critical battery rangeKm) * distScore d rangeKm +
  wPrice (critical battery rangeKm) * priceScore st +
  wAvail (critical battery rangeKm) * availScore st +
  wQueue * queueScore st +
  wPlug * plugScore preferred st

/-- The effective range in the specification's words: "`maxRangeKm` if provided else 50". -/
def specEffectiveRange (maxRangeKm : Option ℚ) : ℚ := maxRangeKm.getD 50

/-- The score in the specification's words, with the effective range of the specification;
`none` where the quotient `distance / effectiveRange` is undefined. -/
def specScore (d : ℚ) (st : Station) (battery : ℚ) (preferred : String)
    (maxRangeKm : Option ℚ) : Option ℚ :=
  if specEffectiveRange maxRangeKm = 0 then none
  else some (
    wDist (critical battery maxRangeKm) * max 0 (1 - d / specEffectiveRange maxRangeKm) +
    wPrice (critical battery maxRangeKm) * max 0 (1 - price st / 20) +
    wAvail (critical battery maxRangeKm) * (if available st then 1 else 0) +
    wQueue * max 0 (1 - queue st / 30) +
    wPlug * (if hasPreferred preferred st then 1 else 0))

/-! ## Example data -/

/-- The station of the end-to-end example. -/
def station1 : Station :=
  { id := .num 1, name := "Alpha", latitude := .num 41, longitude := .num 29,
    is_active := .bool true, available := .bool true, price_per_kwh := .num 8,
    queue_time := .num 0, reserved_count := .num 0, connections := some [] }

/-- An existing user without reservations. -/
def user1 : User :=
  { id := "u1", username := "ada", password := "pw", favorites := [], history := [],
    reservations := some [] }

/-- A store with one user and one station. -/
def store1 : Store := { users := [user1], stations := [station1] }

/-- The reservation of the end-to-end example. -/
def reservation1 : Reservation :=
  { id := "r1", stationId := .num 1, stationName := "Alpha", createdAt := 1000,
    expiresAt := 601000 }

/-- The station of the end-to-end example once it is held. -/
def station1Held : Station :=
  { station1 with available := .bool false, reserved_count := .num 1, queue_time := .num 5 }

/-- The user of the example holding the reservation. -/
def user1Held : User := { user1 with reservations := some [reservation1] }

/-- The store of the example after the create. -/
def store1Held : Store := { users := [user1Held], stations := [station1Held] }

/-- The create request of the end-to-end example. -/
def create1 : Op := Op.create "u1" (.num 1) (.num 5) 1000 "r1"

/-! ## The recommendation handler

The haversine function `distanceKm` (lines 36-45) is floating-point trigonometry; the
handler is modelled for an arbitrary distance function `distanceKm` on numbers, whose value
may be `NaN` (`none`): the code's own function returns `NaN` when rounding lifts `a` of line
40 above 1, which happens near the antipode of the query.
A query parameter is represented by the value `Number` reads from it: `.num q` for a
string that spells `q`, `.undefined` when absent, `.emptyString` for a parameter without
a value (`?lat=`), `.other` for any other non-numeric string. -/

/-- The helper `toNumber(v, def)`: `Number(v)` when it is finite, else `def`; the result is
`null` (`none`) only when `def` is. -/
def toNumber (v : JsVal) (d : Option ℚ) : Option ℚ :=
  match jsNumber v with
  | some n => some n
  | none => d

/-- The expression `Number(x.toFixed(f))`: `x` rounded to `f` decimals, the nearest multiple
of `10^-f`, the larger one on a tie, applied to the absolute value. -/
def toFixed (x : ℚ) (f : Nat) : ℚ :=
  if 0 ≤ x then (⌊x * 10 ^ f + 1 / 2⌋ : ℚ) / 10 ^ f
  else -((⌊-x * 10 ^ f + 1 / 2⌋ : ℚ) / 10 ^ f)

/-- The distance `d` of line 183, `distanceKm(lat, lng, Number(st.latitude),
Number(st.longitude))`: `NaN` when a coordinate of the station is `NaN`, which every
operation of lines 37-44 hands on, and the value of the distance function otherwise. -/
def stationDistance (distanceKm : ℚ → ℚ → ℚ → ℚ → Option ℚ) (lat lng : ℚ) (st : Station) :
    Option ℚ :=
  match jsNumber st.latitude, jsNumber st.longitude with
  | some stLat, some stLng => distanceKm lat lng stLat stLng
  | _, _ => none

/-- An element of `recommendations`: the station fields with `distance_km` and `score`;
`none` is `NaN`, which the reply shows as `null`. -/
structure Recommendation where
  station : Station
  distance_km : Option ℚ
  score : Option ℚ
  deriving DecidableEq

/-- One pass of the loop body, lines 181-219; `none` is `continue`.  For a `NaN` distance
the test `d > rangeKm` of line 191 is false, so the station is kept; `distScore`, the score
and both rounded fields are then `NaN`. -/
def scoreStation (distanceKm : ℚ → ℚ → ℚ → ℚ → Option ℚ) (lat lng battery : ℚ)
    (preferred : String) (rangeKm : Option ℚ) (st : Station) : Option Recommendation :=
  if !truthy st.is_active then none
  else
    match stationDistance distanceKm lat lng st with
    | some d =>
      if outOfRange d rangeKm then none
      else
        some { station := st, distance_km := some (toFixed d 2),
               score := some (toFixed (score d st battery preferred rangeKm) 4) }
    | none => some { station := st, distance_km := none, score := none }

/-- The array `recommendations` after the loop of lines 180-220. -/
def recommendations (distanceKm : ℚ → ℚ → ℚ → ℚ → Option ℚ) (lat lng battery : ℚ)
    (preferred : String) (rangeKm : Option ℚ) (stations : List Station) :
    List Recommendation :=
  stations.filterMap (scoreStation distanceKm lat lng battery preferred rangeKm)

/-- The comparator `(a, b) => b.score - a.score` as the sort reads it: a `NaN` result
counts as 0. -/
def compareScore (a b : Recommendation) : ℚ :=
  match a.score, b.score with
  | some x, some y => y - x
  | _, _ => 0

/-- The order `a` before `b` between entries whose scores are numbers: the comparator is
not positive.  The relation is used on lists without a `NaN` score only, where the default
0 is never read. -/
def scoreGe (a b : Recommendation) : Prop := b.score.getD 0 ≤ a.score.getD 0

instance : DecidableRel scoreGe := fun a b => by
  unfold scoreGe; infer_instance

instance : IsTotal Recommendation scoreGe :=
  ⟨fun a b => le_total (b.score.getD 0) (a.score.getD 0)⟩

instance : IsTrans Recommendation scoreGe := ⟨fun _ _ _ hab hbc => le_trans hbc hab⟩

/-- How many elements after the second continue the first run of the array: a run that
starts descending (the second element sorts before the first) goes on while the comparator
is negative, any other run while it is not negative. -/
def runTail (desc : Bool) (prev : Recommendation) : List Recommendation → Nat
  | [] => 0
  | cur :: rest =>
    if (if desc then decide (0 ≤ compareScore cur prev)
        else decide (compareScore cur prev < 0)) then 0
    else runTail desc cur rest + 1

/-- The binary search for the place of `pivot` in the part already in order: the first
argument bounds the number of steps. -/
def searchPos (pivot : Recommendation) (arr : List Recommendation) : Nat → Nat → Nat → Nat
  | 0, left, _ => left
  | fuel + 1, left, right =>
    if left < right then
      match arr[left + (right - left) / 2]? with
      | some y =>
        if compareScore pivot y < 0 then
          searchPos pivot arr fuel left (left + (right - left) / 2)
        else searchPos pivot arr fuel (left + (right - left) / 2 + 1) right
      | none => left
    else left

/-- One step of the binary insertion: `pivot` is put at the place the search finds. -/
def binaryInsert (arr : List Recommendation) (pivot : Recommendation) :
    List Recommendation :=
  arr.take (searchPos pivot arr arr.length 0 arr.length) ++
    pivot :: arr.drop (searchPos pivot arr arr.length 0 arr.length)

/-- The sort of Node's engine on an array of fewer than 64 elements: the first run is
taken as it stands (reversed when it is descending) and the remaining elements are put in
place one after the other by binary insertion. -/
def nodeSort : List Recommendation → List Recommendation
  | a :: b :: rest =>
    (rest.drop (runTail (decide (compareScore b a < 0)) b rest)).foldl binaryInsert
      (if compareScore b a < 0 then
        (a :: b :: rest.take (runTail (decide (compareScore b a < 0)) b rest)).reverse
       else a :: b :: rest.take (runTail (decide (compareScore b a < 0)) b rest))
  | rs => rs

/-- The call `recommendations.sort((a, b) => b.score - a.score)` of line 223.  Without a
`NaN` score the comparator is consistent and the sort is stable: the result is the stable
sort by descending score, whatever the algorithm.  With a `NaN` score the comparator is not
consistent and the language leaves the order to the engine; the model then follows Node's
algorithm (for fewer than 64 elements). -/
def sortByScore (rs : List Recommendation) : List Recommendation :=
  if rs.all (fun r => r.score.isSome) then rs.insertionSort scoreGe else nodeSort rs

/-- The array `topRecommendations`: the sorted recommendations, `slice(0, 3)`. -/
def topRecommendations (distanceKm : ℚ → ℚ → ℚ → ℚ → Option ℚ) (lat lng battery : ℚ)
    (preferred : String) (rangeKm : Option ℚ) (stations : List Station) :
    List Recommendation :=
  (sortByScore (recommendations distanceKm lat lng battery preferred rangeKm stations)).take 3

/-- The query of `GET /recommend`; `preferred` is `req.query.preferred || ""` and an absent
`userId` is the empty string (both are falsy). -/
structure RecommendQuery where
  lat : JsVal
  lng : JsVal
  battery : JsVal
  preferred : String
  userId : String
  range_km : JsVal
  deriving DecidableEq

/-- What `GET /recommend` responds. -/
inductive RecommendReply where
  | message (status : Nat) (msg : String)
  | stations (status : Nat) (rs : List Recommendation)
  deriving DecidableEq

/-- The function `addHistory(userId, stationName)`; `time` is
`new Date().toLocaleTimeString()`. -/
def addHistory (users : List User) (userId stationName time : String) : List User :=
  match findFirst (isUser userId) users with
  | none => users
  | some (ui, user) =>
    users.set ui { user with history := user.history ++ [stationName ++ " (" ++ time ++ ")"] }

/-- The battery level the handler uses: `toNumber(req.query.battery, 50)`. -/
def queryBattery (q : RecommendQuery) : ℚ := (toNumber q.battery (some 50)).getD 50

/-- The range the handler uses: `toNumber(req.query.range_km, null)`. -/
def queryRange (q : RecommendQuery) : Option ℚ := toNumber q.range_km none

/-- Handler `GET /recommend`. -/
def getRecommend (distanceKm : ℚ → ℚ → ℚ → ℚ → Option ℚ) (db : Store)
    (q : RecommendQuery) (time : String) : RecommendReply × Store :=
  match toNumber q.lat none, toNumber q.lng none with
  | some lat, some lng =>
    let top := topRecommendations distanceKm lat lng (queryBattery q) q.preferred
      (queryRange q) db.stations
    match top with
    | first :: _ =>
      if q.userId ≠ "" then
        (.stations 200 top,
          { db with users := addHistory db.users q.userId first.station.name time })
      else (.stations 200 top, db)
    | [] => (.stations 200 top, db)
  | _, _ => (.message 400 "lat and lng required", db)

/-- Whether the loop pushes an entry for a station at distance `d`: the station is active
and `d > rangeKm` is false, as it is for every `NaN` distance. -/
def pushed (d : Option ℚ) (st : Station) (rangeKm : Option ℚ) : Bool :=
  truthy st.is_active &&
    (match d with
     | some x => !outOfRange x rangeKm
     | none => true)

/-- Eligibility of a station at distance `d`: active, and within `maxRangeKm` when one is
given; a station whose distance is `NaN` is within no range. -/
def eligible (d : Option ℚ) (st : Station) (rangeKm : Option ℚ) : Bool :=
  truthy st.is_active &&
    (match rangeKm, d with
     | none, _ => true
     | some R, some x => decide (x ≤ R)
     | some _, none => false)

/-- No station that the loop scores is at a `NaN` distance. -/
def DistancesNumeric (distanceKm : ℚ → ℚ → ℚ → ℚ → Option ℚ) (lat lng : ℚ)
    (stations : List Station) : Prop :=
  ∀ st ∈ stations, truthy st.is_active = true → stationDistance distanceKm lat lng st ≠ none

/-- A distance function for the examples: 100 km per degree of latitude plus 100 km per
degree of longitude; like `distanceKm` it is 0 between equal coordinates. -/
def gridDistance (lat1 lon1 lat2 lon2 : ℚ) : Option ℚ :=
  some (100 * (|lat2 - lat1| + |lon2 - lon1|))

/-- A station with a CCS connector, at the query location (41, 29) of the examples. -/
def stationCcs : Station :=
  { station1 with
    id := .num 2, name := "Beta"
    connections := some [{ type_name := "CCS", level := .num 3, num_connectors := .num 2 }] }

/-- A station whose stored price is negative. -/
def stationNegPrice : Station := { station1 with id := .num 3, price_per_kwh := .num (-4) }

/-- A station whose stored price is 0. -/
def stationFree : Station := { station1 with id := .num 4, price_per_kwh := .num 0 }

/-- The query of the specification's example: battery 15, range 10 km. -/
def queryCritical : RecommendQuery :=
  { lat := .num 41, lng := .num 29, battery := .num 15, preferred := "", userId := "",
    range_km := .num 10 }

/-- The unavailable station of the specification's example, 5 km from the query. -/
def stationNear : Station :=
  { station1 with
    id := .num 5, name := "Near", latitude := .num (4105 / 100), available := .bool false,
    reserved_count := .num 1 }

/-- The available station of the specification's example, 8 km from the query. -/
def stationFar : Station :=
  { station1 with id := .num 8, name := "Far", latitude := .num (4108 / 100) }

/-- A store with the two stations of the specification's example, the nearer one first. -/
def storeExample : Store := { users := [user1], stations := [stationNear, stationFar] }

/-- A query from the location of the example stations, with default battery and no range. -/
def queryPlain : RecommendQuery :=
  { lat := .num 41, lng := .num 29, battery := .undefined, preferred := "", userId := "",
    range_km := .undefined }

/-- The query `GET /recommend?lat=&lng=`: both coordinates present without a value. -/
def queryEmptyLocation : RecommendQuery :=
  { lat := .emptyString, lng := .emptyString, battery := .undefined, preferred := "",
    userId := "", range_km := .undefined }

/-- The query `GET /recommend?lat=41&lng=29&battery=`: the battery level is present without
a value. -/
def queryEmptyBattery : RecommendQuery := { queryPlain with battery := .emptyString }

/-- The query `GET /recommend?lat=41&lng=29&range_km=10`. -/
def queryRangeTen : RecommendQuery := { queryPlain with range_km := .num 10 }

/-- An unavailable station at the query location. -/
def stationHeld : Station :=
  { station1 with
    id := .num 11, name := "Held", available := .bool false, reserved_count := .num 1 }

/-- An active, available station whose record has no `latitude` field. -/
def stationNoLat : Station :=
  { station1 with id := .num 12, name := "NoLat", latitude := .undefined }

/-- A station at the query location with price 2. -/
def stationCheap : Station :=
  { station1 with id := .num 14, name := "Cheap", price_per_kwh := .num 2 }

/-- A store with a single station, the one without a latitude. -/
def storeNoLat : Store := { users := [user1], stations := [stationNoLat] }

/-- A store whose second station has no latitude; the other three are at the query
location. -/
def storeMixed : Store :=
  { users := [user1], stations := [stationHeld, stationNoLat, station1, stationCheap] }

/-- A store like `storeMixed` whose last two stations have the same score. -/
def storeTie : Store :=
  { users := [user1], stations := [stationHeld, stationNoLat, station1, stationCcs] }

/-- A store with four stations at the query location, all with coordinates. -/
def storeFull : Store :=
  { users := [user1], stations := [stationHeld, station1, stationCheap, stationCcs] }

/-- A store with the station of negative price only. -/
def storeNegPrice : Store := { users := [user1], stations := [stationNegPrice] }

/-- The entry that lines 215-219 push for a station. -/
def entryOf (distanceKm : ℚ → ℚ → ℚ → ℚ → Option ℚ) (lat lng battery : ℚ)
    (preferred : String) (rangeKm : Option ℚ) (st : Station) : Recommendation :=
  match stationDistance distanceKm lat lng st with
  | some d =>
    { station := st, distance_km := some (toFixed d 2),
      score := some (toFixed (score d st battery preferred rangeKm) 4) }
  | none => { station := st, distance_km := none, score := none }

/-- A second reservation of the example user. -/
def reservation2 : Reservation :=
  { id := "r2", stationId := .num 2, stationName := "Beta", createdAt := 2000,
    expiresAt := 602000 }

/-- The example user holding two reservations. -/
def user1Two : User := { user1 with reservations := some [reservation1, reservation2] }

/-- A store whose user holds two reservations. -/
def storeTwo : Store := { users := [user1Two], stations := [station1Held] }

/-! ## The haversine distance

The function `distanceKm` is embedded over any field of numbers, given the functions of
`Math` it calls; `RealMath` singles out real-number trigonometry. -/

/-- The members of `Math` that `distanceKm` uses, over numbers `K`. -/
structure JsMath (K : Type) where
  PI : K
  sin : K → K
  cos : K → K
  sqrt : K → K
  atan2 : K → K → K

/-- The function `distanceKm(lat1, lon1, lat2, lon2)`, lines 36-45. -/
def distanceKm {K : Type} [Field K] (M : JsMath K) (lat1 lon1 lat2 lon2 : K) : K :=
  let R : K := 6371
  let dLat := (lat2 - lat1) * M.PI / 180
  let dLon := (lon2 - lon1) * M.PI / 180
  let a :=
    M.sin (dLat / 2) ^ 2 +
    M.cos (lat1 * M.PI / 180) * M.cos (lat2 * M.PI / 180) *
    M.sin (dLon / 2) ^ 2
  2 * R * M.atan2 (M.sqrt a) (M.sqrt (1 - a))

/-- Real-number trigonometry: `Math.PI` is `π`, `Math.sin`, `Math.cos` and `Math.sqrt` are the
real functions, and `Math.atan2(y, x)` is the argument of the point `(x, y)`, in `(-π, π]`
(0 at the origin). -/
def RealMath (M : JsMath ℝ) : Prop :=
  M.PI = Real.pi ∧ M.sin = Real.sin ∧ M.cos = Real.cos ∧ M.sqrt = Real.sqrt ∧
  ∀ y x : ℝ, M.atan2 y x = Complex.arg ⟨x, y⟩

/-! ## The history append when the user store fails -/

/-- Which access to `users.json` inside `addHistory` raises an error, if any: `readJSON`
rethrows every error but `ENOENT` (line 22), and `writeJSON` does not catch. -/
inductive Fault where
  | noFault
  | read
  | write
  deriving DecidableEq

/-- The function `addHistory` (lines 153-159) under a fault; `none` is the raised error. -/
def addHistoryWith (fault : Fault) (users : List User) (userId stationName time : String) :
    Option (List User) :=
  if fault = .read then none
  else
    match findFirst (isUser userId) users with
    | none => some users
    | some (ui, user) =>
      if fault = .write then none
      else
        some (users.set ui
          { user with history := user.history ++ [stationName ++ " (" ++ time ++ ")"] })

/-- Handler `GET /recommend` under a fault of the history append.  The reply `none` is no
response: the error raised in `await addHistory(..)` (line 227) rejects the handler's
promise before `res.json` is reached.  A failed write leaves the file as it was. -/
def getRecommendWith (fault : Fault) (distanceKm : ℚ → ℚ → ℚ → ℚ → Option ℚ)
    (db : Store) (q : RecommendQuery) (time : String) : Option RecommendReply × Store :=
  match toNumber q.lat none, toNumber q.lng none with
  | some lat, some lng =>
    let top := topRecommendations distanceKm lat lng (queryBattery q) q.preferred
      (queryRange q) db.stations
    match top with
    | first :: _ =>
      if q.userId ≠ "" then
        match addHistoryWith fault db.users q.userId first.station.name time with
        | some users => (some (.stations 200 top), { db with users := users })
        | none => (none, db)
      else (some (.stations 200 top), db)
    | [] => (some (.stations 200 top), db)
  | _, _ => (some (.message 400 "lat and lng required"), db)

/-- The query of the specification's example, sent by user `u1`. -/
def queryUser : RecommendQuery := { queryCritical with userId := "u1" }

/-- A create request as a tuple: user id, minutes, time, new reservation id. -/
abbrev CreateCall := String × JsVal × Int × String

/-- The request of a create call on the station `stationId`. -/
def CreateCall.toOp (stationId : JsVal) (c : CreateCall) : Op :=
  .create c.1 stationId c.2.1 c.2.2.1 c.2.2.2

/-! ## The ledger of outstanding reservations -/

/-- All reservations held in the store, user by user. -/
def allReservations (db : Store) : List Reservation :=
  db.users.flatMap (fun u => u.reservations.getD [])

/-- The number of outstanding reservations, over all users, whose `stationId` refers to the
station: `Number(r.stationId) === Number(st.id)`. -/
def holdCount (db : Store) (st : Station) : Nat :=
  (allReservations db).countP (fun r => isStation r.stationId st)

/-- Station ids are distinct: no two stored stations have equal `Number(id)`. -/
def DistinctStationIds (db : Store) : Prop :=
  (db.stations.map (fun s => jsNumber s.id)).Pairwise (fun a b => numStrictEq a b = false)

/-- Reservation ids are distinct over all users. -/
def DistinctReservationIds (db : Store) : Prop :=
  ((allReservations db).map (fun r => r.id)).Nodup

/-- Every station's `reservedCount` is the number of outstanding reservations referring
to it. -/
def LedgerConsistent (db : Store) : Prop :=
  ∀ st ∈ db.stations, reservedCount st = holdCount db st

/-- Every create of the sequence is given a reservation id that no outstanding reservation
carries at the time it is served. -/
def FreshIds (db : Store) : List Op → Prop
  | [] => True
  | .create userId stationId minutes now newId :: ops =>
    newId ∉ (allReservations db).map (fun r => r.id) ∧
      FreshIds (step db (.create userId stationId minutes now newId)) ops
  | .cancel userId resId :: ops => FreshIds (step db (.cancel userId resId)) ops

/-! ## Lemmas on the array helpers and the station mutations -/

theorem findFirst_some {α : Type} {p : α → Bool} {l : List α} {i : Nat} {x : α}
    (h : findFirst p l = some (i, x)) : l[i]? = some x ∧ p x = true := by
  induction l generalizing i with
  | nil => simp [findFirst] at h
  | cons y ys ih =>
    unfold findFirst at h
    split at h
    · rename_i hp
      simp only [Option.some.injEq, Prod.mk.injEq] at h
      obtain ⟨rfl, rfl⟩ := h
      exact ⟨by simp, hp⟩
    · cases hf : findFirst p ys with
      | none => simp [hf] at h
      | some r =>
        obtain ⟨j, z⟩ := r
        simp only [hf, Option.map_some', Option.some.injEq, Prod.mk.injEq] at h
        obtain ⟨rfl, rfl⟩ := h
        have := ih hf
        simpa using this

theorem getElem?_set_cases {α : Type} (l : List α) (j i : Nat) (a x : α) {y : α}
    (h : l[i]? = some x) (hj : l[j]? = some y) :
    (l.set j a)[i]? = some x ∨ (i = j ∧ x = y ∧ (l.set j a)[i]? = some a) := by
  by_cases hij : j = i
  · subst hij
    right
    rw [h] at hj
    have hlt : j < l.length := (List.getElem?_eq_some_iff.1 h).1
    exact ⟨rfl, by simpa using hj, List.getElem?_set_self hlt⟩
  · left
    rw [List.getElem?_set_ne hij, h]

/-- Effect of a create on the station stored at index `i`. -/
theorem postReservation_station (db : Store) (userId : String) (stationId minutes : JsVal)
    (now : Int) (newId : String) (i : Nat) (st : Station) (h : db.stations[i]? = some st) :
    (postReservation db userId stationId minutes now newId).2.stations[i]? = some st ∨
    (truthy st.is_active = true ∧ truthy st.available = true ∧
      (postReservation db userId stationId minutes now newId).2.stations[i]? =
        some (reserveStation st (if minutes = .undefined then .num 30 else minutes))) := by
  unfold postReservation
  simp only
  split
  · exact Or.inl h
  · split
    · exact Or.inl h
    · rename_i si st1 hs
      have hs1 := (findFirst_some hs).1
      split
      · exact Or.inl h
      · split
        · exact Or.inl h
        · rename_i ha hv
          split
          · exact Or.inl h
          · split
            · exact Or.inl h
            · simp only
              rcases getElem?_set_cases db.stations si i
                (reserveStation st1 (if minutes = .undefined then .num 30 else minutes)) st h hs1
                with h1 | ⟨_, h2, h3⟩
              · exact Or.inl h1
              · subst h2
                exact Or.inr ⟨by simpa using ha, by simpa using hv, h3⟩

/-- Effect of a cancel on the station stored at index `i`. -/
theorem deleteReservation_station (db : Store) (userId resId : String)
    (i : Nat) (st : Station) (h : db.stations[i]? = some st) :
    (deleteReservation db userId resId).2.stations[i]? = some st ∨
    (deleteReservation db userId resId).2.stations[i]? = some (releaseStation st) := by
  unfold deleteReservation
  simp only
  split
  · exact Or.inl h
  · split
    · exact Or.inl h
    · split
      · exact Or.inl h
      · rename_i idx st1 hs
        have hs1 := (findFirst_some hs).1
        rcases getElem?_set_cases db.stations idx i (releaseStation st1) st h hs1
          with h1 | ⟨_, h2, h3⟩
        · exact Or.inl h1
        · subst h2
          exact Or.inr h3

theorem numberOr_num_zero (q : ℚ) : numberOr (.num q) 0 = q := by
  unfold numberOr jsNumber
  by_cases h : q = 0 <;> simp [h]

theorem reservedCount_reserveStation (st : Station) (minutes : JsVal) :
    reservedCount (reserveStation st minutes) = reservedCount st + 1 := by
  simp [reservedCount, reserveStation, numberOr_num_zero]

theorem reservedCount_releaseStation (st : Station) :
    reservedCount (releaseStation st) = max 0 (reservedCount st - 1) := by
  simp [reservedCount, releaseStation, numberOr_num_zero]

theorem reserveStation_inv (st : Station) (minutes : JsVal) (hinv : StationInv st) :
    StationInv (reserveStation st minutes) := by
  obtain ⟨h0, _⟩ := hinv
  refine ⟨?_, ?_⟩
  · rw [reservedCount_reserveStation]; linarith
  · rw [reservedCount_reserveStation]
    simp [reserveStation, truthy, reservedCount]

theorem releaseStation_inv (st : Station) : StationInv (releaseStation st) := by
  refine ⟨?_, ?_⟩
  · rw [reservedCount_releaseStation]; exact le_max_left _ _
  · rw [reservedCount_releaseStation]
    simp [releaseStation, truthy, reservedCount]

theorem step_station_inv (db : Store) (op : Op) (i : Nat) (st : Station)
    (h : db.stations[i]? = some st) (hinv : StationInv st) :
    ∃ st1, (step db op).stations[i]? = some st1 ∧ StationInv st1 := by
  cases op with
  | create userId stationId minutes now newId =>
    rcases postReservation_station db userId stationId minutes now newId i st h with h1 | ⟨_, _, h1⟩
    · exact ⟨st, h1, hinv⟩
    · exact ⟨_, h1, reserveStation_inv st _ hinv⟩
  | cancel userId resId =>
    rcases deleteReservation_station db userId resId i st h with h1 | h1
    · exact ⟨st, h1, hinv⟩
    · exact ⟨_, h1, releaseStation_inv st⟩

theorem run_station_inv (ops : List Op) (db : Store) (i : Nat) (st : Station)
    (h : db.stations[i]? = some st) (hinv : StationInv st) :
    ∃ st1, (run db ops).stations[i]? = some st1 ∧ StationInv st1 := by
  induction ops generalizing db st with
  | nil => exact ⟨st, h, hinv⟩
  | cons op ops ih =>
    obtain ⟨st1, h1, hinv1⟩ := step_station_inv db op i st h hinv
    exact ih (step db op) st1 h1 hinv1

theorem reserveStation_is_active (st : Station) (minutes : JsVal) :
    (reserveStation st minutes).is_active = st.is_active := rfl

theorem releaseStation_is_active (st : Station) : (releaseStation st).is_active = st.is_active := rfl

theorem step_station_hold (db : Store) (op : Op) (i : Nat) (st : Station)
    (h : db.stations[i]? = some st) (hinv : StationInv st)
    (hact : reservedCount st ≠ 0 → truthy st.is_active = true) :
    ∃ st1, (step db op).stations[i]? = some st1 ∧ StationInv st1 ∧
      (reservedCount st1 ≠ 0 → truthy st1.is_active = true) := by
  cases op with
  | create userId stationId minutes now newId =>
    rcases postReservation_station db userId stationId minutes now newId i st h with h1 | ⟨ha, _, h1⟩
    · exact ⟨st, h1, hinv, hact⟩
    · exact ⟨_, h1, reserveStation_inv st _ hinv, fun _ => by rw [reserveStation_is_active]; exact ha⟩
  | cancel userId resId =>
    rcases deleteReservation_station db userId resId i st h with h1 | h1
    · exact ⟨st, h1, hinv, hact⟩
    · refine ⟨_, h1, releaseStation_inv st, fun hne => ?_⟩
      rw [releaseStation_is_active]
      apply hact
      intro h0
      apply hne
      rw [reservedCount_releaseStation, h0]
      norm_num

theorem run_station_hold (ops : List Op) (db : Store) (i : Nat) (st : Station)
    (h : db.stations[i]? = some st) (hinv : StationInv st)
    (hact : reservedCount st ≠ 0 → truthy st.is_active = true) :
    ∃ st1, (run db ops).stations[i]? = some st1 ∧ StationInv st1 ∧
      (reservedCount st1 ≠ 0 → truthy st1.is_active = true) := by
  induction ops generalizing db st with
  | nil => exact ⟨st, h, hinv, hact⟩
  | cons op ops ih =>
    obtain ⟨st1, h1, hinv1, hact1⟩ := step_station_hold db op i st h hinv hact
    exact ih (step db op) st1 h1 hinv1 hact1

theorem postReservation_created (db : Store) (userId : String) (stationId minutes : JsVal)
    (now : Int) (newId : String) (r : Reservation) (status : Nat)
    (h : (postReservation db userId stationId minutes now newId).1 = .reservation status r) :
    ∃ ui user si st, findFirst (isUser userId) db.users = some (ui, user) ∧
      findFirst (isStation stationId) db.stations = some (si, st) ∧
      truthy st.is_active = true ∧ truthy st.available = true ∧
      (postReservation db userId stationId minutes now newId).2 =
        { users := db.users.set ui
            { user with reservations := some (user.reservations.getD [] ++ [r]) },
          stations := db.stations.set si
            (reserveStation st (if minutes = .undefined then .num 30 else minutes)) } ∧
      status = 201 ∧ r.id = newId ∧ r.stationId = stationId ∧ r.stationName = st.name ∧
      toISOString ((mathMax (some 10)
        (jsNumber (if minutes = .undefined then .num 30 else minutes))).map
          (fun m => (now : ℚ) + m * 60 * 1000)) = some r.expiresAt ∧
      toISOString (some (now : ℚ)) = some r.createdAt := by
  unfold postReservation at h ⊢
  simp only at h ⊢
  split at h
  · simp at h
  · rename_i ui user hu
    split at h
    · simp at h
    · rename_i si st hs
      split at h
      · simp at h
      · split at h
        · simp at h
        · rename_i ha hv
          split at h
          · simp at h
          · rename_i ex he
            split at h
            · simp at h
            · rename_i cr hcr
              simp only [Reply.reservation.injEq] at h
              obtain ⟨h1, h2⟩ := h
              subst h2
              refine ⟨ui, user, si, st, hu, hs, by simpa using ha, by simpa using hv, ?_, h1.symm,
                rfl, rfl, rfl, he, hcr⟩
              simp [hu, hs, ha, hv, he, hcr]

theorem findFirst_eq_none_iff {α : Type} {p : α → Bool} {l : List α} :
    findFirst p l = none ↔ ∀ x ∈ l, p x = false := by
  induction l with
  | nil => simp [findFirst]
  | cons y ys ih =>
    unfold findFirst
    by_cases hp : p y = true
    · simp [hp]
    · simp [hp, ih]

theorem findFirst_of_mem {α : Type} {p : α → Bool} {l : List α} {x : α}
    (hx : x ∈ l) (hp : p x = true) : ∃ i y, findFirst p l = some (i, y) := by
  cases h : findFirst p l with
  | none =>
    have := findFirst_eq_none_iff.1 h x hx
    rw [hp] at this
    cases this
  | some r => exact ⟨r.1, r.2, rfl⟩

theorem run_store1_create : run store1 [create1] = store1Held := by
  simp [run, step, create1, postReservation, store1, findFirst, isUser, user1, isStation, station1,
    numStrictEq, jsNumber, truthy, toISOString, mathMax, maxTimeValue, reserveStation, numberOr,
    ofNumber, truncate, store1Held, user1Held, station1Held, reservation1]
  norm_num [abs_le, Int.floor_eq_iff]

theorem toISOString_map_some {f : ℚ → ℚ} {o : Option ℚ} {t : Int}
    (h : toISOString (o.map f) = some t) : ∃ m, o = some m := by
  cases o with
  | none => simp [toISOString] at h
  | some m => exact ⟨m, rfl⟩

theorem mathMax_some_left {a : ℚ} {o : Option ℚ} {m : ℚ} (h : mathMax (some a) o = some m) :
    ∃ b, o = some b ∧ m = max a b := by
  cases o with
  | none => simp [mathMax] at h
  | some b => exact ⟨b, rfl, by simpa [mathMax] using h.symm⟩

theorem truncate_intCast (z : Int) : truncate (z : ℚ) = z := by
  unfold truncate
  split
  · exact Int.floor_intCast z
  · rw [← Int.cast_neg, Int.floor_intCast]; simp

theorem toISOString_some_iff (q : ℚ) (t : Int) :
    toISOString (some q) = some t ↔ |q| ≤ maxTimeValue ∧ truncate q = t := by
  unfold toISOString
  simp only
  split
  · rename_i h; simp [h]
  · rename_i h; simp [h]

theorem post_store1 :
    postReservation store1 "u1" (.num 1) (.num 5) 1000 "r1" =
      (.reservation 201 reservation1, store1Held) := by
  simp [postReservation, store1, findFirst, isUser, user1, isStation, station1,
    numStrictEq, jsNumber, truthy, toISOString, mathMax, maxTimeValue, reserveStation, numberOr,
    ofNumber, truncate, store1Held, user1Held, station1Held, reservation1]
  norm_num [abs_le, Int.floor_eq_iff]

theorem toISOString_eq_none_iff (q : ℚ) :
    toISOString (some q) = none ↔ ¬ |q| ≤ maxTimeValue := by
  unfold toISOString
  simp only
  split
  · rename_i h; simp [h]
  · rename_i h; simp [h]

theorem postReservation_checked (db : Store) (userId : String) (stationId minutes : JsVal)
    (now : Int) (newId : String) (ui : Nat) (user : User) (si : Nat) (st : Station)
    (hu : findFirst (isUser userId) db.users = some (ui, user))
    (hs : findFirst (isStation stationId) db.stations = some (si, st))
    (hact : truthy st.is_active = true) (hav : truthy st.available = true) :
    ((∃ m, jsNumber (if minutes = .undefined then .num 30 else minutes) = some m ∧
        |(now : ℚ) + max 10 m * 60 * 1000| ≤ 8640000000000000 ∧
        |(now : ℚ)| ≤ 8640000000000000) →
      ∃ r, (postReservation db userId stationId minutes now newId).1 = .reservation 201 r) ∧
    ((¬ ∃ m, jsNumber (if minutes = .undefined then .num 30 else minutes) = some m ∧
        |(now : ℚ) + max 10 m * 60 * 1000| ≤ 8640000000000000 ∧
        |(now : ℚ)| ≤ 8640000000000000) →
      postReservation db userId stationId minutes now newId = (.rangeError, db)) := by
  constructor
  · rintro ⟨m, hm, h1, h2⟩
    unfold postReservation
    simp only [hu, hs, hact, hav, hm, mathMax, Option.map_some']
    have e1 : toISOString (some ((now : ℚ) + max 10 m * 60 * 1000)) =
        some (truncate ((now : ℚ) + max 10 m * 60 * 1000)) :=
      (toISOString_some_iff _ _).2 ⟨h1, rfl⟩
    have e2 : toISOString (some (now : ℚ)) = some (truncate (now : ℚ)) :=
      (toISOString_some_iff _ _).2 ⟨h2, rfl⟩
    simp [e1, e2]
  · intro hno
    unfold postReservation
    simp only [hu, hs, hact, hav]
    cases hm : jsNumber (if minutes = .undefined then .num 30 else minutes) with
    | none => simp [mathMax, toISOString]
    | some m =>
      simp only [mathMax, Option.map_some']
      by_cases h1 : |(now : ℚ) + max 10 m * 60 * 1000| ≤ maxTimeValue
      · have h2 : ¬ |(now : ℚ)| ≤ maxTimeValue := fun h2 => hno ⟨m, hm, h1, h2⟩
        rw [(toISOString_some_iff _ _).2 ⟨h1, rfl⟩, (toISOString_eq_none_iff _).2 h2]
        simp
      · rw [(toISOString_eq_none_iff _).2 h1]
        simp

theorem truncate_int_add_of_int (z w : Int) (x : ℚ) (hx : x = w) :
    truncate ((z : ℚ) + x) = z + w := by
  subst hx
  rw [← Int.cast_add, truncate_intCast]

theorem truncate_le_floor_bounds (q : ℚ) : (truncate q : ℚ) - 1 < q ∧ q < (truncate q : ℚ) + 1 := by
  unfold truncate
  split
  · exact ⟨by linarith [Int.floor_le q], Int.lt_floor_add_one q⟩
  · have h1 := Int.floor_le (-q)
    have h2 := Int.lt_floor_add_one (-q)
    push_cast
    constructor <;> linarith

theorem truncate_int_add_ge (z : Int) (x : ℚ) (n : Int) (hn : (n : ℚ) ≤ x) :
    z + n ≤ truncate ((z : ℚ) + x) := by
  unfold truncate
  split
  · rw [Int.le_floor]; push_cast; linarith
  · have h2 := Int.floor_le (-((z : ℚ) + x))
    have : ((z + n : Int) : ℚ) ≤ ((-⌊-((z : ℚ) + x)⌋ : Int) : ℚ) := by
      push_cast; linarith
    exact_mod_cast this

theorem findFirst_set_self {α : Type} {p : α → Bool} {l : List α} {i : Nat} {x y : α}
    (h : findFirst p l = some (i, x)) (hy : p y = true) :
    findFirst p (l.set i y) = some (i, y) := by
  induction l generalizing i with
  | nil => simp [findFirst] at h
  | cons z zs ih =>
    unfold findFirst at h
    split at h
    · simp only [Option.some.injEq, Prod.mk.injEq] at h
      obtain ⟨rfl, rfl⟩ := h
      simp [findFirst, hy]
    · rename_i hz
      cases hf : findFirst p zs with
      | none => simp [hf] at h
      | some r =>
        obtain ⟨j, w⟩ := r
        simp only [hf, Option.map_some', Option.some.injEq, Prod.mk.injEq] at h
        obtain ⟨rfl, rfl⟩ := h
        simp [findFirst, hz, ih hf]

theorem set_of_getElem? {α : Type} {l : List α} {i : Nat} {x : α} (h : l[i]? = some x) :
    l.set i x = l := by
  induction l generalizing i with
  | nil => rfl
  | cons y ys ih =>
    cases i with
    | zero => simp at h; simp [h]
    | succ j => simp at h; simp [ih h]

theorem hasPreferred_iff (preferred : String) (st : Station) :
    hasPreferred preferred st = true ↔
      preferred ≠ "" ∧ ∃ c ∈ st.connections.getD [], c.type_name = preferred := by
  unfold hasPreferred
  by_cases hp : preferred = ""
  · simp [hp]
  · cases hc : st.connections with
    | none => simp [hp]
    | some cs => simp [hp, List.any_eq_true]

theorem distScore_nonneg (d : ℚ) (r : Option ℚ) : 0 ≤ distScore d r := le_max_left _ _

theorem priceScore_nonneg (st : Station) : 0 ≤ priceScore st := le_max_left _ _

theorem queueScore_nonneg (st : Station) : 0 ≤ queueScore st := le_max_left _ _

theorem availScore_mem (st : Station) : 0 ≤ availScore st ∧ availScore st ≤ 1 := by
  unfold availScore; split <;> norm_num

theorem plugScore_mem (p : String) (st : Station) : 0 ≤ plugScore p st ∧ plugScore p st ≤ 1 := by
  unfold plugScore; split <;> norm_num

theorem priceScore_le_one_iff (st : Station) : priceScore st ≤ 1 ↔ 0 ≤ price st := by
  unfold priceScore maxPrice
  rw [max_le_iff]
  constructor
  · rintro ⟨_, h⟩; linarith
  · intro h; constructor <;> linarith

theorem queueScore_le_one (st : Station) (h : 0 ≤ queue st) : queueScore st ≤ 1 := by
  unfold queueScore maxQueue
  rw [max_le_iff]
  constructor <;> linarith

theorem distScore_le_one (d : ℚ) (st : Station) (r : Option ℚ)
    (hs : scored d st r = true) (hd : 0 ≤ d) : distScore d r ≤ 1 := by
  have hpos : 0 < maxRange r := by
    cases r with
    | none => norm_num [maxRange]
    | some R =>
      have hle : d ≤ R := by
        simp only [scored, outOfRange, Bool.and_eq_true, Bool.not_eq_true', decide_eq_false_iff_not,
          not_lt] at hs
        exact hs.2
      unfold maxRange
      simp only
      split
      · norm_num
      · rename_i hne
        exact lt_of_le_of_ne (le_trans hd hle) (Ne.symm hne)
  unfold distScore
  rw [max_le_iff]
  refine ⟨by norm_num, ?_⟩
  have : 0 ≤ d / maxRange r := div_nonneg hd hpos.le
  linarith

theorem toFixed_eq (x : ℚ) (f : Nat) (n : Int) (h0 : 0 ≤ x)
    (h1 : (n : ℚ) ≤ x * 10 ^ f + 1 / 2) (h2 : x * 10 ^ f + 1 / 2 < n + 1) :
    toFixed x f = n / 10 ^ f := by
  unfold toFixed
  rw [if_pos h0, Int.floor_eq_iff.2 ⟨h1, h2⟩]

theorem toFixed_nonneg (x : ℚ) (f : Nat) (h0 : 0 ≤ x) : 0 ≤ toFixed x f := by
  unfold toFixed
  rw [if_pos h0]
  apply div_nonneg _ (by positivity)
  have : (0 : Int) ≤ ⌊x * 10 ^ f + 1 / 2⌋ := by
    rw [Int.le_floor]
    have : 0 ≤ x * 10 ^ f := by positivity
    push_cast; linarith
  exact_mod_cast this

theorem toFixed_nonpos (x : ℚ) (f : Nat) (h0 : x < 0) : toFixed x f ≤ 0 := by
  unfold toFixed
  rw [if_neg (not_le.2 h0)]
  have : (0 : Int) ≤ ⌊-x * 10 ^ f + 1 / 2⌋ := by
    rw [Int.le_floor]
    have : 0 ≤ -x * 10 ^ f := by
      have : 0 ≤ -x := by linarith
      positivity
    push_cast; linarith
  have h2 : (0 : ℚ) ≤ (⌊-x * 10 ^ f + 1 / 2⌋ : ℚ) / 10 ^ f :=
    div_nonneg (by exact_mod_cast this) (by positivity)
  linarith

theorem toFixed_mono (f : Nat) {x y : ℚ} (h : x ≤ y) : toFixed x f ≤ toFixed y f := by
  have hpow : (0 : ℚ) < 10 ^ f := by positivity
  by_cases hx : 0 ≤ x
  · have hy : 0 ≤ y := le_trans hx h
    unfold toFixed
    rw [if_pos hx, if_pos hy]
    apply div_le_div_of_nonneg_right _ hpow.le
    have : ⌊x * 10 ^ f + 1 / 2⌋ ≤ ⌊y * 10 ^ f + 1 / 2⌋ := by
      apply Int.floor_mono
      have := mul_le_mul_of_nonneg_right h hpow.le
      linarith
    exact_mod_cast this
  · have hx' : x < 0 := not_le.1 hx
    by_cases hy : 0 ≤ y
    · exact le_trans (toFixed_nonpos x f hx') (toFixed_nonneg y f hy)
    · unfold toFixed
      rw [if_neg hx, if_neg hy]
      apply neg_le_neg
      apply div_le_div_of_nonneg_right _ hpow.le
      have : ⌊-y * 10 ^ f + 1 / 2⌋ ≤ ⌊-x * 10 ^ f + 1 / 2⌋ := by
        apply Int.floor_mono
        have := mul_le_mul_of_nonneg_right (neg_le_neg h) hpow.le
        linarith
      exact_mod_cast this

theorem score_stationCcs : score 0 stationCcs 10 "CCS" none = 101 / 100 := by
  simp [score, critical, wDist, wPrice, wAvail, wQueue, wPlug, distScore, priceScore,
    availScore, queueScore, plugScore, maxRange, maxPrice, maxQueue, price, available, queue,
    hasPreferred, stationCcs, station1, numberOr, jsNumber, truthy]
  norm_num

theorem toFixed_zero (f : Nat) : toFixed 0 f = 0 := by
  rw [toFixed_eq 0 f 0 (le_refl _) (by norm_num) (by norm_num)]; simp

theorem score_mem (d : ℚ) (st : Station) (battery : ℚ) (preferred : String)
    (rangeKm : Option ℚ) (hs : scored d st rangeKm = true) (hd : 0 ≤ d)
    (hp : 0 ≤ price st) (hq : 0 ≤ queue st) :
    0 ≤ score d st battery preferred rangeKm ∧
    score d st battery preferred rangeKm ≤
      (if critical battery rangeKm = true then 1.05 else 0.95) := by
  have a1 := distScore_nonneg d rangeKm
  have a2 := distScore_le_one d st rangeKm hs hd
  have b1 := priceScore_nonneg st
  have b2 := (priceScore_le_one_iff st).2 hp
  have c := availScore_mem st
  have e1 := queueScore_nonneg st
  have e2 := queueScore_le_one st hq
  have f := plugScore_mem preferred st
  unfold score wQueue wPlug
  cases critical battery rangeKm
  · simp only [wDist, wPrice, wAvail, Bool.false_eq_true, if_false]
    constructor
    · nlinarith [c.1, f.1]
    · nlinarith [c.2, f.2]
  · simp only [wDist, wPrice, wAvail, if_true]
    constructor
    · nlinarith [c.1, f.1]
    · nlinarith [c.2, f.2]

theorem critical_iff (battery : ℚ) (rangeKm : Option ℚ) :
    critical battery rangeKm = true ↔ battery < 20 ∨ ∃ R, rangeKm = some R ∧ R < 20 := by
  unfold critical
  cases rangeKm with
  | none => simp
  | some R => simp

theorem toFixed_five : toFixed 5 2 = 5 := by
  rw [toFixed_eq 5 2 500 (by norm_num) (by norm_num) (by norm_num)]; norm_num

theorem toFixed_eight : toFixed 8 2 = 8 := by
  rw [toFixed_eq 8 2 800 (by norm_num) (by norm_num) (by norm_num)]; norm_num

theorem score_stationFar : score 8 stationFar 15 "" (some 10) = 59 / 100 := by
  simp [score, critical, wDist, wPrice, wAvail, wQueue, wPlug, distScore, priceScore,
    availScore, queueScore, plugScore, maxRange, maxPrice, maxQueue, price, available, queue,
    hasPreferred, stationFar, station1, numberOr, jsNumber, truthy]
  norm_num

theorem score_stationNear : score 5 stationNear 15 "" (some 10) = 41 / 100 := by
  simp [score, critical, wDist, wPrice, wAvail, wQueue, wPlug, distScore, priceScore,
    availScore, queueScore, plugScore, maxRange, maxPrice, maxQueue, price, available, queue,
    hasPreferred, stationNear, station1, numberOr, jsNumber, truthy]
  norm_num

theorem score_at_query_station1 : score 0 station1 50 "" none = 3 / 4 := by
  simp [score, critical, wDist, wPrice, wAvail, wQueue, wPlug, distScore, priceScore,
    availScore, queueScore, plugScore, maxRange, maxPrice, maxQueue, price, available, queue,
    hasPreferred, station1, numberOr, jsNumber, truthy]
  norm_num

theorem toNumber_none (v : JsVal) : toNumber v none = jsNumber v := by
  unfold toNumber
  cases jsNumber v <;> rfl

theorem distanceKm_real (M : JsMath ℝ) (hM : RealMath M) (lat1 lon1 lat2 lon2 : ℝ) :
    distanceKm M lat1 lon1 lat2 lon2 =
      2 * 6371 * Complex.arg
        ⟨Real.sqrt (1 - (Real.sin ((lat2 - lat1) * Real.pi / 180 / 2) ^ 2 +
            Real.cos (lat1 * Real.pi / 180) * Real.cos (lat2 * Real.pi / 180) *
              Real.sin ((lon2 - lon1) * Real.pi / 180 / 2) ^ 2)),
         Real.sqrt (Real.sin ((lat2 - lat1) * Real.pi / 180 / 2) ^ 2 +
            Real.cos (lat1 * Real.pi / 180) * Real.cos (lat2 * Real.pi / 180) *
              Real.sin ((lon2 - lon1) * Real.pi / 180 / 2) ^ 2)⟩ := by
  obtain ⟨h1, h2, h3, h4, h5⟩ := hM
  simp only [distanceKm, h1, h2, h3, h4, h5]

theorem sin_sq_half_swap (x y : ℝ) :
    Real.sin ((x - y) * Real.pi / 180 / 2) ^ 2 = Real.sin ((y - x) * Real.pi / 180 / 2) ^ 2 := by
  rw [show (x - y) * Real.pi / 180 / 2 = -((y - x) * Real.pi / 180 / 2) by ring,
    Real.sin_neg, neg_sq]

theorem distanceKm_eq_zero_of (M : JsMath ℝ) (hM : RealMath M) (lat1 lon1 lat2 lon2 : ℝ)
    (ha : Real.sin ((lat2 - lat1) * Real.pi / 180 / 2) ^ 2 +
      Real.cos (lat1 * Real.pi / 180) * Real.cos (lat2 * Real.pi / 180) *
        Real.sin ((lon2 - lon1) * Real.pi / 180 / 2) ^ 2 = 0) :
    distanceKm M lat1 lon1 lat2 lon2 = 0 := by
  rw [distanceKm_real M hM, ha, Real.sqrt_zero, sub_zero, Real.sqrt_one]
  have : Complex.arg ⟨1, 0⟩ = 0 := Complex.arg_eq_zero_iff.2 ⟨by norm_num, rfl⟩
  rw [this, mul_zero]

theorem distanceKm_pole (M : JsMath ℝ) (hM : RealMath M) (lon1 lon2 : ℝ) :
    distanceKm M 90 lon1 90 lon2 = 0 := by
  apply distanceKm_eq_zero_of M hM
  rw [show (90 : ℝ) * Real.pi / 180 = Real.pi / 2 by ring, Real.cos_pi_div_two]
  simp

theorem not_both_sublist {α : Type} {l : List α} (hl : l.Nodup) {a b : α}
    (h1 : List.Sublist [a, b] l) (h2 : List.Sublist [b, a] l) : False := by
  induction l with
  | nil => cases h1
  | cons x xs ih =>
    have hx : x ∉ xs := (List.nodup_cons.1 hl).1
    have hxs : xs.Nodup := (List.nodup_cons.1 hl).2
    cases h1 with
    | cons _ h1' =>
      cases h2 with
      | cons _ h2' => exact ih hxs h1' h2'
      | cons₂ _ h2' =>
        exact hx (h1'.subset (by simp))
    | cons₂ _ h1' =>
      cases h2 with
      | cons _ h2' => exact hx (h2'.subset (by simp))
      | cons₂ _ h2' => exact hx (h1'.subset (by simp))

theorem queryUser_battery : queryBattery queryUser = 15 := by
  simp [queryBattery, queryUser, queryCritical, toNumber, jsNumber]

theorem queryUser_range : queryRange queryUser = some 10 := by
  simp [queryRange, queryUser, queryCritical, toNumber, jsNumber]

theorem isStation_reserveStation (stationId : JsVal) (st : Station) (m : JsVal) :
    isStation stationId (reserveStation st m) = isStation stationId st := rfl

theorem isStation_releaseStation (stationId : JsVal) (st : Station) :
    isStation stationId (releaseStation st) = isStation stationId st := rfl

theorem exists_user_set (users : List User) (ui : Nat) (user user1 : User) (userId : String)
    (hui : users[ui]? = some user) (hid : user1.id = user.id)
    (h : ∃ u ∈ users, u.id = userId) : ∃ u ∈ users.set ui user1, u.id = userId := by
  obtain ⟨u, hu, huid⟩ := h
  obtain ⟨j, hj⟩ := List.mem_iff_getElem?.1 hu
  by_cases hji : ui = j
  · subst hji
    rw [hui] at hj
    cases hj
    refine ⟨user1, List.mem_iff_getElem?.2 ⟨ui, ?_⟩, by rw [hid, huid]⟩
    exact List.getElem?_set_self (List.getElem?_eq_some_iff.1 hui).1
  · exact ⟨u, List.mem_iff_getElem?.2 ⟨j, by rw [List.getElem?_set_ne hji, hj]⟩, huid⟩

theorem postReservation_held (db : Store) (userId : String) (stationId minutes : JsVal)
    (now : Int) (newId : String) (i : Nat) (st : Station)
    (hu : ∃ u ∈ db.users, u.id = userId)
    (hs : findFirst (isStation stationId) db.stations = some (i, st))
    (hact : truthy st.is_active = true) (hav : truthy st.available = false) :
    postReservation db userId stationId minutes now newId =
      (.message 400 "Station not available", db) := by
  obtain ⟨u, hmem, hid⟩ := hu
  obtain ⟨ui, user, hfu⟩ := findFirst_of_mem (p := isUser userId) hmem (by simp [isUser, hid])
  unfold postReservation
  simp [hfu, hs, hact, hav]

theorem run_of_fixed (db : Store) (ops : List Op) (h : ∀ op ∈ ops, step db op = db) :
    run db ops = db := by
  induction ops with
  | nil => rfl
  | cons op ops ih =>
    have h1 : step db op = db := h op (by simp)
    show run (step db op) ops = db
    rw [h1]
    exact ih (fun o ho => h o (by simp [ho]))

theorem find?_append_fresh (rs : List Reservation) (r : Reservation)
    (hfresh : ∀ x ∈ rs, x.id ≠ r.id) :
    (rs ++ [r]).find? (fun x => decide (x.id = r.id)) = some r := by
  induction rs with
  | nil => simp
  | cons y ys ih =>
    have hy : y.id ≠ r.id := hfresh y (by simp)
    simp only [List.cons_append, List.find?_cons, hy, decide_False]
    exact ih (fun x hx => hfresh x (by simp [hx]))

theorem flatMap_set_perm {α β : Type} (f : α → List β) (l : List α) (i : Nat) (a x : α)
    (h : l[i]? = some a) :
    ((l.set i x).flatMap f ++ f a).Perm (l.flatMap f ++ f x) := by
  induction l generalizing i with
  | nil => simp at h
  | cons y ys ih =>
    cases i with
    | zero =>
      simp only [List.getElem?_cons_zero, Option.some.injEq] at h
      subst h
      simp only [List.set_cons_zero, List.flatMap_cons]
      have h1 : ((f x ++ ys.flatMap f) ++ f y).Perm (f y ++ (f x ++ ys.flatMap f)) :=
        List.perm_append_comm
      have h2 : (f y ++ (f x ++ ys.flatMap f)).Perm (f y ++ (ys.flatMap f ++ f x)) :=
        List.Perm.append_left _ List.perm_append_comm
      rw [List.append_assoc (f y)]
      exact h1.trans h2
    | succ j =>
      simp only [List.getElem?_cons_succ] at h
      simp only [List.set_cons_succ, List.flatMap_cons, List.append_assoc]
      exact List.Perm.append_left _ (ih j h)

theorem sublist_flatMap_of_getElem? {α β : Type} (f : α → List β) (l : List α) (i : Nat)
    (a : α) (h : l[i]? = some a) : (f a).Sublist (l.flatMap f) := by
  induction l generalizing i with
  | nil => simp at h
  | cons y ys ih =>
    cases i with
    | zero =>
      simp only [List.getElem?_cons_zero, Option.some.injEq] at h
      subst h
      simp only [List.flatMap_cons]
      exact List.sublist_append_left _ _
    | succ j =>
      simp only [List.getElem?_cons_succ] at h
      simp only [List.flatMap_cons]
      exact (ih j h).trans (List.sublist_append_right _ _)

theorem perm_cons_filter_of_find (rs : List Reservation) (resId : String) (ex : Reservation)
    (hnd : (rs.map (fun r => r.id)).Nodup)
    (hex : rs.find? (fun r => decide (r.id = resId)) = some ex) :
    rs.Perm (ex :: rs.filter (fun r => decide (r.id ≠ resId))) := by
  induction rs with
  | nil => simp at hex
  | cons y ys ih =>
    simp only [List.map_cons, List.nodup_cons] at hnd
    by_cases hy : y.id = resId
    · simp only [List.find?_cons, hy, decide_True, Option.some.injEq] at hex
      subst hex
      have hall : ys.filter (fun r => decide (r.id ≠ resId)) = ys := by
        rw [List.filter_eq_self]
        intro r hr
        have : r.id ≠ y.id := fun e => hnd.1 (e ▸ List.mem_map_of_mem (fun r => r.id) hr)
        simpa [hy] using this
      simp only [List.filter_cons, hy, ne_eq, not_true_eq_false, decide_False,
        Bool.false_eq_true, if_false, hall]
      exact List.Perm.refl _
    · simp only [List.find?_cons, hy, decide_False] at hex
      have := ih hnd.2 hex
      simp only [List.filter_cons, hy, ne_eq, not_false_eq_true, decide_True, if_true]
      exact (List.Perm.cons y this).trans (List.Perm.swap ex y _)

theorem map_set_of_eq {α β : Type} (f : α → β) (l : List α) (i : Nat) (a x : α)
    (h : l[i]? = some a) (hf : f x = f a) : (l.set i x).map f = l.map f := by
  induction l generalizing i with
  | nil => rfl
  | cons y ys ih =>
    cases i with
    | zero =>
      simp only [List.getElem?_cons_zero, Option.some.injEq] at h
      subst h
      simp [hf]
    | succ j =>
      simp only [List.getElem?_cons_succ] at h
      simp [ih j h]

theorem numStrictEq_comm (a b : Option ℚ) : numStrictEq a b = numStrictEq b a := by
  cases a <;> cases b <;> simp [numStrictEq, eq_comm]

theorem numStrictEq_trans_right {a b c : Option ℚ} (h1 : numStrictEq a c = true)
    (h2 : numStrictEq b c = true) : numStrictEq a b = true := by
  cases a <;> cases b <;> cases c <;> simp_all [numStrictEq]

theorem distinct_at (db : Store) (hd : DistinctStationIds db) (i j : Nat) (a b : Station)
    (hij : i ≠ j) (ha : db.stations[i]? = some a) (hb : db.stations[j]? = some b) :
    numStrictEq (jsNumber a.id) (jsNumber b.id) = false := by
  unfold DistinctStationIds at hd
  rw [List.pairwise_iff_getElem] at hd
  obtain ⟨hi, rfl⟩ := List.getElem?_eq_some_iff.1 ha
  obtain ⟨hj, rfl⟩ := List.getElem?_eq_some_iff.1 hb
  rcases Nat.lt_or_gt_of_ne hij with h | h
  · have := hd i j (by simpa using hi) (by simpa using hj) h
    simpa using this
  · have := hd j i (by simpa using hj) (by simpa using hi) h
    rw [numStrictEq_comm]
    simpa using this

theorem isStation_other (db : Store) (hd : DistinctStationIds db) (i j : Nat) (a b : Station)
    (v : JsVal) (hij : i ≠ j) (ha : db.stations[i]? = some a) (hb : db.stations[j]? = some b)
    (hv : isStation v a = true) : isStation v b = false := by
  have hne := distinct_at db hd i j a b hij ha hb
  cases h : isStation v b with
  | false => rfl
  | true =>
    unfold isStation at hv h
    rw [numStrictEq_trans_right hv h] at hne
    cases hne

theorem postReservation_unchanged_or_created (db : Store) (userId : String)
    (stationId minutes : JsVal) (now : Int) (newId : String) :
    (postReservation db userId stationId minutes now newId).2 = db ∨
    ∃ r, (postReservation db userId stationId minutes now newId).1 = .reservation 201 r := by
  unfold postReservation
  simp only
  split
  · exact Or.inl rfl
  · split
    · exact Or.inl rfl
    · split
      · exact Or.inl rfl
      · split
        · exact Or.inl rfl
        · split
          · exact Or.inl rfl
          · split
            · exact Or.inl rfl
            · exact Or.inr ⟨_, rfl⟩

theorem holdCount_of_perm (db db2 : Store) (st : Station) (extra : List Reservation)
    (h : (allReservations db2).Perm (allReservations db ++ extra)) :
    holdCount db2 st = holdCount db st + extra.countP (fun r => isStation r.stationId st) := by
  unfold holdCount
  rw [List.Perm.countP_eq _ h, List.countP_append]

theorem holdCount_reserveStation (db : Store) (st : Station) (m : JsVal) :
    holdCount db (reserveStation st m) = holdCount db st := rfl

/-- A successful or failing create keeps the ledger. -/
theorem ledger_create (db : Store) (hd : DistinctStationIds db)
    (hr : DistinctReservationIds db) (hl : LedgerConsistent db) (userId : String)
    (stationId minutes : JsVal) (now : Int) (newId : String)
    (hfresh : newId ∉ (allReservations db).map (fun r => r.id)) :
    DistinctStationIds (postReservation db userId stationId minutes now newId).2 ∧
    DistinctReservationIds (postReservation db userId stationId minutes now newId).2 ∧
    LedgerConsistent (postReservation db userId stationId minutes now newId).2 := by
  rcases postReservation_unchanged_or_created db userId stationId minutes now newId with h | ⟨r, h⟩
  · rw [h]; exact ⟨hd, hr, hl⟩
  · obtain ⟨ui, user, si, st, hfu, hs, _, _, hst, _, hrid, hrst, _, _, _⟩ :=
      postReservation_created _ _ _ _ _ _ _ _ h
    obtain ⟨m1, hm1⟩ : ∃ m1, m1 = (if minutes = .undefined then JsVal.num 30 else minutes) :=
      ⟨_, rfl⟩
    rw [← hm1] at hst
    have hui := (findFirst_some hfu).1
    have hsi := (findFirst_some hs).1
    have hsilt : si < db.stations.length := (List.getElem?_eq_some_iff.1 hsi).1
    have hperm : (allReservations (postReservation db userId stationId minutes now newId).2).Perm
        (allReservations db ++ [r]) := by
      rw [hst]
      have h1 := flatMap_set_perm (fun u : User => u.reservations.getD []) db.users ui user
        { user with reservations := some (user.reservations.getD [] ++ [r]) } hui
      simp only [Option.getD_some] at h1
      unfold allReservations
      simp only
      rw [← List.append_assoc] at h1
      have h2 : ((db.users.flatMap (fun u : User => u.reservations.getD []) ++
          user.reservations.getD []) ++ [r]).Perm
          ((db.users.flatMap (fun u : User => u.reservations.getD []) ++ [r]) ++
            user.reservations.getD []) := by
        rw [List.append_assoc, List.append_assoc]
        exact List.Perm.append_left _ List.perm_append_comm
      exact (List.perm_append_right_iff _).1 (h1.trans h2)
    refine ⟨?_, ?_, ?_⟩
    · unfold DistinctStationIds at hd ⊢
      rw [hst]
      simp only
      rw [map_set_of_eq (fun s : Station => jsNumber s.id) db.stations si st
        (reserveStation st m1) hsi rfl]
      exact hd
    · unfold DistinctReservationIds at hr ⊢
      rw [(hperm.map (fun r => r.id)).nodup_iff, List.map_append, List.map_cons, List.map_nil]
      rw [List.nodup_append]
      refine ⟨hr, by simp, ?_⟩
      intro a ha hb
      simp only [List.mem_singleton] at hb
      rw [hb, hrid] at ha
      exact hfresh ha
    · intro st2 hst2
      rw [holdCount_of_perm db _ st2 [r] hperm]
      rw [hst] at hst2
      simp only at hst2
      obtain ⟨j, hj⟩ := List.mem_iff_getElem?.1 hst2
      by_cases hji : si = j
      · subst hji
        rw [List.getElem?_set_self hsilt] at hj
        cases hj
        have hp : isStation r.stationId (reserveStation st m1) = true := by
          rw [hrst, isStation_reserveStation]; exact (findFirst_some hs).2
        rw [reservedCount_reserveStation, holdCount_reserveStation,
          hl st (List.mem_iff_getElem?.2 ⟨si, hsi⟩)]
        simp [List.countP_cons, hp]
      · rw [List.getElem?_set_ne hji] at hj
        have hp : isStation r.stationId st2 = false := by
          rw [hrst]
          exact isStation_other db hd si j st st2 stationId hji hsi hj (findFirst_some hs).2
        rw [hl st2 (List.mem_iff_getElem?.2 ⟨j, hj⟩)]
        simp [List.countP_cons, hp]

theorem holdCount_of_perm_cons (db db2 : Store) (st : Station) (ex : Reservation)
    (h : (allReservations db).Perm (ex :: allReservations db2)) :
    holdCount db st = holdCount db2 st + if isStation ex.stationId st then 1 else 0 := by
  unfold holdCount
  rw [List.Perm.countP_eq _ h, List.countP_cons]

theorem holdCount_of_perm_eq (db db2 : Store) (st : Station)
    (h : (allReservations db2).Perm (allReservations db)) :
    holdCount db2 st = holdCount db st := by
  unfold holdCount
  rw [List.Perm.countP_eq _ h]

theorem allReservations_cancel_none (db : Store) (ui : Nat) (user : User)
    (hui : db.users[ui]? = some user) (resId : String) (stations : List Station)
    (hex : (user.reservations.getD []).find? (fun r => decide (r.id = resId)) = none) :
    (allReservations
      { users := db.users.set ui
          { user with
            reservations :=
              some ((user.reservations.getD []).filter (fun r => decide (r.id ≠ resId))) },
        stations := stations }).Perm (allReservations db) := by
  have hfil : (user.reservations.getD []).filter (fun r => decide (r.id ≠ resId)) =
      user.reservations.getD [] := by
    rw [List.filter_eq_self]
    intro a ha
    have := List.find?_eq_none.1 hex a ha
    simpa using this
  rw [hfil]
  have h1 := flatMap_set_perm (fun u : User => u.reservations.getD []) db.users ui user
    { user with reservations := some (user.reservations.getD []) } hui
  simp only [Option.getD_some] at h1
  unfold allReservations
  exact (List.perm_append_right_iff _).1 h1

theorem allReservations_cancel_some (db : Store) (hr : DistinctReservationIds db) (ui : Nat)
    (user : User) (hui : db.users[ui]? = some user) (resId : String) (stations : List Station)
    (ex : Reservation)
    (hex : (user.reservations.getD []).find? (fun r => decide (r.id = resId)) = some ex) :
    (allReservations db).Perm (ex :: allReservations
      { users := db.users.set ui
          { user with
            reservations :=
              some ((user.reservations.getD []).filter (fun r => decide (r.id ≠ resId))) },
        stations := stations }) := by
  have hsub := sublist_flatMap_of_getElem? (fun u : User => u.reservations.getD [])
    db.users ui user hui
  have hnd : ((user.reservations.getD []).map (fun r => r.id)).Nodup :=
    List.Nodup.sublist (hsub.map _) hr
  have hp := perm_cons_filter_of_find _ resId ex hnd hex
  have h1 := flatMap_set_perm (fun u : User => u.reservations.getD []) db.users ui user
    { user with
      reservations :=
        some ((user.reservations.getD []).filter (fun r => decide (r.id ≠ resId))) } hui
  simp only [Option.getD_some] at h1
  unfold allReservations
  simp only
  have h2 : ((ex :: (db.users.set ui
      { user with
        reservations :=
          some ((user.reservations.getD []).filter (fun r => decide (r.id ≠ resId))) }).flatMap
        (fun u : User => u.reservations.getD [])) ++
      (user.reservations.getD []).filter (fun r => decide (r.id ≠ resId))).Perm
      (db.users.flatMap (fun u : User => u.reservations.getD []) ++
        (user.reservations.getD []).filter (fun r => decide (r.id ≠ resId))) := by
    refine List.Perm.trans ?_ h1
    rw [List.cons_append]
    refine List.Perm.trans List.perm_middle.symm ?_
    exact List.Perm.append_left _ hp.symm
  exact ((List.perm_append_right_iff _).1 h2).symm

/-- A cancel keeps the ledger. -/
theorem ledger_cancel (db : Store) (hd : DistinctStationIds db)
    (hr : DistinctReservationIds db) (hl : LedgerConsistent db) (userId resId : String) :
    DistinctStationIds (deleteReservation db userId resId).2 ∧
    DistinctReservationIds (deleteReservation db userId resId).2 ∧
    LedgerConsistent (deleteReservation db userId resId).2 := by
  unfold deleteReservation
  cases hfu : findFirst (isUser userId) db.users with
  | none => exact ⟨hd, hr, hl⟩
  | some p =>
    obtain ⟨ui, user⟩ := p
    have hui := (findFirst_some hfu).1
    simp only
    cases hex : (user.reservations.getD []).find? (fun r => decide (r.id = resId)) with
    | none =>
      simp only
      have hperm := allReservations_cancel_none db ui user hui resId db.stations hex
      refine ⟨hd, ?_, ?_⟩
      · unfold DistinctReservationIds at hr ⊢
        rw [(hperm.map (fun r => r.id)).nodup_iff]
        exact hr
      · intro st hst
        rw [holdCount_of_perm_eq db _ st hperm]
        exact hl st hst
    | some ex =>
      simp only
      cases hs : findFirst (isStation ex.stationId) db.stations with
      | none =>
        simp only
        have hperm := allReservations_cancel_some db hr ui user hui resId db.stations ex hex
        refine ⟨hd, ?_, ?_⟩
        · unfold DistinctReservationIds at hr ⊢
          rw [(hperm.map (fun r => r.id)).nodup_iff, List.map_cons] at hr
          exact (List.nodup_cons.1 hr).2
        · intro st hst
          have h0 := hl st hst
          rw [holdCount_of_perm_cons db _ st ex hperm,
            findFirst_eq_none_iff.1 hs st hst] at h0
          simpa using h0
      | some q =>
        obtain ⟨si, st⟩ := q
        simp only
        have hsi := (findFirst_some hs).1
        have hsilt : si < db.stations.length := (List.getElem?_eq_some_iff.1 hsi).1
        have hperm := allReservations_cancel_some db hr ui user hui resId
          (db.stations.set si (releaseStation st)) ex hex
        refine ⟨?_, ?_, ?_⟩
        · unfold DistinctStationIds at hd ⊢
          simp only
          rw [map_set_of_eq (fun s : Station => jsNumber s.id) db.stations si st
            (releaseStation st) hsi rfl]
          exact hd
        · unfold DistinctReservationIds at hr ⊢
          rw [(hperm.map (fun r => r.id)).nodup_iff, List.map_cons] at hr
          exact (List.nodup_cons.1 hr).2
        · intro st2 hst2
          simp only at hst2
          obtain ⟨j, hj⟩ := List.mem_iff_getElem?.1 hst2
          by_cases hji : si = j
          · subst hji
            rw [List.getElem?_set_self hsilt] at hj
            cases hj
            have h0 := hl st (List.mem_iff_getElem?.2 ⟨si, hsi⟩)
            rw [holdCount_of_perm_cons db _ st ex hperm, (findFirst_some hs).2] at h0
            rw [reservedCount_releaseStation, h0]
            change _ = ((holdCount _ st : Nat) : ℚ)
            simp
          · rw [List.getElem?_set_ne hji] at hj
            have hp : isStation ex.stationId st2 = false :=
              isStation_other db hd si j st st2 ex.stationId hji hsi hj (findFirst_some hs).2
            have h0 := hl st2 (List.mem_iff_getElem?.2 ⟨j, hj⟩)
            rw [holdCount_of_perm_cons db _ st2 ex hperm, hp] at h0
            simpa using h0

/-! ### The recommendation handler with `NaN` distances -/

theorem stationDistance_here (st : Station) (lat lng : ℚ) (h1 : st.latitude = .num lat)
    (h2 : st.longitude = .num lng) : stationDistance gridDistance lat lng st = some 0 := by
  simp [stationDistance, h1, h2, jsNumber, gridDistance]

theorem stationDistance_of_nan_latitude (distanceKm : ℚ → ℚ → ℚ → ℚ → Option ℚ) (lat lng : ℚ)
    (st : Station) (h : jsNumber st.latitude = none) :
    stationDistance distanceKm lat lng st = none := by
  simp [stationDistance, h]

theorem scoreStation_eq (distanceKm : ℚ → ℚ → ℚ → ℚ → Option ℚ) (lat lng battery : ℚ)
    (preferred : String) (rangeKm : Option ℚ) (st : Station) :
    scoreStation distanceKm lat lng battery preferred rangeKm st =
      if pushed (stationDistance distanceKm lat lng st) st rangeKm then
        some (entryOf distanceKm lat lng battery preferred rangeKm st)
      else none := by
  unfold scoreStation pushed entryOf
  by_cases ha : truthy st.is_active = true
  · cases hd : stationDistance distanceKm lat lng st with
    | none => simp [ha]
    | some d =>
      by_cases ho : outOfRange d rangeKm = true
      · simp [ha, ho]
      · simp [ha, ho]
  · simp [ha]

theorem entryOf_station (distanceKm : ℚ → ℚ → ℚ → ℚ → Option ℚ) (lat lng battery : ℚ)
    (preferred : String) (rangeKm : Option ℚ) (st : Station) :
    (entryOf distanceKm lat lng battery preferred rangeKm st).station = st := by
  unfold entryOf
  cases stationDistance distanceKm lat lng st <;> rfl

theorem recommendations_eq_map (distanceKm : ℚ → ℚ → ℚ → ℚ → Option ℚ)
    (lat lng battery : ℚ) (preferred : String) (rangeKm : Option ℚ) (stations : List Station) :
    recommendations distanceKm lat lng battery preferred rangeKm stations =
      (stations.filter (fun st =>
        pushed (stationDistance distanceKm lat lng st) st rangeKm)).map
        (entryOf distanceKm lat lng battery preferred rangeKm) := by
  unfold recommendations
  induction stations with
  | nil => rfl
  | cons st sts ih =>
    by_cases hs : pushed (stationDistance distanceKm lat lng st) st rangeKm = true
    · rw [List.filterMap_cons_some (by rw [scoreStation_eq, if_pos hs]), ih]
      simp [List.filter_cons, hs]
    · rw [List.filterMap_cons_none (by rw [scoreStation_eq, if_neg hs]), ih]
      simp [List.filter_cons, hs]

theorem mem_recommendations (distanceKm : ℚ → ℚ → ℚ → ℚ → Option ℚ) (lat lng battery : ℚ)
    (preferred : String) (rangeKm : Option ℚ) (stations : List Station) (r : Recommendation) :
    r ∈ recommendations distanceKm lat lng battery preferred rangeKm stations ↔
      r.station ∈ stations ∧
      pushed (stationDistance distanceKm lat lng r.station) r.station rangeKm = true ∧
      r = entryOf distanceKm lat lng battery preferred rangeKm r.station := by
  rw [recommendations_eq_map, List.mem_map]
  constructor
  · rintro ⟨st, hst, rfl⟩
    rw [List.mem_filter] at hst
    rw [entryOf_station]
    exact ⟨hst.1, hst.2, rfl⟩
  · rintro ⟨hst, hp, hr⟩
    exact ⟨r.station, List.mem_filter.2 ⟨hst, hp⟩, hr.symm⟩

theorem binaryInsert_perm (arr : List Recommendation) (pivot : Recommendation) :
    (binaryInsert arr pivot).Perm (pivot :: arr) := by
  unfold binaryInsert
  refine List.perm_middle.trans ?_
  rw [List.take_append_drop]

theorem foldl_binaryInsert_perm (l acc : List Recommendation) :
    (l.foldl binaryInsert acc).Perm (acc ++ l) := by
  induction l generalizing acc with
  | nil => simp
  | cons x xs ih =>
    rw [List.foldl_cons]
    refine (ih _).trans ?_
    refine ((binaryInsert_perm acc x).append_right xs).trans ?_
    rw [List.cons_append]
    exact List.perm_middle.symm

theorem nodeSort_perm (rs : List Recommendation) : (nodeSort rs).Perm rs := by
  match rs with
  | [] => exact List.Perm.refl _
  | [a] => exact List.Perm.refl _
  | a :: b :: rest =>
    unfold nodeSort
    refine (foldl_binaryInsert_perm _ _).trans ?_
    have hsplit : (a :: b :: rest.take (runTail (decide (compareScore b a < 0)) b rest)) ++
        rest.drop (runTail (decide (compareScore b a < 0)) b rest) = a :: b :: rest := by
      rw [List.cons_append, List.cons_append, List.take_append_drop]
    split
    · rw [← hsplit]
      exact (List.reverse_perm _).append_right _
    · rw [hsplit]

theorem sortByScore_perm (rs : List Recommendation) : (sortByScore rs).Perm rs := by
  unfold sortByScore
  split
  · exact List.perm_insertionSort scoreGe rs
  · exact nodeSort_perm rs

theorem mem_sortByScore {rs : List Recommendation} {r : Recommendation} :
    r ∈ sortByScore rs ↔ r ∈ rs := (sortByScore_perm rs).mem_iff

theorem mem_of_mem_topRecommendations (distanceKm : ℚ → ℚ → ℚ → ℚ → Option ℚ)
    (lat lng battery : ℚ) (preferred : String) (rangeKm : Option ℚ) (stations : List Station)
    (r : Recommendation)
    (h : r ∈ topRecommendations distanceKm lat lng battery preferred rangeKm stations) :
    r ∈ recommendations distanceKm lat lng battery preferred rangeKm stations := by
  unfold topRecommendations at h
  exact mem_sortByScore.1 (List.mem_of_mem_take h)

theorem getRecommend_reply (distanceKm : ℚ → ℚ → ℚ → ℚ → Option ℚ) (db : Store)
    (q : RecommendQuery) (time : String) (lat lng : ℚ)
    (hlat : toNumber q.lat none = some lat) (hlng : toNumber q.lng none = some lng) :
    (getRecommend distanceKm db q time).1 =
      .stations 200 (topRecommendations distanceKm lat lng (queryBattery q) q.preferred
        (queryRange q) db.stations) := by
  unfold getRecommend
  simp only [hlat, hlng]
  split
  · split <;> simp_all
  · simp_all

theorem sortByScore_of_numeric (rs : List Recommendation)
    (h : ∀ r ∈ rs, ∃ s, r.score = some s) : sortByScore rs = rs.insertionSort scoreGe := by
  unfold sortByScore
  rw [if_pos]
  rw [List.all_eq_true]
  intro r hr
  obtain ⟨s, hs⟩ := h r hr
  simp [hs]

theorem recommendations_numeric (distanceKm : ℚ → ℚ → ℚ → ℚ → Option ℚ) (lat lng battery : ℚ)
    (preferred : String) (rangeKm : Option ℚ) (stations : List Station)
    (hnum : DistancesNumeric distanceKm lat lng stations) :
    ∀ r ∈ recommendations distanceKm lat lng battery preferred rangeKm stations,
      ∃ s, r.score = some s := by
  intro r hr
  obtain ⟨hst, hp, he⟩ := (mem_recommendations _ _ _ _ _ _ _ _).1 hr
  have hact : truthy r.station.is_active = true := by
    unfold pushed at hp
    simp only [Bool.and_eq_true] at hp
    exact hp.1
  have hd := hnum r.station hst hact
  cases hdist : stationDistance distanceKm lat lng r.station with
  | none => exact absurd hdist hd
  | some d =>
    rw [he]
    unfold entryOf
    simp [hdist]

theorem entryOf_of_distance (distanceKm : ℚ → ℚ → ℚ → ℚ → Option ℚ) (lat lng battery : ℚ)
    (preferred : String) (rangeKm : Option ℚ) (st : Station) (d : ℚ)
    (h : stationDistance distanceKm lat lng st = some d) :
    entryOf distanceKm lat lng battery preferred rangeKm st =
      { station := st, distance_km := some (toFixed d 2),
        score := some (toFixed (score d st battery preferred rangeKm) 4) } := by
  unfold entryOf
  rw [h]

theorem entryOf_of_nan (distanceKm : ℚ → ℚ → ℚ → ℚ → Option ℚ) (lat lng battery : ℚ)
    (preferred : String) (rangeKm : Option ℚ) (st : Station)
    (h : stationDistance distanceKm lat lng st = none) :
    entryOf distanceKm lat lng battery preferred rangeKm st =
      { station := st, distance_km := none, score := none } := by
  unfold entryOf
  rw [h]

theorem toFixed_hundredths (n : ℕ) : toFixed ((n : ℚ) / 100) 4 = (n : ℚ) / 100 := by
  rw [toFixed_eq _ 4 ((n : ℤ) * 100) (by positivity) (by push_cast; linarith)
    (by push_cast; linarith)]
  push_cast
  ring

theorem score_stationHeld : score 0 stationHeld 50 "" (some 10) = 61 / 100 := by
  simp [score, critical, wDist, wPrice, wAvail, wQueue, wPlug, distScore, priceScore,
    availScore, queueScore, plugScore, maxRange, maxPrice, maxQueue, price, available, queue,
    hasPreferred, stationHeld, station1, numberOr, jsNumber, truthy]
  norm_num

theorem score_station1_range : score 0 station1 50 "" (some 10) = 91 / 100 := by
  simp [score, critical, wDist, wPrice, wAvail, wQueue, wPlug, distScore, priceScore,
    availScore, queueScore, plugScore, maxRange, maxPrice, maxQueue, price, available, queue,
    hasPreferred, station1, numberOr, jsNumber, truthy]
  norm_num

theorem score_stationCheap : score 0 stationCheap 50 "" (some 10) = 94 / 100 := by
  simp [score, critical, wDist, wPrice, wAvail, wQueue, wPlug, distScore, priceScore,
    availScore, queueScore, plugScore, maxRange, maxPrice, maxQueue, price, available, queue,
    hasPreferred, stationCheap, station1, numberOr, jsNumber, truthy]
  norm_num

theorem score_stationCcs_range : score 0 stationCcs 50 "" (some 10) = 91 / 100 := by
  simp [score, critical, wDist, wPrice, wAvail, wQueue, wPlug, distScore, priceScore,
    availScore, queueScore, plugScore, maxRange, maxPrice, maxQueue, price, available, queue,
    hasPreferred, stationCcs, station1, numberOr, jsNumber, truthy]
  norm_num

theorem recommendations_storeMixed :
    recommendations gridDistance 41 29 50 "" (some 10) storeMixed.stations =
      [{ station := stationHeld, distance_km := some 0, score := some (61 / 100) },
       { station := stationNoLat, distance_km := none, score := none },
       { station := station1, distance_km := some 0, score := some (91 / 100) },
       { station := stationCheap, distance_km := some 0, score := some (94 / 100) }] := by
  have dH : stationDistance gridDistance 41 29 stationHeld = some 0 :=
    stationDistance_here _ 41 29 rfl rfl
  have dN : stationDistance gridDistance 41 29 stationNoLat = none :=
    stationDistance_of_nan_latitude _ 41 29 _ rfl
  have d1 : stationDistance gridDistance 41 29 station1 = some 0 :=
    stationDistance_here _ 41 29 rfl rfl
  have dC : stationDistance gridDistance 41 29 stationCheap = some 0 :=
    stationDistance_here _ 41 29 rfl rfl
  have h61 := toFixed_hundredths 61
  have h91 := toFixed_hundredths 91
  have h94 := toFixed_hundredths 94
  simp only [Nat.cast_ofNat] at h61 h91 h94
  rw [recommendations_eq_map]
  have hf : storeMixed.stations.filter (fun st =>
      pushed (stationDistance gridDistance 41 29 st) st (some 10)) =
      [stationHeld, stationNoLat, station1, stationCheap] := by
    have pH : pushed (stationDistance gridDistance 41 29 stationHeld) stationHeld (some 10) =
        true := by rw [dH]; simp [pushed, outOfRange, stationHeld, station1, truthy]
    have pN : pushed (stationDistance gridDistance 41 29 stationNoLat) stationNoLat
        (some 10) = true := by rw [dN]; simp [pushed, stationNoLat, station1, truthy]
    have p1 : pushed (stationDistance gridDistance 41 29 station1) station1 (some 10) =
        true := by rw [d1]; simp [pushed, outOfRange, station1, truthy]
    have pC : pushed (stationDistance gridDistance 41 29 stationCheap) stationCheap
        (some 10) = true := by rw [dC]; simp [pushed, outOfRange, stationCheap, station1, truthy]
    simp only [storeMixed, List.filter_cons, pH, pN, p1, pC, if_true, List.filter_nil]
  rw [hf]
  simp only [List.map_cons, List.map_nil]
  rw [entryOf_of_distance _ _ _ _ _ _ _ 0 dH, entryOf_of_nan _ _ _ _ _ _ _ dN,
    entryOf_of_distance _ _ _ _ _ _ _ 0 d1, entryOf_of_distance _ _ _ _ _ _ _ 0 dC,
    score_stationHeld, score_station1_range, score_stationCheap, toFixed_zero, h61, h91, h94]

theorem top_storeMixed :
    topRecommendations gridDistance 41 29 50 "" (some 10) storeMixed.stations =
      [{ station := stationHeld, distance_km := some 0, score := some (61 / 100) },
       { station := stationNoLat, distance_km := none, score := none },
       { station := stationCheap, distance_km := some 0, score := some (94 / 100) }] := by
  unfold topRecommendations
  rw [recommendations_storeMixed]
  simp [sortByScore, nodeSort, runTail, compareScore]
  norm_num
  simp [binaryInsert, searchPos, compareScore]
  norm_num

theorem top_storeFull :
    topRecommendations gridDistance 41 29 50 "" (some 10) storeFull.stations =
      [{ station := stationCheap, distance_km := some 0, score := some (94 / 100) },
       { station := station1, distance_km := some 0, score := some (91 / 100) },
       { station := stationCcs, distance_km := some 0, score := some (91 / 100) }] := by
  have dH : stationDistance gridDistance 41 29 stationHeld = some 0 :=
    stationDistance_here _ 41 29 rfl rfl
  have d1 : stationDistance gridDistance 41 29 station1 = some 0 :=
    stationDistance_here _ 41 29 rfl rfl
  have dC : stationDistance gridDistance 41 29 stationCheap = some 0 :=
    stationDistance_here _ 41 29 rfl rfl
  have dB : stationDistance gridDistance 41 29 stationCcs = some 0 :=
    stationDistance_here _ 41 29 rfl rfl
  have h61 := toFixed_hundredths 61
  have h91 := toFixed_hundredths 91
  have h94 := toFixed_hundredths 94
  simp only [Nat.cast_ofNat] at h61 h91 h94
  have pH : pushed (stationDistance gridDistance 41 29 stationHeld) stationHeld (some 10) =
      true := by rw [dH]; simp [pushed, outOfRange, stationHeld, station1, truthy]
  have p1 : pushed (stationDistance gridDistance 41 29 station1) station1 (some 10) =
      true := by rw [d1]; simp [pushed, outOfRange, station1, truthy]
  have pC : pushed (stationDistance gridDistance 41 29 stationCheap) stationCheap
      (some 10) = true := by rw [dC]; simp [pushed, outOfRange, stationCheap, station1, truthy]
  have pB : pushed (stationDistance gridDistance 41 29 stationCcs) stationCcs
      (some 10) = true := by rw [dB]; simp [pushed, outOfRange, stationCcs, station1, truthy]
  unfold topRecommendations
  rw [recommendations_eq_map]
  simp only [storeFull, List.filter_cons, pH, p1, pC, pB, if_true, List.filter_nil,
    List.map_cons, List.map_nil]
  rw [entryOf_of_distance _ _ _ _ _ _ _ 0 dH, entryOf_of_distance _ _ _ _ _ _ _ 0 d1,
    entryOf_of_distance _ _ _ _ _ _ _ 0 dC, entryOf_of_distance _ _ _ _ _ _ _ 0 dB,
    score_stationHeld, score_station1_range, score_stationCheap, score_stationCcs_range,
    toFixed_zero, h61, h91, h94]
  simp [sortByScore, List.insertionSort]
  norm_num [List.orderedInsert, scoreGe]

theorem distancesNumeric_storeFull : DistancesNumeric gridDistance 41 29 storeFull.stations := by
  intro st hst _
  simp only [storeFull, List.mem_cons, List.mem_singleton, List.not_mem_nil, or_false] at hst
  rcases hst with rfl | rfl | rfl | rfl <;>
    · rw [stationDistance_here _ 41 29 rfl rfl]; simp

theorem pushed_of_nan (st : Station) (rangeKm : Option ℚ) (hact : truthy st.is_active = true) :
    pushed none st rangeKm = true := by
  simp [pushed, hact]

theorem pushed_some_iff (d : ℚ) (st : Station) (rangeKm : Option ℚ) :
    pushed (some d) st rangeKm = scored d st rangeKm := rfl

theorem top_single_nan (distanceKm : ℚ → ℚ → ℚ → ℚ → Option ℚ) (lat lng battery : ℚ)
    (preferred : String) (rangeKm : Option ℚ) (st : Station)
    (hact : truthy st.is_active = true)
    (hd : stationDistance distanceKm lat lng st = none) :
    topRecommendations distanceKm lat lng battery preferred rangeKm [st] =
      [{ station := st, distance_km := none, score := none }] := by
  unfold topRecommendations
  rw [recommendations_eq_map]
  have hp : pushed (stationDistance distanceKm lat lng st) st rangeKm = true := by
    rw [hd]; exact pushed_of_nan st rangeKm hact
  simp only [List.filter_cons, hp, if_true, List.filter_nil, List.map_cons, List.map_nil]
  rw [entryOf_of_nan _ _ _ _ _ _ _ hd]
  simp [sortByScore, nodeSort]

theorem top_storeTie :
    topRecommendations gridDistance 41 29 50 "" (some 10) storeTie.stations =
      [{ station := stationHeld, distance_km := some 0, score := some (61 / 100) },
       { station := stationNoLat, distance_km := none, score := none },
       { station := station1, distance_km := some 0, score := some (91 / 100) }] := by
  have dH : stationDistance gridDistance 41 29 stationHeld = some 0 :=
    stationDistance_here _ 41 29 rfl rfl
  have dN : stationDistance gridDistance 41 29 stationNoLat = none :=
    stationDistance_of_nan_latitude _ 41 29 _ rfl
  have d1 : stationDistance gridDistance 41 29 station1 = some 0 :=
    stationDistance_here _ 41 29 rfl rfl
  have dC : stationDistance gridDistance 41 29 stationCcs = some 0 :=
    stationDistance_here _ 41 29 rfl rfl
  have h61 := toFixed_hundredths 61
  have h91 := toFixed_hundredths 91
  simp only [Nat.cast_ofNat] at h61 h91
  have pH : pushed (stationDistance gridDistance 41 29 stationHeld) stationHeld (some 10) =
      true := by rw [dH]; simp [pushed, outOfRange, stationHeld, station1, truthy]
  have pN : pushed (stationDistance gridDistance 41 29 stationNoLat) stationNoLat
      (some 10) = true := by rw [dN]; simp [pushed, stationNoLat, station1, truthy]
  have p1 : pushed (stationDistance gridDistance 41 29 station1) station1 (some 10) =
      true := by rw [d1]; simp [pushed, outOfRange, station1, truthy]
  have pC : pushed (stationDistance gridDistance 41 29 stationCcs) stationCcs
      (some 10) = true := by rw [dC]; simp [pushed, outOfRange, stationCcs, station1, truthy]
  unfold topRecommendations
  rw [recommendations_eq_map]
  simp only [storeTie, List.filter_cons, pH, pN, p1, pC, if_true, List.filter_nil,
    List.map_cons, List.map_nil]
  rw [entryOf_of_distance _ _ _ _ _ _ _ 0 dH, entryOf_of_nan _ _ _ _ _ _ _ dN,
    entryOf_of_distance _ _ _ _ _ _ _ 0 d1, entryOf_of_distance _ _ _ _ _ _ _ 0 dC,
    score_stationHeld, score_station1_range, score_stationCcs_range, toFixed_zero, h61, h91]
  simp [sortByScore, nodeSort, runTail, compareScore]

theorem top_near_far (distanceKm : ℚ → ℚ → ℚ → ℚ → Option ℚ)
    (hfar : distanceKm 41 29 (4108 / 100) 29 = some 8)
    (hnear : distanceKm 41 29 (4105 / 100) 29 = some 5) :
    topRecommendations distanceKm 41 29 15 "" (some 10) [stationNear, stationFar] =
      [{ station := stationFar, distance_km := some 8, score := some (59 / 100) },
       { station := stationNear, distance_km := some 5, score := some (41 / 100) }] := by
  have dF : stationDistance distanceKm 41 29 stationFar = some 8 := by
    simp [stationDistance, stationFar, station1, jsNumber, hfar]
  have dN : stationDistance distanceKm 41 29 stationNear = some 5 := by
    simp [stationDistance, stationNear, station1, jsNumber, hnear]
  have h59 := toFixed_hundredths 59
  have h41 := toFixed_hundredths 41
  simp only [Nat.cast_ofNat] at h59 h41
  have pF : pushed (stationDistance distanceKm 41 29 stationFar) stationFar (some 10) =
      true := by rw [dF]; simp [pushed, outOfRange, stationFar, station1, truthy]; norm_num
  have pN : pushed (stationDistance distanceKm 41 29 stationNear) stationNear (some 10) =
      true := by rw [dN]; simp [pushed, outOfRange, stationNear, station1, truthy]; norm_num
  unfold topRecommendations
  rw [recommendations_eq_map]
  simp only [List.filter_cons, pF, pN, if_true, List.filter_nil, List.map_cons, List.map_nil]
  rw [entryOf_of_distance _ _ _ _ _ _ _ 5 dN, entryOf_of_distance _ _ _ _ _ _ _ 8 dF,
    score_stationFar, score_stationNear, toFixed_five, toFixed_eight, h59, h41]
  simp [sortByScore, List.insertionSort, List.orderedInsert, scoreGe]
  norm_num

theorem top_storeExample :
    topRecommendations gridDistance 41 29 15 "" (some 10) storeExample.stations =
      [{ station := stationFar, distance_km := some 8, score := some (59 / 100) },
       { station := stationNear, distance_km := some 5, score := some (41 / 100) }] :=
  top_near_far gridDistance (by norm_num [gridDistance, abs_of_nonneg])
    (by norm_num [gridDistance, abs_of_nonneg])

theorem top_single_here (st : Station) (battery : ℚ) (preferred : String) (s : ℕ)
    (hact : truthy st.is_active = true)
    (h1 : st.latitude = .num 41) (h2 : st.longitude = .num 29)
    (hs : score 0 st battery preferred none = (s : ℚ) / 100) :
    topRecommendations gridDistance 41 29 battery preferred none [st] =
      [{ station := st, distance_km := some 0, score := some ((s : ℚ) / 100) }] := by
  have d : stationDistance gridDistance 41 29 st = some 0 := stationDistance_here _ 41 29 h1 h2
  have hp : pushed (stationDistance gridDistance 41 29 st) st none = true := by
    rw [d]; simp [pushed, outOfRange, hact]
  unfold topRecommendations
  rw [recommendations_eq_map]
  simp only [List.filter_cons, hp, if_true, List.filter_nil, List.map_cons, List.map_nil]
  rw [entryOf_of_distance _ _ _ _ _ _ _ 0 d, hs, toFixed_zero, toFixed_hundredths]
  simp [sortByScore, List.insertionSort, List.orderedInsert]

theorem score_station1_empty_battery : score 0 station1 0 "" none = 91 / 100 := by
  simp [score, critical, wDist, wPrice, wAvail, wQueue, wPlug, distScore, priceScore,
    availScore, queueScore, plugScore, maxRange, maxPrice, maxQueue, price, available, queue,
    hasPreferred, station1, numberOr, jsNumber, truthy]
  norm_num

theorem score_stationNegPrice : score 0 stationNegPrice 50 "" none = 90 / 100 := by
  simp [score, critical, wDist, wPrice, wAvail, wQueue, wPlug, distScore, priceScore,
    availScore, queueScore, plugScore, maxRange, maxPrice, maxQueue, price, available, queue,
    hasPreferred, stationNegPrice, station1, numberOr, jsNumber, truthy]
  norm_num

theorem top_stationCcs :
    topRecommendations gridDistance 41 29 10 "CCS" none [stationCcs] =
      [{ station := stationCcs, distance_km := some 0, score := some (101 / 100) }] := by
  have h := top_single_here stationCcs 10 "CCS" 101 rfl rfl rfl
    (by rw [score_stationCcs]; norm_num)
  simpa using h

theorem pushed_iff (d : Option ℚ) (st : Station) (rangeKm : Option ℚ) :
    pushed d st rangeKm = true ↔
      (truthy st.is_active = true ∧ ∀ R x, rangeKm = some R → d = some x → x ≤ R) := by
  unfold pushed outOfRange
  cases d with
  | none => simp
  | some x =>
    cases rangeKm with
    | none => simp
    | some R => simp

theorem eligible_iff (d : Option ℚ) (st : Station) (rangeKm : Option ℚ) :
    eligible d st rangeKm = true ↔
      (truthy st.is_active = true ∧ ∀ R, rangeKm = some R → ∃ x, d = some x ∧ x ≤ R) := by
  unfold eligible
  cases rangeKm with
  | none => simp
  | some R =>
    cases d with
    | none => simp
    | some x => simp

theorem pushed_eq_eligible (x : ℚ) (st : Station) (rangeKm : Option ℚ) :
    pushed (some x) st rangeKm = eligible (some x) st rangeKm := by
  unfold pushed eligible outOfRange
  cases rangeKm with
  | none => rfl
  | some R =>
    simp only [gt_iff_lt]
    congr 1
    by_cases h : R < x
    · simp [h, not_le.2 h]
    · simp [h, not_lt.1 h]

theorem pushed_of_eligible (d : Option ℚ) (st : Station) (rangeKm : Option ℚ)
    (h : eligible d st rangeKm = true) : pushed d st rangeKm = true := by
  cases d with
  | none => exact pushed_of_nan st rangeKm ((eligible_iff _ _ _).1 h).1
  | some x => rw [pushed_eq_eligible]; exact h

theorem filter_pushed_eq_eligible (distanceKm : ℚ → ℚ → ℚ → ℚ → Option ℚ) (lat lng : ℚ)
    (rangeKm : Option ℚ) (stations : List Station)
    (hnum : DistancesNumeric distanceKm lat lng stations) :
    stations.filter (fun st => pushed (stationDistance distanceKm lat lng st) st rangeKm) =
      stations.filter (fun st =>
        eligible (stationDistance distanceKm lat lng st) st rangeKm) := by
  apply List.filter_congr
  intro st hst
  cases hd : stationDistance distanceKm lat lng st with
  | some x => exact pushed_eq_eligible x st rangeKm
  | none =>
    have hact : truthy st.is_active = false := by
      cases h : truthy st.is_active with
      | false => rfl
      | true => exact absurd hd (hnum st hst h)
    simp [pushed, eligible, hact]

theorem scoreGe_iff_of_some {a b : Recommendation} {x y : ℚ} (ha : a.score = some x)
    (hb : b.score = some y) : scoreGe a b ↔ y ≤ x := by
  unfold scoreGe
  rw [ha, hb]
  rfl

theorem pairwise_scores_of_numeric (rs : List Recommendation)
    (h : ∀ r ∈ rs, ∃ s, r.score = some s) :
    (sortByScore rs).Pairwise
      (fun a b => ∃ x y, a.score = some x ∧ b.score = some y ∧ y ≤ x) := by
  rw [sortByScore_of_numeric rs h]
  have hs : (rs.insertionSort scoreGe).Pairwise scoreGe := List.sorted_insertionSort scoreGe rs
  have hall : ∀ r ∈ rs.insertionSort scoreGe, ∃ s, r.score = some s :=
    fun r hr => h r ((List.mem_insertionSort scoreGe).1 hr)
  refine List.Pairwise.imp_of_mem ?_ hs
  intro a b ha hb hab
  obtain ⟨x, hx⟩ := hall a ha
  obtain ⟨y, hy⟩ := hall b hb
  exact ⟨x, y, hx, hy, (scoreGe_iff_of_some hx hy).1 hab⟩

theorem left_out_le (rs : List Recommendation) (h : ∀ r ∈ rs, ∃ s, r.score = some s)
    (x y : Recommendation)
    (hx : x ∈ rs) (hxn : x ∉ (sortByScore rs).take 3) (hy : y ∈ (sortByScore rs).take 3) :
    ∃ sx sy, x.score = some sx ∧ y.score = some sy ∧ sx ≤ sy := by
  have hsorted := pairwise_scores_of_numeric rs h
  rw [← List.take_append_drop 3 (sortByScore rs), List.pairwise_append] at hsorted
  have hmem : x ∈ sortByScore rs := mem_sortByScore.2 hx
  rw [← List.take_append_drop 3 (sortByScore rs), List.mem_append] at hmem
  rcases hmem with h1 | h1
  · exact absurd h1 hxn
  · obtain ⟨sy, sx, h2, h3, h4⟩ := hsorted.2.2 y hy x h1
    exact ⟨sx, sy, h3, h2, h4⟩

theorem queryRangeTen_battery : queryBattery queryRangeTen = 50 := by
  simp [queryBattery, queryRangeTen, queryPlain, toNumber, jsNumber]

theorem queryRangeTen_range : queryRange queryRangeTen = some 10 := by
  simp [queryRange, queryRangeTen, queryPlain, toNumber, jsNumber]

theorem stationNoLat_distance (distanceKm : ℚ → ℚ → ℚ → ℚ → Option ℚ) (lat lng : ℚ) :
    stationDistance distanceKm lat lng stationNoLat = none :=
  stationDistance_of_nan_latitude distanceKm lat lng stationNoLat rfl

theorem reply_storeFull :
    (getRecommend gridDistance storeFull queryRangeTen "12:00:00").1 =
      .stations 200
        [{ station := stationCheap, distance_km := some 0, score := some (94 / 100) },
         { station := station1, distance_km := some 0, score := some (91 / 100) },
         { station := stationCcs, distance_km := some 0, score := some (91 / 100) }] := by
  rw [getRecommend_reply gridDistance storeFull queryRangeTen "12:00:00" 41 29 rfl rfl,
    queryRangeTen_battery, queryRangeTen_range]
  exact congrArg _ top_storeFull

theorem length_topRecommendations (distanceKm : ℚ → ℚ → ℚ → ℚ → Option ℚ)
    (lat lng battery : ℚ) (preferred : String) (rangeKm : Option ℚ) (stations : List Station) :
    (topRecommendations distanceKm lat lng battery preferred rangeKm stations).length =
      min 3 (stations.filter (fun st =>
        pushed (stationDistance distanceKm lat lng st) st rangeKm)).length := by
  unfold topRecommendations
  rw [List.length_take, (sortByScore_perm _).length_eq, recommendations_eq_map,
    List.length_map]

theorem reply_storeMixed :
    (getRecommend gridDistance storeMixed queryRangeTen "12:00:00").1 =
      .stations 200
        [{ station := stationHeld, distance_km := some 0, score := some (61 / 100) },
         { station := stationNoLat, distance_km := none, score := none },
         { station := stationCheap, distance_km := some 0, score := some (94 / 100) }] := by
  rw [getRecommend_reply gridDistance storeMixed queryRangeTen "12:00:00" 41 29 rfl rfl,
    queryRangeTen_battery, queryRangeTen_range]
  exact congrArg _ top_storeMixed

theorem topRecommendations_numeric (distanceKm : ℚ → ℚ → ℚ → ℚ → Option ℚ)
    (lat lng battery : ℚ) (preferred : String) (rangeKm : Option ℚ) (stations : List Station)
    (hnum : DistancesNumeric distanceKm lat lng stations) :
    topRecommendations distanceKm lat lng battery preferred rangeKm stations =
      (((stations.filter (fun st =>
        eligible (stationDistance distanceKm lat lng st) st rangeKm)).map
          (entryOf distanceKm lat lng battery preferred rangeKm)).insertionSort
            scoreGe).take 3 := by
  unfold topRecommendations
  rw [sortByScore_of_numeric _ (recommendations_numeric _ _ _ _ _ _ _ hnum),
    recommendations_eq_map, filter_pushed_eq_eligible _ _ _ _ _ hnum]

/-! ## Claims -/

/-- C1. Reservation invariant: from a station record with `reservedCount ≥ 0` and
`available == (reservedCount == 0)`, after every request of any sequence of create and
cancel requests (successful or failing, by any users, on any stations) the record at the
same position still has `reservedCount ≥ 0` and `available == (reservedCount == 0)`. -/
theorem reservation_invariant (db : Store) (i : Nat) (st : Station)
    (h0 : db.stations[i]? = some st) (hc : 0 ≤ reservedCount st)
    (ha : truthy st.available = decide (reservedCount st = 0)) (ops : List Op) (k : Nat) :
    ∃ st1, (run db (ops.take k)).stations[i]? = some st1 ∧
      0 ≤ reservedCount st1 ∧ truthy st1.available = decide (reservedCount st1 = 0) :=
  run_station_inv (ops.take k) db i st h0 ⟨hc, ha⟩

theorem reservation_invariant_witness :
    ∃ st1, (run store1 ([Op.create "u1" (.num 1) (.num 5) 1000 "r1", Op.cancel "u1" "r1",
        Op.create "u2" (.num 1) .undefined 2000 "r2"].take 2)).stations[0]? = some st1 ∧
      0 ≤ reservedCount st1 ∧ truthy st1.available = decide (reservedCount st1 = 0) :=
  reservation_invariant store1 0 station1 rfl (by decide) (by decide) _ 2

/-- C2. First reservation blocks all others: in every state reachable by create and cancel
requests from a store whose station at position `i` is available with `reservedCount = 0`,
a create resolving to that station is answered with a reservation only when the station's
`reservedCount` is 0 (and then leaves it at 1); and while `reservedCount` is not 0, every
create on it by an existing user, at any time `now`, is answered 400 "Station not available"
and leaves the store as it is. -/
theorem first_reservation_blocks (db : Store) (i : Nat) (st0 : Station)
    (h0 : db.stations[i]? = some st0) (hav : truthy st0.available = true)
    (hc : reservedCount st0 = 0) (ops : List Op)
    (userId : String) (stationId minutes : JsVal) (now : Int) (newId : String) (st : Station)
    (htarget : findFirst (isStation stationId) (run db ops).stations = some (i, st)) :
    ((∃ r, (postReservation (run db ops) userId stationId minutes now newId).1 =
        .reservation 201 r) →
      reservedCount st = 0 ∧
      ∃ st1, (postReservation (run db ops) userId stationId minutes now newId).2.stations[i]? =
        some st1 ∧ reservedCount st1 = 1) ∧
    (reservedCount st ≠ 0 → (∃ u ∈ (run db ops).users, u.id = userId) →
      postReservation (run db ops) userId stationId minutes now newId =
        (.message 400 "Station not available", run db ops)) := by
  obtain ⟨st1, h1, hinv, hact⟩ := run_station_hold ops db i st0 h0
    ⟨by rw [hc], by rw [hc, hav]; simp⟩ (fun h => absurd hc h)
  have h2 := (findFirst_some htarget).1
  rw [h1] at h2
  cases h2
  constructor
  · rintro ⟨r, hr⟩
    obtain ⟨ui, user, si, st2, _, hs, _, hv, hst, _⟩ :=
      postReservation_created _ _ _ _ _ _ _ _ hr
    rw [htarget] at hs
    cases hs
    have hzero : reservedCount st = 0 := by
      have := hinv.2
      rw [hv] at this
      simpa using this.symm
    refine ⟨hzero, reserveStation st (if minutes = .undefined then .num 30 else minutes), ?_, ?_⟩
    · rw [hst]
      exact List.getElem?_set_self (List.getElem?_eq_some_iff.1 h1).1
    · rw [reservedCount_reserveStation, hzero]; norm_num
  · rintro hne ⟨u, hu, hid⟩
    obtain ⟨ui, user, hfu⟩ := findFirst_of_mem (p := isUser userId) hu (by simp [isUser, hid])
    have hactive := hact hne
    have hnav : truthy st.available = false := by
      have := hinv.2
      simpa [hne] using this
    unfold postReservation
    simp [hfu, htarget, hactive, hnav]

theorem first_reservation_blocks_witness :
    postReservation (run store1 [create1]) "u1" (.num 1) (.num 20) 5000000 "r2" =
      (.message 400 "Station not available", run store1 [create1]) :=
  (first_reservation_blocks store1 0 station1 rfl (by decide) (by decide)
    [create1] "u1" (.num 1) (.num 20) 5000000 "r2" station1Held
    (by
      rw [run_store1_create]
      simp [store1Held, findFirst, isStation, station1Held, station1, numStrictEq,
        jsNumber])).2
    (by simp [reservedCount, numberOr, jsNumber, station1Held])
    ⟨user1Held, by rw [run_store1_create]; simp [store1Held], rfl⟩

/-- C3. Station update of a successful create: when a create is answered 201 and resolves
to the station `st` at position `i`, with prior `reservedCount = c ≥ 0` and `queueTime = q`,
the request's `minutes` (30 when omitted) is a number `m`, and the persisted stations are
the previous ones with that record's `reserved_count` set to `c + 1`, `available` set to
`false` and `queue_time` set to `max q m` (the raw requested minutes, not the floored
duration); every other field and every other station is unchanged. -/
theorem create_station_update (db : Store) (userId : String) (stationId minutes : JsVal)
    (now : Int) (newId : String) (r : Reservation) (i : Nat) (st : Station)
    (hsucc : (postReservation db userId stationId minutes now newId).1 = .reservation 201 r)
    (htarget : findFirst (isStation stationId) db.stations = some (i, st))
    (hc : 0 ≤ reservedCount st) :
    ∃ m : ℚ, jsNumber (if minutes = .undefined then .num 30 else minutes) = some m ∧
      (postReservation db userId stationId minutes now newId).2.stations =
        db.stations.set i
          { st with
            reserved_count := .num (reservedCount st + 1)
            available := .bool false
            queue_time := .num (max (queueTime st) m) } := by
  obtain ⟨ui, user, si, st2, _, hs, _, _, hst, _, _, _, _, hex, _⟩ :=
    postReservation_created _ _ _ _ _ _ _ _ hsucc
  rw [htarget] at hs
  cases hs
  obtain ⟨x, hx⟩ := toISOString_map_some hex
  obtain ⟨m, hm, _⟩ := mathMax_some_left hx
  refine ⟨m, hm, ?_⟩
  rw [hst]
  have hne : reservedCount st + 1 ≠ 0 := by
    have : (0:ℚ) < reservedCount st + 1 := by linarith
    exact ne_of_gt this
  simp only [reserveStation, hm, mathMax, ofNumber]
  simp only [reservedCount] at hne
  simp [reservedCount, queueTime, hne]

theorem create_station_update_witness :
    ∃ m : ℚ, jsNumber (if JsVal.num 5 = .undefined then .num 30 else JsVal.num 5) = some m ∧
      (postReservation store1 "u1" (.num 1) (.num 5) 1000 "r1").2.stations =
        store1.stations.set 0
          { station1 with
            reserved_count := .num (reservedCount station1 + 1)
            available := .bool false
            queue_time := .num (max (queueTime station1) m) } :=
  create_station_update store1 "u1" (.num 1) (.num 5) 1000 "r1" reservation1 0 station1
    (by rw [post_store1]) (by simp [store1, findFirst, isStation, station1, numStrictEq, jsNumber])
    (by decide)

/-- C4, as stated, fails: after `create(user, 1, 5)` on the example station the stored
queue time is 5, the raw requested minutes, not 10. -/
theorem create_example_queue_time :
    ∃ st, (postReservation store1 "u1" (.num 1) (.num 5) 1000 "r1").2.stations[0]? = some st ∧
      st.queue_time = .num 5 ∧ queueTime st = 5 ∧ queueTime st ≠ 10 := by
  refine ⟨station1Held, by rw [post_store1]; rfl, rfl, ?_, ?_⟩ <;>
    norm_num [queueTime, numberOr, jsNumber, station1Held]

/-- C4, amended. End-to-end example: for an existing user and a station with id 1 that is
active, available, with `queueTime = 0` and `reservedCount = 0`, `create(user, 1, 5)` at a
time `now` in the range of dates returns 201 with a reservation whose `expiresAt` is exactly
10 minutes (600000 ms) after its `createdAt`, appends it to the user's reservations, and the
station becomes `available = false`, `reservedCount = 1`, `queueTime = 5`. -/
theorem create_example (db : Store) (userId : String) (now : Int) (newId : String)
    (ui : Nat) (user : User) (i : Nat) (st : Station)
    (hu : findFirst (isUser userId) db.users = some (ui, user))
    (hs : findFirst (isStation (.num 1)) db.stations = some (i, st))
    (hact : st.is_active = .bool true) (hav : st.available = .bool true)
    (hq : st.queue_time = .num 0) (hc : st.reserved_count = .num 0)
    (hlo : -8640000000000000 ≤ now) (hhi : now + 600000 ≤ 8640000000000000) :
    ∃ r : Reservation,
      postReservation db userId (.num 1) (.num 5) now newId =
        (.reservation 201 r,
          { users := db.users.set ui
              { user with reservations := some (user.reservations.getD [] ++ [r]) },
            stations := db.stations.set i
              { st with
                available := .bool false, reserved_count := .num 1, queue_time := .num 5 } }) ∧
      r.createdAt = now ∧ r.expiresAt = now + 600000 := by
  have h10 : max (10:ℚ) 5 = 10 := by norm_num
  have hx : (now : ℚ) + 10 * 60 * 1000 = ((now + 600000 : Int) : ℚ) := by push_cast; ring
  have hlo' : (-8640000000000000 : ℚ) ≤ now := by exact_mod_cast hlo
  have hhi' : (now : ℚ) + 600000 ≤ 8640000000000000 := by exact_mod_cast hhi
  have h1 : toISOString (some ((now : ℚ) + 10 * 60 * 1000)) = some (now + 600000) := by
    rw [hx, toISOString_some_iff]
    refine ⟨?_, truncate_intCast _⟩
    rw [abs_le]; unfold maxTimeValue; push_cast
    constructor <;> linarith
  have h2 : toISOString (some (now : ℚ)) = some now := by
    rw [toISOString_some_iff]
    refine ⟨?_, truncate_intCast _⟩
    rw [abs_le]; unfold maxTimeValue
    constructor <;> linarith
  refine ⟨{ id := newId, stationId := .num 1, stationName := st.name, createdAt := now,
            expiresAt := now + 600000 }, ?_, rfl, rfl⟩
  unfold postReservation
  simp [hu, hs, hact, hav, truthy, jsNumber, mathMax, h10, h1, h2, reserveStation, hq, hc,
    numberOr, ofNumber]

theorem create_example_witness :
    ∃ r : Reservation,
      postReservation store1 "u1" (.num 1) (.num 5) 1000 "r1" =
        (.reservation 201 r,
          { users := store1.users.set 0
              { user1 with reservations := some (user1.reservations.getD [] ++ [r]) },
            stations := store1.stations.set 0
              { station1 with
                available := .bool false, reserved_count := .num 1, queue_time := .num 5 } }) ∧
      r.createdAt = 1000 ∧ r.expiresAt = 1000 + 600000 :=
  create_example store1 "u1" 1000 "r1" 0 user1 0 station1
    (by simp [store1, findFirst, isUser, user1])
    (by simp [store1, findFirst, isStation, station1, numStrictEq, jsNumber])
    rfl rfl rfl rfl (by decide) (by decide)

/-- C5, as stated, fails: with an existing user and an existing, active, available station,
a create whose `minutes` is 10^15 is not answered 201: the expiry is not a valid date, the
handler throws a `RangeError` and persists nothing. -/
theorem create_succeeds_iff_checks_fails :
    (∃ u ∈ store1.users, u.id = "u1") ∧
    findFirst (isStation (.num 1)) store1.stations = some (0, station1) ∧
    truthy station1.is_active = true ∧ truthy station1.available = true ∧
    postReservation store1 "u1" (.num 1) (.num 1000000000000000) 1000 "r1" =
      (.rangeError, store1) ∧
    ¬ ∃ r, (postReservation store1 "u1" (.num 1) (.num 1000000000000000) 1000 "r1").1 =
      .reservation 201 r := by
  have h : postReservation store1 "u1" (.num 1) (.num 1000000000000000) 1000 "r1" =
      (.rangeError, store1) := by
    simp [postReservation, store1, findFirst, isUser, user1, isStation, station1,
      numStrictEq, jsNumber, truthy, toISOString, mathMax, maxTimeValue]
    norm_num [abs_le]
  refine ⟨⟨user1, by simp [store1], rfl⟩, ?_, rfl, rfl, h, ?_⟩
  · simp [store1, findFirst, isStation, station1, numStrictEq, jsNumber]
  · rw [h]; simp

/-- C5, amended. A create is answered 201 if and only if the user exists, the station
exists, is active and is available, and `minutes` (30 when omitted) is a number `m` for
which both time stamps are valid dates (`|now + max(10, m) * 60000|` and `|now|` at most
8.64e15 ms). Otherwise it is answered with the error of the first failing check, in the
order User not found (404), Station not found (404), Station under maintenance (400),
Station not available (400), whatever the later checks would say; and when the four checks
pass but a time stamp is not a valid date, the handler throws. No failing create changes
the store. -/
theorem create_reply (db : Store) (userId : String) (stationId minutes : JsVal)
    (now : Int) (newId : String) :
    ((∃ r, (postReservation db userId stationId minutes now newId).1 = .reservation 201 r) ↔
      (∃ u ∈ db.users, u.id = userId) ∧
      (∃ si st, findFirst (isStation stationId) db.stations = some (si, st) ∧
        truthy st.is_active = true ∧ truthy st.available = true) ∧
      (∃ m, jsNumber (if minutes = .undefined then .num 30 else minutes) = some m ∧
        |(now : ℚ) + max 10 m * 60 * 1000| ≤ 8640000000000000 ∧
        |(now : ℚ)| ≤ 8640000000000000)) ∧
    ((∀ u ∈ db.users, u.id ≠ userId) →
      postReservation db userId stationId minutes now newId =
        (.message 404 "User not found", db)) ∧
    ((∃ u ∈ db.users, u.id = userId) → (∀ s ∈ db.stations, isStation stationId s = false) →
      postReservation db userId stationId minutes now newId =
        (.message 404 "Station not found", db)) ∧
    (∀ si st, (∃ u ∈ db.users, u.id = userId) →
      findFirst (isStation stationId) db.stations = some (si, st) →
      (truthy st.is_active = false →
        postReservation db userId stationId minutes now newId =
          (.message 400 "Station under maintenance", db)) ∧
      (truthy st.is_active = true → truthy st.available = false →
        postReservation db userId stationId minutes now newId =
          (.message 400 "Station not available", db)) ∧
      (truthy st.is_active = true → truthy st.available = true →
        (¬ ∃ m, jsNumber (if minutes = .undefined then .num 30 else minutes) = some m ∧
          |(now : ℚ) + max 10 m * 60 * 1000| ≤ 8640000000000000 ∧
          |(now : ℚ)| ≤ 8640000000000000) →
        postReservation db userId stationId minutes now newId = (.rangeError, db))) := by
  have huser : (∃ u ∈ db.users, u.id = userId) →
      ∃ ui user, findFirst (isUser userId) db.users = some (ui, user) := by
    rintro ⟨u, hu, hid⟩
    exact findFirst_of_mem (p := isUser userId) hu (by simp [isUser, hid])
  refine ⟨⟨?_, ?_⟩, ?_, ?_, ?_⟩
  · rintro ⟨r, hr⟩
    obtain ⟨ui, user, si, st, hu, hs, hact, hav, _, _, _, _, _, hex, hcr⟩ :=
      postReservation_created _ _ _ _ _ _ _ _ hr
    refine ⟨⟨user, List.mem_iff_getElem?.2 ⟨ui, (findFirst_some hu).1⟩, ?_⟩, ⟨si, st, hs, hact, hav⟩, ?_⟩
    · simpa [isUser] using (findFirst_some hu).2
    · obtain ⟨x, hx⟩ := toISOString_map_some hex
      obtain ⟨m, hm, hxm⟩ := mathMax_some_left hx
      rw [hx, Option.map_some', hxm] at hex
      exact ⟨m, hm, ((toISOString_some_iff _ _).1 hex).1, ((toISOString_some_iff _ _).1 hcr).1⟩
  · rintro ⟨hu, ⟨si, st, hs, hact, hav⟩, hd⟩
    obtain ⟨ui, user, hfu⟩ := huser hu
    exact (postReservation_checked db userId stationId minutes now newId ui user si st
      hfu hs hact hav).1 hd
  · intro hno
    have : findFirst (isUser userId) db.users = none :=
      findFirst_eq_none_iff.2 (fun u hu => by simpa [isUser] using hno u hu)
    unfold postReservation
    simp [this]
  · intro hu hno
    obtain ⟨ui, user, hfu⟩ := huser hu
    have : findFirst (isStation stationId) db.stations = none := findFirst_eq_none_iff.2 hno
    unfold postReservation
    simp [hfu, this]
  · intro si st hu hs
    obtain ⟨ui, user, hfu⟩ := huser hu
    refine ⟨?_, ?_, ?_⟩
    · intro hact
      unfold postReservation
      simp [hfu, hs, hact]
    · intro hact hav
      unfold postReservation
      simp [hfu, hs, hact, hav]
    · intro hact hav hd
      exact (postReservation_checked db userId stationId minutes now newId ui user si st
        hfu hs hact hav).2 hd

theorem create_reply_witness :
    postReservation store1 "nobody" (.num 7) .undefined 1000 "r1" =
      (.message 404 "User not found", store1) :=
  (create_reply store1 "nobody" (.num 7) .undefined 1000 "r1").2.1
    (by simp [store1, user1])

/-- C6, as stated, fails: for `minutes = 10.00001` the create succeeds and the reservation's
`expiresAt - createdAt` is 600000 ms, not `max(10, m) * 60000 = 600000.6` ms: a `Date` holds
whole milliseconds. -/
theorem create_expiry_fractional :
    ∃ r, (postReservation store1 "u1" (.num 1) (.num (1000001 / 100000)) 1000 "r1").1 =
        .reservation 201 r ∧
      r.expiresAt - r.createdAt = 600000 ∧
      ((r.expiresAt - r.createdAt : Int) : ℚ) ≠ max 10 (1000001 / 100000) * 60000 := by
  refine ⟨{ id := "r1", stationId := .num 1, stationName := "Alpha", createdAt := 1000,
            expiresAt := 601000 }, ?_, by norm_num, by norm_num⟩
  simp [postReservation, store1, findFirst, isUser, user1, isStation, station1,
    numStrictEq, jsNumber, truthy, toISOString, mathMax, maxTimeValue, truncate]
  norm_num [abs_le, Int.floor_eq_iff]

/-- C6, amended. For every create answered 201 whose `minutes` is a number `m` (`m = 30`
when the field is omitted), `createdAt = now` and `expiresAt` is `now + max(10, m) * 60000`
truncated to whole milliseconds: `expiresAt - createdAt` differs from `max(10, m) * 60000`
by less than 1 ms, equals it exactly whenever that product is a whole number of
milliseconds (so for every integer `m`), and is never less than 600000 ms (10 minutes). -/
theorem create_expiry (db : Store) (userId : String) (stationId minutes : JsVal)
    (now : Int) (newId : String) (r : Reservation) (m : ℚ)
    (hsucc : (postReservation db userId stationId minutes now newId).1 = .reservation 201 r)
    (hm : jsNumber (if minutes = .undefined then .num 30 else minutes) = some m) :
    (minutes = .undefined → m = 30) ∧
    r.createdAt = now ∧
    r.expiresAt = truncate ((now : ℚ) + max 10 m * 60000) ∧
    |((r.expiresAt - r.createdAt : Int) : ℚ) - max 10 m * 60000| < 1 ∧
    (∀ z : Int, max 10 m * 60000 = z → r.expiresAt - r.createdAt = z) ∧
    600000 ≤ r.expiresAt - r.createdAt := by
  obtain ⟨ui, user, si, st, _, _, _, _, _, _, _, _, _, hex, hcr⟩ :=
    postReservation_created _ _ _ _ _ _ _ _ hsucc
  rw [hm] at hex
  simp only [mathMax, Option.map_some'] at hex
  have he := ((toISOString_some_iff _ _).1 hex).2
  have hc := ((toISOString_some_iff _ _).1 hcr).2
  rw [truncate_intCast] at hc
  have e60 : (now : ℚ) + max 10 m * 60 * 1000 = (now : ℚ) + max 10 m * 60000 := by ring
  rw [e60] at he
  refine ⟨?_, hc.symm, he.symm, ?_, ?_, ?_⟩
  · intro hu
    rw [hu] at hm
    simpa [jsNumber] using hm.symm
  · have hb := truncate_le_floor_bounds ((now : ℚ) + max 10 m * 60000)
    rw [he] at hb
    rw [← hc, abs_lt]
    push_cast
    constructor <;> linarith [hb.1, hb.2]
  · intro z hz
    rw [← he, ← hc, truncate_int_add_of_int now z _ hz]
    ring
  · have h10 : ((600000 : Int) : ℚ) ≤ max 10 m * 60000 := by
      have : (10 : ℚ) ≤ max 10 m := le_max_left _ _
      push_cast; linarith
    have := truncate_int_add_ge now _ 600000 h10
    rw [he] at this
    rw [← hc]
    linarith

theorem create_expiry_witness :
    (JsVal.num 5 = .undefined → (5 : ℚ) = 30) ∧
    reservation1.createdAt = 1000 ∧
    reservation1.expiresAt = truncate (((1000 : Int) : ℚ) + max 10 5 * 60000) ∧
    |((reservation1.expiresAt - reservation1.createdAt : Int) : ℚ) - max 10 5 * 60000| < 1 ∧
    (∀ z : Int, max 10 (5 : ℚ) * 60000 = z →
      reservation1.expiresAt - reservation1.createdAt = z) ∧
    600000 ≤ reservation1.expiresAt - reservation1.createdAt :=
  create_expiry store1 "u1" (.num 1) (.num 5) 1000 "r1" reservation1 5
    (by rw [post_store1]) (by simp [jsNumber])

/-- C7. Station update of a cancel: when the reservation is found in the user's collection
and the station it refers to exists with prior `reservedCount = c`, the stations afterwards
are the previous ones with that record's `reserved_count` set to `max(0, c - 1)`,
`available` set to `(reservedCount == 0)` and `queue_time` set to 0 exactly when the new
count is 0 (left as it was otherwise); when no station matches the reservation's
`stationId`, no station is changed and the cancel is still answered 200. -/
theorem cancel_station_update (db : Store) (userId resId : String)
    (ui : Nat) (user : User) (ex : Reservation)
    (hu : findFirst (isUser userId) db.users = some (ui, user))
    (hex : (user.reservations.getD []).find? (fun r => decide (r.id = resId)) = some ex) :
    (∀ idx st, findFirst (isStation ex.stationId) db.stations = some (idx, st) →
      (deleteReservation db userId resId).2.stations =
        db.stations.set idx
          { st with
            reserved_count := .num (max 0 (reservedCount st - 1))
            available := .bool (decide (max 0 (reservedCount st - 1) = 0))
            queue_time := if max 0 (reservedCount st - 1) = 0 then .num 0 else st.queue_time }) ∧
    ((∀ s ∈ db.stations, isStation ex.stationId s = false) →
      (deleteReservation db userId resId).2.stations = db.stations ∧
      ∃ rs, (deleteReservation db userId resId).1 = .reservations 200 rs) := by
  constructor
  · intro idx st hs
    unfold deleteReservation
    simp [hu, hex, hs, releaseStation, reservedCount]
  · intro hno
    have hs : findFirst (isStation ex.stationId) db.stations = none := findFirst_eq_none_iff.2 hno
    unfold deleteReservation
    simp [hu, hex, hs]

theorem cancel_station_update_witness :
    (deleteReservation store1Held "u1" "r1").2.stations =
      store1Held.stations.set 0
        { station1Held with
          reserved_count := .num (max 0 (reservedCount station1Held - 1))
          available := .bool (decide (max 0 (reservedCount station1Held - 1) = 0))
          queue_time :=
            if max 0 (reservedCount station1Held - 1) = 0 then .num 0
            else station1Held.queue_time } :=
  (cancel_station_update store1Held "u1" "r1" 0 user1Held reservation1
    (by simp [store1Held, findFirst, isUser, user1Held, user1])
    (by simp [user1Held, reservation1])).1 0 station1Held
    (by simp [store1Held, findFirst, isStation, reservation1, station1Held, station1,
      numStrictEq, jsNumber])

/-- C8. Cancel and the user's collection: for an existing user, cancel is answered 200 with,
and persists as the user's collection, the previous reservation list filtered to the
entries whose id differs from `reservationId`: a sublist (original order kept) holding
exactly the previous entries with another id. For an unknown user it is answered 404
"User not found" and the store is unchanged. -/
theorem cancel_reservations (db : Store) (userId resId : String) :
    (∀ ui user, findFirst (isUser userId) db.users = some (ui, user) →
      (deleteReservation db userId resId).1 =
        .reservations 200 ((user.reservations.getD []).filter (fun r => decide (r.id ≠ resId))) ∧
      (deleteReservation db userId resId).2.users =
        db.users.set ui
          { user with
            reservations :=
              some ((user.reservations.getD []).filter (fun r => decide (r.id ≠ resId))) } ∧
      ((user.reservations.getD []).filter (fun r => decide (r.id ≠ resId))).Sublist
        (user.reservations.getD []) ∧
      ∀ r, r ∈ (user.reservations.getD []).filter (fun r => decide (r.id ≠ resId)) ↔
        r ∈ user.reservations.getD [] ∧ r.id ≠ resId) ∧
    ((∀ u ∈ db.users, u.id ≠ userId) →
      deleteReservation db userId resId = (.message 404 "User not found", db)) := by
  constructor
  · intro ui user hu
    refine ⟨?_, ?_, List.filter_sublist _, ?_⟩
    · unfold deleteReservation; simp [hu]
    · unfold deleteReservation; simp [hu]
    · intro r; simp [List.mem_filter]
  · intro hno
    have : findFirst (isUser userId) db.users = none :=
      findFirst_eq_none_iff.2 (fun u hu => by simpa [isUser] using hno u hu)
    unfold deleteReservation
    simp [this]

/-- C9. Idempotence of cancel: for an existing user and a `reservationId` that none of the
user's reservations carries, cancel is answered 200 with the user's reservation list
unchanged, leaves every station record unchanged, and writes the same list back to the user
(the whole store is unchanged when the user record already had a `reservations` field).
Consequently a second cancel of the same reservation gives the same answer and leaves the
same store as the first. -/
theorem cancel_idempotent (db : Store) (userId resId : String) :
    (∀ ui user, findFirst (isUser userId) db.users = some (ui, user) →
      (∀ r ∈ user.reservations.getD [], r.id ≠ resId) →
      (deleteReservation db userId resId).1 = .reservations 200 (user.reservations.getD []) ∧
      (deleteReservation db userId resId).2.stations = db.stations ∧
      (deleteReservation db userId resId).2.users =
        db.users.set ui { user with reservations := some (user.reservations.getD []) } ∧
      (user.reservations.isSome = true → (deleteReservation db userId resId).2 = db)) ∧
    deleteReservation (deleteReservation db userId resId).2 userId resId =
      deleteReservation db userId resId := by
  have key : ∀ (d : Store) ui user, findFirst (isUser userId) d.users = some (ui, user) →
      (∀ r ∈ user.reservations.getD [], r.id ≠ resId) →
      deleteReservation d userId resId = (.reservations 200 (user.reservations.getD []),
        { users := d.users.set ui { user with reservations := some (user.reservations.getD []) },
          stations := d.stations }) := by
    intro d ui user hu hno
    have h1 : (user.reservations.getD []).find? (fun r => decide (r.id = resId)) = none := by
      rw [List.find?_eq_none]
      intro r hr
      simpa using hno r hr
    have h2 : (user.reservations.getD []).filter (fun r => decide (r.id ≠ resId)) =
        user.reservations.getD [] := by
      rw [List.filter_eq_self]
      intro r hr
      simpa using hno r hr
    unfold deleteReservation
    simp only [hu, h1, h2]
  constructor
  · intro ui user hu hno
    rw [key db ui user hu hno]
    refine ⟨rfl, rfl, rfl, ?_⟩
    intro hsome
    obtain ⟨l, hl⟩ := Option.isSome_iff_exists.1 hsome
    have : ({ user with reservations := some (user.reservations.getD []) } : User) = user := by
      cases user
      simp_all
    rw [this, set_of_getElem? (findFirst_some hu).1]
  · cases hu : findFirst (isUser userId) db.users with
    | none =>
      have : deleteReservation db userId resId = (.message 404 "User not found", db) := by
        unfold deleteReservation; simp [hu]
      rw [this]
      exact this
    | some p =>
      obtain ⟨ui, user⟩ := p
      have huser : isUser userId user = true := (findFirst_some hu).2
      obtain ⟨rem, hrem⟩ : ∃ rem, rem =
          (user.reservations.getD []).filter (fun r => decide (r.id ≠ resId)) := ⟨_, rfl⟩
      have hfirst : deleteReservation db userId resId =
          (.reservations 200 rem, (deleteReservation db userId resId).2) := by
        unfold deleteReservation; simp [hu, hrem]
      have husers : (deleteReservation db userId resId).2.users =
          db.users.set ui { user with reservations := some rem } := by
        unfold deleteReservation; simp [hu, hrem]
      have hu2 := findFirst_set_self (y := ({ user with reservations := some rem } : User))
        hu (by simpa [isUser] using huser)
      rw [← husers] at hu2
      have := key (deleteReservation db userId resId).2 ui _ hu2 (by
        intro r hr
        simp only [Option.getD_some, hrem, List.mem_filter, decide_eq_true_eq] at hr
        exact hr.2)
      rw [this]
      conv_rhs => rw [hfirst]
      simp only [Option.getD_some, Prod.mk.injEq, true_and]
      have hst : (deleteReservation db userId resId).2 =
          { users := (deleteReservation db userId resId).2.users,
            stations := (deleteReservation db userId resId).2.stations } := rfl
      conv_rhs => rw [hst]
      congr 1
      rw [husers, List.set_set]

theorem cancel_idempotent_witness :
    (deleteReservation store1Held "u1" "r9").1 =
      .reservations 200 (user1Held.reservations.getD []) ∧
    (deleteReservation store1Held "u1" "r9").2.stations = store1Held.stations ∧
    (deleteReservation store1Held "u1" "r9").2.users =
      store1Held.users.set 0
        { user1Held with reservations := some (user1Held.reservations.getD []) } ∧
    (user1Held.reservations.isSome = true →
      (deleteReservation store1Held "u1" "r9").2 = store1Held) :=
  (cancel_idempotent store1Held "u1" "r9").1 0 user1Held
    (by simp [store1Held, findFirst, isUser, user1Held, user1])
    (by simp [user1Held, reservation1])

/-- C10, as stated, fails: for `maxRangeKm = 0` and a station at distance 0 (which passes
the range filter and is scored) the code normalises the distance by 50, not by
`maxRangeKm = 0`, and scores 0.91, where the stated formula divides by zero. -/
theorem score_range_zero :
    scored 0 station1 (some 0) = true ∧
    maxRange (some 0) = 50 ∧ specEffectiveRange (some 0) = 0 ∧
    score 0 station1 50 "" (some 0) = 91 / 100 ∧
    specScore 0 station1 50 "" (some 0) = none ∧
    some (score 0 station1 50 "" (some 0)) ≠ specScore 0 station1 50 "" (some 0) := by
  have h1 : score 0 station1 50 "" (some 0) = 91 / 100 := by
    simp [score, critical, wDist, wPrice, wAvail, wQueue, wPlug, distScore, priceScore,
      availScore, queueScore, plugScore, maxRange, maxPrice, maxQueue, price, available, queue,
      hasPreferred, station1, numberOr, jsNumber, truthy]
    norm_num
  have h2 : specScore 0 station1 50 "" (some 0) = none := by
    simp [specScore, specEffectiveRange]
  refine ⟨?_, ?_, ?_, h1, h2, ?_⟩
  · simp [scored, outOfRange, station1, truthy]
  · simp [maxRange]
  · simp [specEffectiveRange]
  · rw [h2]; simp

/-- C10, amended. For every scored station and query context the score before rounding is
`wDist*max(0, 1 - d/effectiveRange) + wPrice*max(0, 1 - price/20) + wAvail*(1 if available
else 0) + wQueue*max(0, 1 - queueTime/30) + wPlug*(1 if a preferred type is given and some
connector has exactly that type name, else 0)`, with `effectiveRange = maxRangeKm` if it is
provided and not zero, else 50, `price = Number(price_per_kwh) || 8`,
`queueTime = Number(queue_time) || 0`, and weights (0.40, 0.10, 0.30, 0.15, 0.10) in critical
mode and (0.25, 0.25, 0.20, 0.15, 0.10) otherwise; it agrees with the formula of the
specification whenever `maxRangeKm` is not 0. -/
theorem score_formula (d : ℚ) (st : Station) (battery : ℚ) (preferred : String)
    (rangeKm : Option ℚ) :
    score d st battery preferred rangeKm =
      (if critical battery rangeKm = true then 0.40 else 0.25) *
        max 0 (1 - d / (match rangeKm with
                        | some r => if r = 0 then 50 else r
                        | none => 50)) +
      (if critical battery rangeKm = true then 0.10 else 0.25) *
        max 0 (1 - numberOr st.price_per_kwh 8 / 20) +
      (if critical battery rangeKm = true then 0.30 else 0.20) *
        (if truthy st.available = true then 1 else 0) +
      0.15 * max 0 (1 - numberOr st.queue_time 0 / 30) +
      0.10 * (if preferred ≠ "" ∧ ∃ c ∈ st.connections.getD [], c.type_name = preferred
              then 1 else 0) ∧
    (rangeKm ≠ some 0 →
      specScore d st battery preferred rangeKm = some (score d st battery preferred rangeKm)) := by
  constructor
  · have hplug : plugScore preferred st =
        (if preferred ≠ "" ∧ ∃ c ∈ st.connections.getD [], c.type_name = preferred
          then 1 else 0) := by
      unfold plugScore
      by_cases h : hasPreferred preferred st = true
      · rw [if_pos h, if_pos ((hasPreferred_iff preferred st).1 h)]
      · rw [if_neg h, if_neg (fun h2 => h ((hasPreferred_iff preferred st).2 h2))]
    unfold score
    rw [hplug]
    simp only [wDist, wPrice, wAvail, wQueue, wPlug, distScore, priceScore, availScore,
      queueScore, maxPrice, maxQueue, price, available, queue]
    cases rangeKm with
    | none => cases critical battery none <;> norm_num [maxRange]
    | some r => cases critical battery (some r) <;> norm_num [maxRange]
  · intro hne
    have hr : specEffectiveRange rangeKm = maxRange rangeKm := by
      cases rangeKm with
      | none => rfl
      | some r =>
        have : r ≠ 0 := fun h => hne (by rw [h])
        simp [specEffectiveRange, maxRange, this]
    have hnz : maxRange rangeKm ≠ 0 := by
      unfold maxRange
      cases rangeKm with
      | none => norm_num
      | some r => by_cases h : r = 0 <;> simp [h]
    unfold specScore
    rw [hr, if_neg hnz]
    rfl

theorem score_formula_witness :
    specScore 5 station1 50 "" (some 10) = some (score 5 station1 50 "" (some 10)) :=
  (score_formula 5 station1 50 "" (some 10)).2 (by simp)

/-- C11, as stated, fails: the five weights sum to 1 in neither branch. -/
theorem weights_sum_not_one :
    wDist true + wPrice true + wAvail true + wQueue + wPlug ≠ 1 ∧
    wDist false + wPrice false + wAvail false + wQueue + wPlug ≠ 1 := by
  constructor <;> norm_num [wDist, wPrice, wAvail, wQueue, wPlug]

/-- C11, amended. The five scoring weights (distance, price, availability, queue, plug) are
(0.40, 0.10, 0.30, 0.15, 0.10) in the critical branch and (0.25, 0.25, 0.20, 0.15, 0.10) in
the normal branch; they sum to exactly 1.05 in the critical branch and to exactly 0.95 in the
normal branch. -/
theorem weights_sum :
    wDist true + wPrice true + wAvail true + wQueue + wPlug = 1.05 ∧
    wDist false + wPrice false + wAvail false + wQueue + wPlug = 0.95 ∧
    (wDist true, wPrice true, wAvail true, wQueue, wPlug) = (0.40, 0.10, 0.30, 0.15, 0.10) ∧
    (wDist false, wPrice false, wAvail false, wQueue, wPlug) = (0.25, 0.25, 0.20, 0.15, 0.10) := by
  refine ⟨?_, ?_, ?_, ?_⟩ <;> norm_num [wDist, wPrice, wAvail, wQueue, wPlug]

/-- C15, as stated, fails: a station whose stored price is 0 is scored with the default
price 8, so its `priceScore` is 0.6, not 1. -/
theorem price_zero_reads_default :
    stationFree.price_per_kwh = .num 0 ∧ price stationFree = 8 ∧
    priceScore stationFree = 3 / 5 ∧ priceScore stationFree ≠ 1 := by
  have hp : price stationFree = 8 := by
    norm_num [price, numberOr, jsNumber, stationFree, station1]
  have hs : priceScore stationFree = 3 / 5 := by
    rw [priceScore, hp]; norm_num [maxPrice]
  exact ⟨rfl, hp, hs, by rw [hs]; norm_num⟩

/-- C15, amended. The price used in `priceScore` is `Number(price_per_kwh) || 8`: the
station's own price whenever the field is a number other than 0, and the default 8 when the
field is absent, `null`, not numeric, or 0; a station whose stored price is 0 gets
`priceScore = max(0, 1 - 8/20) = 0.6`. -/
theorem price_read (st : Station) :
    (∀ p : ℚ, st.price_per_kwh = .num p → p ≠ 0 →
      price st = p ∧ priceScore st = max 0 (1 - p / 20)) ∧
    (st.price_per_kwh = .undefined → price st = 8) ∧
    (st.price_per_kwh = .null → price st = 8) ∧
    (st.price_per_kwh = .other → price st = 8) ∧
    (st.price_per_kwh = .num 0 → price st = 8 ∧ priceScore st = 3 / 5) := by
  refine ⟨?_, ?_, ?_, ?_, ?_⟩
  · intro p h hne
    have hp : price st = p := by simp [price, numberOr, jsNumber, h, hne]
    exact ⟨hp, by rw [priceScore, hp]; rfl⟩
  · intro h; simp [price, numberOr, jsNumber, h]
  · intro h; simp [price, numberOr, jsNumber, h]
  · intro h; simp [price, numberOr, jsNumber, h]
  · intro h
    have hp : price st = 8 := by simp [price, numberOr, jsNumber, h]
    exact ⟨hp, by rw [priceScore, hp]; norm_num [maxPrice]⟩

theorem price_read_witness : price stationFree = 8 ∧ priceScore stationFree = 3 / 5 :=
  (price_read stationFree).2.2.2.2 rfl

/-- C28. Atomicity of rejected creates: when a create is answered with an error message, the
store it leaves behind is the store it found (no user record and no station record is
changed, so no reservation is appended and every `reservedCount`, `available` and
`queueTime` keeps its value), and the message is one of the four validation errors. -/
theorem rejected_create_unchanged (db : Store) (userId : String) (stationId minutes : JsVal)
    (now : Int) (newId : String) (status : Nat) (msg : String)
    (h : (postReservation db userId stationId minutes now newId).1 = .message status msg) :
    (postReservation db userId stationId minutes now newId).2 = db ∧
    (postReservation db userId stationId minutes now newId).2.users = db.users ∧
    (postReservation db userId stationId minutes now newId).2.stations = db.stations ∧
    ((status = 404 ∧ msg = "User not found") ∨ (status = 404 ∧ msg = "Station not found") ∨
      (status = 400 ∧ msg = "Station under maintenance") ∨
      (status = 400 ∧ msg = "Station not available")) := by
  have key : (postReservation db userId stationId minutes now newId).2 = db ∧
      ((status = 404 ∧ msg = "User not found") ∨ (status = 404 ∧ msg = "Station not found") ∨
        (status = 400 ∧ msg = "Station under maintenance") ∨
        (status = 400 ∧ msg = "Station not available")) := by
    unfold postReservation at h ⊢
    cases hu : findFirst (isUser userId) db.users with
    | none =>
      simp only [hu, Reply.message.injEq] at h ⊢
      exact ⟨trivial, Or.inl ⟨h.1.symm, h.2.symm⟩⟩
    | some p =>
      obtain ⟨ui, user⟩ := p
      cases hs : findFirst (isStation stationId) db.stations with
      | none =>
        simp only [hu, hs, Reply.message.injEq] at h ⊢
        exact ⟨trivial, Or.inr (Or.inl ⟨h.1.symm, h.2.symm⟩)⟩
      | some p2 =>
        obtain ⟨si, st⟩ := p2
        by_cases ha : truthy st.is_active = true
        · by_cases hv : truthy st.available = true
          · simp only [hu, hs, ha, hv, Bool.not_true, Bool.false_eq_true, if_false] at h ⊢
            cases he : toISOString (Option.map (fun m => (now : ℚ) + m * 60 * 1000)
                (mathMax (some 10)
                  (jsNumber (if minutes = JsVal.undefined then JsVal.num 30 else minutes)))) with
            | none => simp [he] at h
            | some ex =>
              cases hc : toISOString (some (now : ℚ)) with
              | none => simp [he, hc] at h
              | some cr => simp [he, hc] at h
          · simp only [Bool.not_eq_true] at hv
            simp only [hu, hs, ha, hv, Bool.not_true, Bool.false_eq_true, if_false,
              Bool.not_false, if_true, Reply.message.injEq] at h ⊢
            exact ⟨trivial, Or.inr (Or.inr (Or.inr ⟨h.1.symm, h.2.symm⟩))⟩
        · simp only [Bool.not_eq_true] at ha
          simp only [hu, hs, ha, Bool.not_false, if_true, Reply.message.injEq] at h ⊢
          exact ⟨trivial, Or.inr (Or.inr (Or.inl ⟨h.1.symm, h.2.symm⟩))⟩
  exact ⟨key.1, by rw [key.1], by rw [key.1], key.2⟩

theorem rejected_create_unchanged_witness :
    (postReservation store1Held "u1" (.num 1) (.num 20) 5000000 "r2").2 = store1Held ∧
    (postReservation store1Held "u1" (.num 1) (.num 20) 5000000 "r2").2.users =
      store1Held.users ∧
    (postReservation store1Held "u1" (.num 1) (.num 20) 5000000 "r2").2.stations =
      store1Held.stations ∧
    (((400 : Nat) = 404 ∧ "Station not available" = "User not found") ∨
      ((400 : Nat) = 404 ∧ "Station not available" = "Station not found") ∨
      ((400 : Nat) = 400 ∧ "Station not available" = "Station under maintenance") ∨
      ((400 : Nat) = 400 ∧ "Station not available" = "Station not available")) :=
  rejected_create_unchanged store1Held "u1" (.num 1) (.num 20) 5000000 "r2" 400
    "Station not available"
    (by simp [postReservation, store1Held, findFirst, isUser, user1Held, user1, isStation,
      station1Held, station1, numStrictEq, jsNumber, truthy])

/-- C24. Symmetry of the distance: over real-number trigonometry,
`distanceKm(lat1, lon1, lat2, lon2) = distanceKm(lat2, lon2, lat1, lon1)` for all coordinate
pairs. -/
theorem distanceKm_symm (M : JsMath ℝ) (hM : RealMath M) (lat1 lon1 lat2 lon2 : ℝ) :
    distanceKm M lat1 lon1 lat2 lon2 = distanceKm M lat2 lon2 lat1 lon1 := by
  rw [distanceKm_real M hM, distanceKm_real M hM, sin_sq_half_swap lat2 lat1,
    sin_sq_half_swap lon2 lon1,
    mul_comm (Real.cos (lat1 * Real.pi / 180)) (Real.cos (lat2 * Real.pi / 180))]

theorem distanceKm_symm_witness :
    distanceKm (⟨Real.pi, Real.sin, Real.cos, Real.sqrt, fun y x => Complex.arg ⟨x, y⟩⟩ :
        JsMath ℝ) 41 29 42 30 =
      distanceKm (⟨Real.pi, Real.sin, Real.cos, Real.sqrt, fun y x => Complex.arg ⟨x, y⟩⟩ :
        JsMath ℝ) 42 30 41 29 :=
  distanceKm_symm _ ⟨rfl, rfl, rfl, rfl, fun _ _ => rfl⟩ 41 29 42 30

/-- C26, as stated, fails for N = 2: of two creates against the same initially available
station, served one after the other, the first succeeds and the second is answered 400
"Station not available"; `reservedCount` is left at 1, not 2. -/
theorem second_create_rejected :
    postReservation store1 "u1" (.num 1) (.num 5) 1000 "r1" =
      (.reservation 201 reservation1, store1Held) ∧
    postReservation store1Held "u1" (.num 1) (.num 5) 2000 "r2" =
      (.message 400 "Station not available", store1Held) ∧
    run store1 [create1, Op.create "u1" (.num 1) (.num 5) 2000 "r2"] = store1Held ∧
    store1Held.stations = [station1Held] ∧
    reservedCount station1Held = 1 ∧ reservedCount station1Held ≠ 2 := by
  have h2 : postReservation store1Held "u1" (.num 1) (.num 5) 2000 "r2" =
      (.message 400 "Station not available", store1Held) := by
    simp [postReservation, store1Held, findFirst, isUser, user1Held, user1, isStation,
      station1Held, station1, numStrictEq, jsNumber, truthy]
  have hc : reservedCount station1Held = 1 := by
    simp [reservedCount, numberOr, jsNumber, station1Held]
  refine ⟨post_store1, h2, ?_, rfl, hc, by rw [hc]; norm_num⟩
  show step (step store1 create1) (Op.create "u1" (.num 1) (.num 5) 2000 "r2") = store1Held
  have h1 : step store1 create1 = store1Held := by
    show (postReservation store1 "u1" (.num 1) (.num 5) 1000 "r1").2 = store1Held
    rw [post_store1]
  rw [h1]
  show (postReservation store1Held "u1" (.num 1) (.num 5) 2000 "r2").2 = store1Held
  rw [h2]

/-- C26, amended. Creates against the same station served one after another: when the first
create on an initially free station (`reservedCount` 0) succeeds, it leaves `reservedCount`
at 1 and the station unavailable; every further create on that station by an existing user
is answered 400 "Station not available" and changes nothing, so `reservedCount` stays 1
whatever the number of calls; cancelling the one reservation returns `reservedCount` to 0
and makes the station available again. (Calls whose file reads and writes interleave are
not covered.) -/
theorem serial_creates (db : Store) (i : Nat) (st0 : Station) (userId : String)
    (stationId minutes : JsVal) (now : Int) (newId : String) (r : Reservation)
    (later : List CreateCall)
    (htarget : findFirst (isStation stationId) db.stations = some (i, st0))
    (hc : reservedCount st0 = 0)
    (hsucc : (postReservation db userId stationId minutes now newId).1 = .reservation 201 r)
    (hfresh : ∀ u ∈ db.users, ∀ x ∈ u.reservations.getD [], x.id ≠ newId)
    (hlater : ∀ c ∈ later, ∃ u ∈ db.users, u.id = c.1) :
    (∃ st1, (postReservation db userId stationId minutes now newId).2.stations[i]? = some st1 ∧
      reservedCount st1 = 1 ∧ truthy st1.available = false) ∧
    (∀ c ∈ later,
      postReservation (postReservation db userId stationId minutes now newId).2
          c.1 stationId c.2.1 c.2.2.1 c.2.2.2 =
        (.message 400 "Station not available",
          (postReservation db userId stationId minutes now newId).2)) ∧
    run (postReservation db userId stationId minutes now newId).2
        (later.map (CreateCall.toOp stationId)) =
      (postReservation db userId stationId minutes now newId).2 ∧
    (∃ st2, (deleteReservation (postReservation db userId stationId minutes now newId).2
        userId newId).2.stations[i]? = some st2 ∧
      reservedCount st2 = 0 ∧ truthy st2.available = true) := by
  obtain ⟨ui, user, si, st, hfu, hs, hact, hav, hst, _, hrid, hrst, _, _, _⟩ :=
    postReservation_created _ _ _ _ _ _ _ _ hsucc
  rw [htarget] at hs
  cases hs
  obtain ⟨m1, hm1⟩ : ∃ m1, m1 = (if minutes = .undefined then JsVal.num 30 else minutes) :=
    ⟨_, rfl⟩
  rw [← hm1] at hst
  have hui := (findFirst_some hfu).1
  have hi := (findFirst_some htarget).1
  have hilt : i < db.stations.length := (List.getElem?_eq_some_iff.1 hi).1
  have hcount : reservedCount (reserveStation st0 m1) = 1 := by
    rw [reservedCount_reserveStation, hc]; norm_num
  have havail : truthy (reserveStation st0 m1).available = false := by
    have h := (reserveStation_inv st0 m1 ⟨by rw [hc], by rw [hc, hav]; simp⟩).2
    rw [h, hcount]; simp
  have hfs : findFirst (isStation stationId)
      (postReservation db userId stationId minutes now newId).2.stations =
      some (i, reserveStation st0 m1) := by
    rw [hst]
    exact findFirst_set_self htarget (by
      rw [isStation_reserveStation]; exact (findFirst_some htarget).2)
  have hblocked : ∀ c ∈ later,
      postReservation (postReservation db userId stationId minutes now newId).2
          c.1 stationId c.2.1 c.2.2.1 c.2.2.2 =
        (.message 400 "Station not available",
          (postReservation db userId stationId minutes now newId).2) := by
    intro c hcmem
    apply postReservation_held _ _ _ _ _ _ i (reserveStation st0 m1) _ hfs
      (by rw [reserveStation_is_active]; exact hact) havail
    rw [hst]
    exact exists_user_set db.users ui user _ c.1 hui rfl (hlater c hcmem)
  refine ⟨⟨reserveStation st0 m1, ?_, hcount, havail⟩, hblocked, ?_, ?_⟩
  · rw [hst]; exact List.getElem?_set_self hilt
  · apply run_of_fixed
    intro op hop
    obtain ⟨c, hcmem, rfl⟩ := List.mem_map.1 hop
    show (postReservation _ c.1 stationId c.2.1 c.2.2.1 c.2.2.2).2 = _
    rw [hblocked c hcmem]
  · have hfu2 : findFirst (isUser userId)
        (postReservation db userId stationId minutes now newId).2.users =
        some (ui, { user with reservations := some (user.reservations.getD [] ++ [r]) }) := by
      rw [hst]
      exact findFirst_set_self hfu (findFirst_some hfu).2
    have hex : (user.reservations.getD [] ++ [r]).find? (fun x => decide (x.id = newId)) =
        some r := by
      rw [← hrid]
      apply find?_append_fresh
      intro x hx
      rw [hrid]
      exact hfresh user (List.mem_iff_getElem?.2 ⟨ui, hui⟩) x hx
    have hfs2 : findFirst (isStation r.stationId)
        (postReservation db userId stationId minutes now newId).2.stations =
        some (i, reserveStation st0 m1) := by rw [hrst]; exact hfs
    refine ⟨releaseStation (reserveStation st0 m1), ?_, ?_, ?_⟩
    · unfold deleteReservation
      simp only [hfu2, Option.getD_some, hex, hfs2]
      rw [hst]
      simp only [List.set_set]
      exact List.getElem?_set_self hilt
    · rw [reservedCount_releaseStation, hcount]; norm_num
    · have h := (releaseStation_inv (reserveStation st0 m1)).2
      rw [h, reservedCount_releaseStation, hcount]; norm_num

theorem serial_creates_witness :
    ∃ st2, (deleteReservation (postReservation store1 "u1" (.num 1) (.num 5) 1000 "r1").2
        "u1" "r1").2.stations[0]? = some st2 ∧
      reservedCount st2 = 0 ∧ truthy st2.available = true :=
  (serial_creates store1 0 station1 "u1" (.num 1) (.num 5) 1000 "r1" reservation1
    [("u1", .num 5, 2000, "r2"), ("u1", .undefined, 3000, "r3")]
    (by simp [store1, findFirst, isStation, station1, numStrictEq, jsNumber])
    (by simp [reservedCount, numberOr, jsNumber, station1])
    (by rw [post_store1])
    (by simp [store1, user1])
    (by simp [store1, user1])).2.2.2

/-- C27. Ledger consistency: when station ids are distinct, reservation ids are distinct and
every station's reserved count equals the number of reservations, over all users, whose
`stationId` refers to it, then after any finite sequence of create and cancel requests, each
create being given an id carried by no outstanding reservation, the ids are still distinct
and every station's reserved count still equals the number of outstanding reservations that
refer to it. -/
theorem ledger_consistency (db : Store) (ops : List Op) (hd : DistinctStationIds db)
    (hr : DistinctReservationIds db) (hl : LedgerConsistent db) (hfresh : FreshIds db ops) :
    DistinctStationIds (run db ops) ∧ DistinctReservationIds (run db ops) ∧
    ∀ st ∈ (run db ops).stations,
      reservedCount st =
        ((allReservations (run db ops)).countP (fun r => isStation r.stationId st) : Nat) := by
  have key : ∀ (ops : List Op) (db : Store), DistinctStationIds db →
      DistinctReservationIds db → LedgerConsistent db → FreshIds db ops →
      DistinctStationIds (run db ops) ∧ DistinctReservationIds (run db ops) ∧
        LedgerConsistent (run db ops) := by
    intro ops
    induction ops with
    | nil => intro db h1 h2 h3 _; exact ⟨h1, h2, h3⟩
    | cons op ops ih =>
      intro db h1 h2 h3 h4
      cases op with
      | create userId stationId minutes now newId =>
        obtain ⟨hf, hrest⟩ := h4
        obtain ⟨a, b, c⟩ := ledger_create db h1 h2 h3 userId stationId minutes now newId hf
        exact ih _ a b c hrest
      | cancel userId resId =>
        obtain ⟨a, b, c⟩ := ledger_cancel db h1 h2 h3 userId resId
        exact ih _ a b c h4
  exact key ops db hd hr hl hfresh

/-- C27, witness: one user and one station, a create, its cancel and a second create. -/
theorem ledger_consistency_witness :
    DistinctStationIds store1 ∧ DistinctReservationIds store1 ∧ LedgerConsistent store1 ∧
    FreshIds store1 [create1, Op.cancel "u1" "r1", Op.create "u1" (.num 1) .undefined 2000 "r2"] ∧
    (DistinctStationIds
        (run store1 [create1, Op.cancel "u1" "r1", Op.create "u1" (.num 1) .undefined 2000 "r2"]) ∧
      DistinctReservationIds
        (run store1 [create1, Op.cancel "u1" "r1", Op.create "u1" (.num 1) .undefined 2000 "r2"]) ∧
      ∀ st ∈ (run store1
          [create1, Op.cancel "u1" "r1", Op.create "u1" (.num 1) .undefined 2000 "r2"]).stations,
        reservedCount st =
          ((allReservations (run store1
              [create1, Op.cancel "u1" "r1",
                Op.create "u1" (.num 1) .undefined 2000 "r2"])).countP
            (fun r => isStation r.stationId st) : Nat)) := by
  have h1 : DistinctStationIds store1 := by simp [DistinctStationIds, store1]
  have h2 : DistinctReservationIds store1 := by
    simp [DistinctReservationIds, allReservations, store1, user1]
  have h3 : LedgerConsistent store1 := by
    simp [LedgerConsistent, store1, reservedCount, station1, numberOr, jsNumber, holdCount,
      allReservations, user1]
  have h4 : FreshIds store1
      [create1, Op.cancel "u1" "r1", Op.create "u1" (.num 1) .undefined 2000 "r2"] := by
    refine ⟨by simp [allReservations, store1, user1], ?_⟩
    show "r2" ∉ (allReservations (deleteReservation
      (postReservation store1 "u1" (.num 1) (.num 5) 1000 "r1").2 "u1" "r1").2).map
        (fun r => r.id) ∧ True
    rw [post_store1]
    simp [deleteReservation, store1Held, findFirst, isUser, user1Held, user1, reservation1,
      allReservations]
  exact ⟨h1, h2, h3, h4, ledger_consistency store1 _ h1 h2 h3 h4⟩

/-- C12, as stated, fails: for a battery of 10, preferred type "CCS" and an active, available
station at distance 0 with price 8, queue time 0 and a CCS connector, recommend returns the
station with computed and reported score 1.01. -/
theorem score_above_one :
    topRecommendations gridDistance 41 29 10 "CCS" none [stationCcs] =
      [{ station := stationCcs, distance_km := some 0, score := some (101 / 100) }] ∧
    0 < price stationCcs ∧ 0 ≤ queue stationCcs ∧
    score 0 stationCcs 10 "CCS" none = 101 / 100 ∧
    ¬ score 0 stationCcs 10 "CCS" none ≤ 1 := by
  refine ⟨top_stationCcs, ?_, ?_, score_stationCcs, ?_⟩
  · norm_num [price, numberOr, jsNumber, stationCcs, station1]
  · norm_num [queue, numberOr, jsNumber, stationCcs, station1]
  · rw [score_stationCcs]; norm_num

/-- C12, amended. For every station returned by recommend and every query context, with
distance `≥ 0`, station price `≥ 0` and `queueTime ≥ 0`, the computed score lies in
`[0, 1.05]`: it is at most 1.05 in the critical branch and at most 0.95 in the normal
branch; the reported score (rounded to 4 decimals) lies in `[0, 1.05]` as well. -/
theorem score_bounds (distanceKm : ℚ → ℚ → ℚ → ℚ → Option ℚ) (lat lng battery : ℚ)
    (preferred : String) (rangeKm : Option ℚ) (stations : List Station) (r : Recommendation)
    (d : ℚ)
    (hr : r ∈ topRecommendations distanceKm lat lng battery preferred rangeKm stations)
    (hdist : stationDistance distanceKm lat lng r.station = some d) (hd : 0 ≤ d)
    (hp : 0 ≤ price r.station) (hq : 0 ≤ queue r.station) :
    0 ≤ score d r.station battery preferred rangeKm ∧
    score d r.station battery preferred rangeKm ≤
        (if critical battery rangeKm = true then 1.05 else 0.95) ∧
    ∃ s, r.score = some s ∧ 0 ≤ s ∧ s ≤ 1.05 := by
  obtain ⟨_, hs, he⟩ := (mem_recommendations _ _ _ _ _ _ _ _).1
    (mem_of_mem_topRecommendations _ _ _ _ _ _ _ _ hr)
  rw [hdist, pushed_some_iff] at hs
  rw [entryOf_of_distance _ _ _ _ _ _ _ d hdist] at he
  obtain ⟨h0, h1⟩ := score_mem d r.station battery preferred rangeKm hs hd hp hq
  have hmax : score d r.station battery preferred rangeKm ≤ 1.05 := by
    refine le_trans h1 ?_
    split <;> norm_num
  have hsc : r.score = some (toFixed (score d r.station battery preferred rangeKm) 4) := by
    rw [he]
  refine ⟨h0, h1, _, hsc, toFixed_nonneg _ _ h0, ?_⟩
  have h105 : toFixed 1.05 4 = 1.05 := by
    rw [toFixed_eq _ 4 10500 (by norm_num) (by norm_num) (by norm_num)]; norm_num
  calc toFixed _ 4 ≤ toFixed 1.05 4 := toFixed_mono 4 hmax
    _ = 1.05 := h105

theorem score_bounds_witness :
    0 ≤ score 0 stationCcs 10 "CCS" none ∧
    score 0 stationCcs 10 "CCS" none ≤ (if critical 10 none = true then 1.05 else 0.95) ∧
    ∃ s, (some (101 / 100) : Option ℚ) = some s ∧ 0 ≤ s ∧ s ≤ 1.05 :=
  score_bounds gridDistance 41 29 10 "CCS" none [stationCcs]
    { station := stationCcs, distance_km := some 0, score := some (101 / 100) } 0
    (by rw [top_stationCcs]; simp)
    (stationDistance_here stationCcs 41 29 rfl rfl) (le_refl 0)
    (by norm_num [price, numberOr, jsNumber, stationCcs, station1])
    (by norm_num [queue, numberOr, jsNumber, stationCcs, station1])

/-- C22. Location check of recommend, evaluated at the query `?lat=&lng=`: both coordinates
are present without a value, `Number("")` is 0, and the handler answers 200 with the
stations ranked from the location (0, 0) instead of 400. In general the handler answers
400 "lat and lng required" exactly when `Number(lat)` or `Number(lng)` is `NaN` (the
parameter is absent or a non-empty non-numeric string), it then leaves the store as it is and
its answer does not depend on the store; otherwise it answers 200 with a result list. -/
theorem recommend_location_check (distanceKm : ℚ → ℚ → ℚ → ℚ → Option ℚ) (db : Store)
    (q : RecommendQuery) (time : String) :
    (getRecommend distanceKm db queryEmptyLocation time).1 =
      .stations 200 (topRecommendations distanceKm 0 0 50 "" none db.stations) ∧
    ((getRecommend distanceKm db q time).1 = .message 400 "lat and lng required" ↔
      jsNumber q.lat = none ∨ jsNumber q.lng = none) ∧
    (jsNumber q.lat = none ∨ jsNumber q.lng = none →
      ∀ db2 : Store, getRecommend distanceKm db2 q time =
        (.message 400 "lat and lng required", db2)) ∧
    (∀ lat lng, jsNumber q.lat = some lat → jsNumber q.lng = some lng →
      (getRecommend distanceKm db q time).1 =
        .stations 200 (topRecommendations distanceKm lat lng (queryBattery q) q.preferred
          (queryRange q) db.stations)) ∧
    (∀ v : JsVal, jsNumber v = none ↔ v = .undefined ∨ v = .other) := by
  have hbad : jsNumber q.lat = none ∨ jsNumber q.lng = none →
      ∀ db2 : Store, getRecommend distanceKm db2 q time =
        (.message 400 "lat and lng required", db2) := by
    intro h db2
    unfold getRecommend
    rw [toNumber_none, toNumber_none]
    rcases h with h | h
    · rw [h]
    · rw [h]
      cases jsNumber q.lat <;> rfl
  have hgood : ∀ lat lng, jsNumber q.lat = some lat → jsNumber q.lng = some lng →
      (getRecommend distanceKm db q time).1 =
        .stations 200 (topRecommendations distanceKm lat lng (queryBattery q) q.preferred
          (queryRange q) db.stations) := by
    intro lat lng h1 h2
    exact getRecommend_reply distanceKm db q time lat lng (by rw [toNumber_none, h1])
      (by rw [toNumber_none, h2])
  refine ⟨?_, ⟨?_, fun h => by rw [hbad h db]⟩, hbad, hgood, ?_⟩
  · exact getRecommend_reply distanceKm db queryEmptyLocation time 0 0 rfl rfl
  · intro h
    cases h1 : jsNumber q.lat with
    | none => exact Or.inl rfl
    | some lat =>
      cases h2 : jsNumber q.lng with
      | none => exact Or.inr rfl
      | some lng =>
        rw [hgood lat lng h1 h2] at h
        cases h
  · intro v
    cases v <;> simp [jsNumber]

/-- C23, as stated, fails: for the query of user `u1` with a non-empty result, recommend
answers 200 with the ranked list when the history append succeeds, and sends no response
when the read of the user store, or its write-back, raises an error. -/
theorem history_failure_propagates :
    queryUser.userId = "u1" ∧
    (getRecommend gridDistance storeExample queryUser "12:00:00").1 =
      .stations 200
        [{ station := stationFar, distance_km := some 8, score := some (59 / 100) },
         { station := stationNear, distance_km := some 5, score := some (41 / 100) }] ∧
    (getRecommendWith .read gridDistance storeExample queryUser "12:00:00").1 = none ∧
    (getRecommendWith .write gridDistance storeExample queryUser "12:00:00").1 = none := by
  have htop : topRecommendations gridDistance 41 29 (queryBattery queryUser) queryUser.preferred
      (queryRange queryUser) storeExample.stations =
      [{ station := stationFar, distance_km := some 8, score := some (59 / 100) },
       { station := stationNear, distance_km := some 5, score := some (41 / 100) }] := by
    rw [queryUser_battery, queryUser_range]
    exact top_storeExample
  have hl : toNumber queryUser.lat none = some 41 := rfl
  have hg : toNumber queryUser.lng none = some 29 := rfl
  have hid : queryUser.userId = "u1" := rfl
  have hfind : findFirst (isUser "u1") storeExample.users = some (0, user1) := by
    simp [storeExample, findFirst, isUser, user1]
  refine ⟨rfl, ?_, ?_, ?_⟩
  · rw [getRecommend_reply gridDistance storeExample queryUser "12:00:00" 41 29 hl hg, htop]
  · unfold getRecommendWith
    simp only [hl, hg, htop, hid]
    simp [addHistoryWith]
  · unfold getRecommendWith
    simp only [hl, hg, htop, hid]
    simp [addHistoryWith, hfind]

/-- C23, amended. History append is not best-effort: for every query with a `userId` and a
non-empty result, an error raised by the user-store read, or by the write-back for an
existing user, propagates out of the handler, which sends no response and leaves the store as
it is. Recommend returns the ranked list when the append succeeds, and also when the user is
unknown and only the write would fail (`addHistory` then writes nothing). -/
theorem history_append_outcomes (fault : Fault)
    (distanceKm : ℚ → ℚ → ℚ → ℚ → Option ℚ) (db : Store)
    (q : RecommendQuery) (time : String) (lat lng : ℚ) (first : Recommendation)
    (rest : List Recommendation)
    (hlat : toNumber q.lat none = some lat) (hlng : toNumber q.lng none = some lng)
    (hid : q.userId ≠ "")
    (htop : topRecommendations distanceKm lat lng (queryBattery q) q.preferred
      (queryRange q) db.stations = first :: rest) :
    (fault = .read →
      getRecommendWith fault distanceKm db q time = (none, db)) ∧
    (fault = .write → (∃ u ∈ db.users, u.id = q.userId) →
      getRecommendWith fault distanceKm db q time = (none, db)) ∧
    (fault = .write → (∀ u ∈ db.users, u.id ≠ q.userId) →
      getRecommendWith fault distanceKm db q time =
        (some (.stations 200 (first :: rest)), db)) ∧
    (fault = .noFault →
      getRecommendWith fault distanceKm db q time =
        (some (.stations 200 (first :: rest)),
          { db with users := addHistory db.users q.userId first.station.name time }) ∧
      getRecommend distanceKm db q time =
        (.stations 200 (first :: rest),
          { db with users := addHistory db.users q.userId first.station.name time })) := by
  refine ⟨?_, ?_, ?_, ?_⟩
  · intro hf
    unfold getRecommendWith
    simp only [hlat, hlng, htop]
    simp [hid, addHistoryWith, hf]
  · rintro hf ⟨u, hu, huid⟩
    obtain ⟨ui, user, hfu⟩ :=
      findFirst_of_mem (p := isUser q.userId) hu (by simp [isUser, huid])
    unfold getRecommendWith
    simp only [hlat, hlng, htop]
    simp [hid, addHistoryWith, hf, hfu]
  · intro hf hno
    have hfu : findFirst (isUser q.userId) db.users = none :=
      findFirst_eq_none_iff.2 (fun u hu => by simpa [isUser] using hno u hu)
    unfold getRecommendWith
    simp only [hlat, hlng, htop]
    simp [hid, addHistoryWith, hf, hfu]
  · intro hf
    constructor
    · unfold getRecommendWith
      simp only [hlat, hlng, htop]
      cases hfu : findFirst (isUser q.userId) db.users with
      | none => simp [hid, addHistoryWith, addHistory, hf, hfu]
      | some p => simp [hid, addHistoryWith, addHistory, hf, hfu]
    · unfold getRecommend
      simp only [hlat, hlng, htop]
      simp [hid]

theorem history_append_outcomes_witness :
    getRecommendWith .read gridDistance storeExample queryUser "12:00:00" =
      (none, storeExample) :=
  (history_append_outcomes .read gridDistance storeExample queryUser "12:00:00" 41 29
    { station := stationFar, distance_km := some 8, score := some (59 / 100) }
    [{ station := stationNear, distance_km := some 5, score := some (41 / 100) }] rfl rfl
    (by simp [queryUser])
    (by rw [queryUser_battery, queryUser_range]; exact top_storeExample)).1 rfl

/-- C8, witness: the user holds the reservations `r1` and `r2`; cancelling `r1` is answered
200 with the list `[r2]`, which is also what is persisted. -/
theorem cancel_reservations_witness :
    (deleteReservation storeTwo "u1" "r1").1 = .reservations 200 [reservation2] ∧
    (deleteReservation storeTwo "u1" "r1").2.users =
      [{ user1Two with reservations := some [reservation2] }] ∧
    deleteReservation storeTwo "nobody" "r1" = (.message 404 "User not found", storeTwo) := by
  have hfind : findFirst (isUser "u1") storeTwo.users = some (0, user1Two) := by
    simp [storeTwo, findFirst, isUser, user1Two, user1]
  have hfilter : (user1Two.reservations.getD []).filter (fun r => decide (r.id ≠ "r1")) =
      [reservation2] := by
    simp [user1Two, List.filter, reservation1, reservation2]
  obtain ⟨h1, h2, -, -⟩ := (cancel_reservations storeTwo "u1" "r1").1 0 user1Two hfind
  rw [hfilter] at h1 h2
  refine ⟨h1, ?_, (cancel_reservations storeTwo "nobody" "r1").2
    (by simp [storeTwo, user1Two, user1])⟩
  rw [h2]
  simp [storeTwo]

/-- C13. The price component, evaluated at an active station at distance 0 whose stored
price is -4: `priceScore` is 1.2, outside the range from 0 to 1 that the comment of line 193
gives for the normalised factors, and recommend reports the score 0.9 for the station.  For
every scored station with distance `≥ 0` and `queueTime ≥ 0`, and every query context, the
components `distScore`, `availScore`, `queueScore` and `plugScore` lie in `[0, 1]` and
`priceScore ≥ 0`; `priceScore ≤ 1` holds exactly when the price read from the station,
`Number(price_per_kwh) || 8`, is not negative. -/
theorem price_component_above_one :
    scored 0 stationNegPrice none = true ∧ 0 ≤ queue stationNegPrice ∧
    priceScore stationNegPrice = 6 / 5 ∧ ¬ priceScore stationNegPrice ≤ 1 ∧
    (getRecommend gridDistance storeNegPrice queryPlain "12:00:00").1 =
      .stations 200
        [{ station := stationNegPrice, distance_km := some 0, score := some (9 / 10) }] ∧
    ∀ (d : ℚ) (st : Station) (preferred : String) (rangeKm : Option ℚ),
      scored d st rangeKm = true → 0 ≤ d → 0 ≤ queue st →
      (0 ≤ distScore d rangeKm ∧ distScore d rangeKm ≤ 1) ∧
      (0 ≤ availScore st ∧ availScore st ≤ 1) ∧
      (0 ≤ queueScore st ∧ queueScore st ≤ 1) ∧
      (0 ≤ plugScore preferred st ∧ plugScore preferred st ≤ 1) ∧
      0 ≤ priceScore st ∧ (priceScore st ≤ 1 ↔ 0 ≤ price st) := by
  have hp : priceScore stationNegPrice = 6 / 5 := by
    norm_num [priceScore, price, maxPrice, numberOr, jsNumber, stationNegPrice, station1]
  refine ⟨?_, ?_, hp, ?_, ?_, ?_⟩
  · simp [scored, outOfRange, stationNegPrice, station1, truthy]
  · norm_num [queue, numberOr, jsNumber, stationNegPrice, station1]
  · rw [hp]; norm_num
  · rw [getRecommend_reply gridDistance storeNegPrice queryPlain "12:00:00" 41 29 rfl rfl]
    have hb : queryBattery queryPlain = 50 := by
      simp [queryBattery, queryPlain, toNumber, jsNumber]
    have hr : queryRange queryPlain = none := by
      simp [queryRange, queryPlain, toNumber, jsNumber]
    rw [hb, hr]
    have h := top_single_here stationNegPrice 50 "" 90 rfl rfl rfl
      (by rw [score_stationNegPrice]; norm_num)
    have e : ((90 : ℕ) : ℚ) / 100 = 9 / 10 := by norm_num
    rw [e] at h
    exact congrArg _ h
  · intro d st preferred rangeKm hs hd hq
    exact ⟨⟨distScore_nonneg d rangeKm, distScore_le_one d st rangeKm hs hd⟩, availScore_mem st,
      ⟨queueScore_nonneg st, queueScore_le_one st hq⟩, plugScore_mem preferred st,
      priceScore_nonneg st, priceScore_le_one_iff st⟩

/-- C14. Critical mode, evaluated at the query `?lat=41&lng=29&battery=`: the battery level
is present without a value, `Number("")` is 0, and recommend scores the station with the
critical weight set (reported score 0.91), where the same query without the parameter is
scored with the normal set (0.75).  In general recommend uses the critical set
(0.40, 0.10, 0.30, 0.15, 0.10) if and only if the battery level it reads is `< 20` or it
reads a range and that is `< 20`, and the normal set (0.25, 0.25, 0.20, 0.15, 0.10)
otherwise; the battery level read is 50 when the parameter is absent or a non-empty
non-numeric string, 0 when it has no value, and the number it spells otherwise; at a battery
level of 20 with a range of 20 or more, or none, the normal set is used. -/
theorem critical_weights :
    queryBattery queryEmptyBattery = 0 ∧
    critical (queryBattery queryEmptyBattery) (queryRange queryEmptyBattery) = true ∧
    (getRecommend gridDistance store1 queryEmptyBattery "12:00:00").1 =
      .stations 200
        [{ station := station1, distance_km := some 0, score := some (91 / 100) }] ∧
    queryBattery queryPlain = 50 ∧
    (getRecommend gridDistance store1 queryPlain "12:00:00").1 =
      .stations 200
        [{ station := station1, distance_km := some 0, score := some (75 / 100) }] ∧
    (∀ (q : RecommendQuery) (d : ℚ) (st : Station),
      (critical (queryBattery q) (queryRange q) = true ↔
        queryBattery q < 20 ∨ ∃ R, queryRange q = some R ∧ R < 20) ∧
      (q.battery = .undefined ∨ q.battery = .other → queryBattery q = 50) ∧
      (q.battery = .emptyString → queryBattery q = 0) ∧
      (∀ b, q.battery = .num b → queryBattery q = b) ∧
      (q.range_km = .undefined ∨ q.range_km = .other → queryRange q = none) ∧
      (q.range_km = .emptyString → queryRange q = some 0) ∧
      (∀ R, q.range_km = .num R → queryRange q = some R) ∧
      ((queryBattery q < 20 ∨ ∃ R, queryRange q = some R ∧ R < 20) →
        score d st (queryBattery q) q.preferred (queryRange q) =
          0.40 * distScore d (queryRange q) + 0.10 * priceScore st + 0.30 * availScore st +
            0.15 * queueScore st + 0.10 * plugScore q.preferred st) ∧
      (¬ (queryBattery q < 20 ∨ ∃ R, queryRange q = some R ∧ R < 20) →
        score d st (queryBattery q) q.preferred (queryRange q) =
          0.25 * distScore d (queryRange q) + 0.25 * priceScore st + 0.20 * availScore st +
            0.15 * queueScore st + 0.10 * plugScore q.preferred st)) ∧
    critical 20 (some 20) = false ∧ critical 20 none = false ∧
    (∀ R, 20 ≤ R → critical 20 (some R) = false) ∧
    (∀ b, 20 ≤ b → critical b none = false) := by
  have hbE : queryBattery queryEmptyBattery = 0 := by
    simp [queryBattery, queryEmptyBattery, queryPlain, toNumber, jsNumber]
  have hrE : queryRange queryEmptyBattery = none := by
    simp [queryRange, queryEmptyBattery, queryPlain, toNumber, jsNumber]
  have hbP : queryBattery queryPlain = 50 := by
    simp [queryBattery, queryPlain, toNumber, jsNumber]
  have hrP : queryRange queryPlain = none := by
    simp [queryRange, queryPlain, toNumber, jsNumber]
  refine ⟨hbE, ?_, ?_, hbP, ?_, ?_, ?_, ?_, ?_, ?_⟩
  · rw [hbE, hrE]; simp [critical]
  · rw [getRecommend_reply gridDistance store1 queryEmptyBattery "12:00:00" 41 29 rfl rfl,
      hbE, hrE]
    have h := top_single_here station1 0 "" 91 rfl rfl rfl
      (by rw [score_station1_empty_battery]; norm_num)
    simp only [Nat.cast_ofNat] at h
    exact congrArg _ h
  · rw [getRecommend_reply gridDistance store1 queryPlain "12:00:00" 41 29 rfl rfl, hbP, hrP]
    have h := top_single_here station1 50 "" 75 rfl rfl rfl
      (by rw [score_at_query_station1]; norm_num)
    simp only [Nat.cast_ofNat] at h
    exact congrArg _ h
  · intro q d st
    refine ⟨critical_iff _ _, ?_, ?_, ?_, ?_, ?_, ?_, ?_, ?_⟩
    · rintro (h | h) <;> simp [queryBattery, toNumber, h, jsNumber]
    · intro h; simp [queryBattery, toNumber, h, jsNumber]
    · intro b h; simp [queryBattery, toNumber, h, jsNumber]
    · rintro (h | h) <;> simp [queryRange, toNumber, h, jsNumber]
    · intro h; simp [queryRange, toNumber, h, jsNumber]
    · intro R h; simp [queryRange, toNumber, h, jsNumber]
    · intro h
      have hc := (critical_iff _ _).2 h
      simp only [score, hc, wDist, wPrice, wAvail, wQueue, wPlug, if_true]
      norm_num
    · intro h
      have hc : critical (queryBattery q) (queryRange q) = false := by
        rw [← Bool.not_eq_true]
        exact fun hc => h ((critical_iff _ _).1 hc)
      simp only [score, hc, wDist, wPrice, wAvail, wQueue, wPlug, Bool.false_eq_true, if_false]
      norm_num
  · simp [critical]
  · simp [critical]
  · intro R hR; simp [critical, hR]
  · intro b hb; simp [critical, hb]

/-- C17. Result size, evaluated at `?lat=41&lng=29&range_km=10` on a store whose only
station is active and has no `latitude` field: the distance is `NaN`, the test
`d > rangeKm` of line 191 is false, and recommend returns the station although no station
is eligible.  The same happens to every active station whose distance evaluates to `NaN`,
whatever the distance function.  In general recommend returns exactly `min(3, m)` stations,
`m` the number of active stations that line 191 does not skip, and never more than 3; when
no scored station is at a `NaN` distance, `m` is the number of eligible stations (active,
and within `maxRangeKm` when one is given), and the result is empty when there is none; so
it is on four stations with coordinates at the query location, of which three are
returned. -/
theorem recommend_count :
    (getRecommend gridDistance storeNoLat queryRangeTen "12:00:00").1 =
      .stations 200 [{ station := stationNoLat, distance_km := none, score := none }] ∧
    storeNoLat.stations.filter (fun st =>
      eligible (stationDistance gridDistance 41 29 st) st (some 10)) = [] ∧
    (getRecommend gridDistance storeFull queryRangeTen "12:00:00").1 =
      .stations 200
        [{ station := stationCheap, distance_km := some 0, score := some (94 / 100) },
         { station := station1, distance_km := some 0, score := some (91 / 100) },
         { station := stationCcs, distance_km := some 0, score := some (91 / 100) }] ∧
    DistancesNumeric gridDistance 41 29 storeFull.stations ∧
    (∀ (distanceKm : ℚ → ℚ → ℚ → ℚ → Option ℚ) (lat lng battery R : ℚ) (preferred : String)
        (st : Station),
      truthy st.is_active = true → stationDistance distanceKm lat lng st = none →
      (topRecommendations distanceKm lat lng battery preferred (some R) [st]).length = 1 ∧
      [st].filter (fun s => eligible (stationDistance distanceKm lat lng s) s (some R)) = []) ∧
    (∀ (distanceKm : ℚ → ℚ → ℚ → ℚ → Option ℚ) (db : Store) (q : RecommendQuery)
        (time : String) (lat lng : ℚ),
      toNumber q.lat none = some lat → toNumber q.lng none = some lng →
      ∃ rs, (getRecommend distanceKm db q time).1 = .stations 200 rs ∧
        rs.length = min 3 (db.stations.filter (fun st =>
          pushed (stationDistance distanceKm lat lng st) st (queryRange q))).length ∧
        rs.length ≤ 3 ∧
        (DistancesNumeric distanceKm lat lng db.stations →
          rs.length = min 3 (db.stations.filter (fun st =>
            eligible (stationDistance distanceKm lat lng st) st (queryRange q))).length ∧
          (db.stations.filter (fun st =>
            eligible (stationDistance distanceKm lat lng st) st (queryRange q)) = [] →
              rs = []))) ∧
    (∀ (d : Option ℚ) (st : Station) (rangeKm : Option ℚ),
      eligible d st rangeKm = true ↔
        (truthy st.is_active = true ∧ ∀ R, rangeKm = some R → ∃ x, d = some x ∧ x ≤ R)) := by
  refine ⟨?_, ?_, reply_storeFull, distancesNumeric_storeFull, ?_, ?_, eligible_iff⟩
  · rw [getRecommend_reply gridDistance storeNoLat queryRangeTen "12:00:00" 41 29 rfl rfl,
      queryRangeTen_battery, queryRangeTen_range]
    exact congrArg _ (top_single_nan gridDistance 41 29 50 "" (some 10) stationNoLat rfl
      (stationNoLat_distance _ _ _))
  · simp [storeNoLat, List.filter, stationNoLat_distance, eligible]
  · intro distanceKm lat lng battery R preferred st hact hd
    rw [top_single_nan distanceKm lat lng battery preferred (some R) st hact hd]
    simp [List.filter, hd, eligible]
  · intro distanceKm db q time lat lng hlat hlng
    refine ⟨_, getRecommend_reply distanceKm db q time lat lng hlat hlng,
      length_topRecommendations _ _ _ _ _ _ _, ?_, ?_⟩
    · unfold topRecommendations
      rw [List.length_take]
      exact min_le_left _ _
    · intro hnum
      have hlen := length_topRecommendations distanceKm lat lng (queryBattery q) q.preferred
        (queryRange q) db.stations
      rw [filter_pushed_eq_eligible distanceKm lat lng (queryRange q) db.stations hnum] at hlen
      refine ⟨hlen, ?_⟩
      intro hnil
      rw [hnil] at hlen
      exact List.length_eq_zero.1 (by simpa using hlen)

/-- C20. Eligibility of the results, evaluated at `?lat=41&lng=29&range_km=10` on a store
whose only station is active and has no `latitude` field: the distance is `NaN`, line 191
does not skip the station, and recommend returns it although it is within no range.  In
general every station recommend returns is a stored station that is active and, when the
query supplies a numeric `maxRangeKm = R` (0 included), whose distance is at most `R` or
`NaN`; a station under maintenance, or at a distance that is a number greater than `R`, is
never returned; when no scored station is at a `NaN` distance every returned station is
eligible, as on four stations with coordinates at the query location. -/
theorem recommend_eligible :
    (getRecommend gridDistance storeNoLat queryRangeTen "12:00:00").1 =
      .stations 200 [{ station := stationNoLat, distance_km := none, score := none }] ∧
    stationDistance gridDistance 41 29 stationNoLat = none ∧
    eligible (stationDistance gridDistance 41 29 stationNoLat) stationNoLat (some 10) = false ∧
    (getRecommend gridDistance storeFull queryRangeTen "12:00:00").1 =
      .stations 200
        [{ station := stationCheap, distance_km := some 0, score := some (94 / 100) },
         { station := station1, distance_km := some 0, score := some (91 / 100) },
         { station := stationCcs, distance_km := some 0, score := some (91 / 100) }] ∧
    DistancesNumeric gridDistance 41 29 storeFull.stations ∧
    (∀ (distanceKm : ℚ → ℚ → ℚ → ℚ → Option ℚ) (db : Store) (q : RecommendQuery)
        (time : String) (lat lng : ℚ),
      toNumber q.lat none = some lat → toNumber q.lng none = some lng →
      ∃ rs, (getRecommend distanceKm db q time).1 = .stations 200 rs ∧
        (∀ r ∈ rs, r.station ∈ db.stations ∧ truthy r.station.is_active = true ∧
          ∀ R x, queryRange q = some R →
            stationDistance distanceKm lat lng r.station = some x → x ≤ R) ∧
        (∀ R, q.range_km = .num R → queryRange q = some R) ∧
        (∀ st, truthy st.is_active = false → ∀ r ∈ rs, r.station ≠ st) ∧
        (∀ st R x, queryRange q = some R → stationDistance distanceKm lat lng st = some x →
          R < x → ∀ r ∈ rs, r.station ≠ st) ∧
        (DistancesNumeric distanceKm lat lng db.stations →
          ∀ r ∈ rs, eligible (stationDistance distanceKm lat lng r.station) r.station
            (queryRange q) = true)) := by
  refine ⟨?_, stationNoLat_distance _ _ _, ?_, reply_storeFull, distancesNumeric_storeFull, ?_⟩
  · rw [getRecommend_reply gridDistance storeNoLat queryRangeTen "12:00:00" 41 29 rfl rfl,
      queryRangeTen_battery, queryRangeTen_range]
    exact congrArg _ (top_single_nan gridDistance 41 29 50 "" (some 10) stationNoLat rfl
      (stationNoLat_distance _ _ _))
  · rw [stationNoLat_distance]; simp [eligible]
  · intro distanceKm db q time lat lng hlat hlng
    have key : ∀ r ∈ topRecommendations distanceKm lat lng (queryBattery q) q.preferred
        (queryRange q) db.stations, r.station ∈ db.stations ∧
          pushed (stationDistance distanceKm lat lng r.station) r.station (queryRange q) =
            true := by
      intro r hr
      obtain ⟨hst, hp, _⟩ := (mem_recommendations _ _ _ _ _ _ _ _).1
        (mem_of_mem_topRecommendations _ _ _ _ _ _ _ _ hr)
      exact ⟨hst, hp⟩
    refine ⟨_, getRecommend_reply distanceKm db q time lat lng hlat hlng, ?_, ?_, ?_, ?_, ?_⟩
    · intro r hr
      obtain ⟨hst, hp⟩ := key r hr
      exact ⟨hst, ((pushed_iff _ _ _).1 hp).1, fun R x hR hx =>
        ((pushed_iff _ _ _).1 hp).2 R x hR hx⟩
    · intro R h; simp [queryRange, toNumber, h, jsNumber]
    · intro st hina r hr heq
      have := ((pushed_iff _ _ _).1 (key r hr).2).1
      rw [heq, hina] at this
      cases this
    · intro st R x hR hx hfar r hr heq
      have := ((pushed_iff _ _ _).1 (key r hr).2).2 R x hR (by rw [heq]; exact hx)
      exact absurd this (not_le.2 hfar)
    · intro hnum r hr
      obtain ⟨hst, hp⟩ := key r hr
      have hact := ((pushed_iff _ _ _).1 hp).1
      cases hd : stationDistance distanceKm lat lng r.station with
      | none => exact absurd hd (hnum r.station hst hact)
      | some x => rw [hd, pushed_eq_eligible] at hp; exact hp

/-- C18. Result order, evaluated at `?lat=41&lng=29&range_km=10` on the stations Held
(unavailable), NoLat (no `latitude` field), Alpha and Cheap (price 2), the three with
coordinates at the query location: the score of NoLat is `NaN`, the comparator of line 223
returns `NaN` against it, and recommend returns Held (0.61), NoLat (`null`), Cheap (0.94):
the list is not sorted, and Alpha (0.91) is missing.  When no scored station is at a `NaN`
distance the list is sorted by non-increasing reported score: each result's reported score
is at least that of the next one, and of every later one; with Beta in the place of NoLat
recommend returns Cheap (0.94), Alpha (0.91), Beta (0.91). -/
theorem recommend_sorted :
    (getRecommend gridDistance storeMixed queryRangeTen "12:00:00").1 =
      .stations 200
        [{ station := stationHeld, distance_km := some 0, score := some (61 / 100) },
         { station := stationNoLat, distance_km := none, score := none },
         { station := stationCheap, distance_km := some 0, score := some (94 / 100) }] ∧
    ¬ ((94 : ℚ) / 100 ≤ 61 / 100) ∧
    (getRecommend gridDistance storeFull queryRangeTen "12:00:00").1 =
      .stations 200
        [{ station := stationCheap, distance_km := some 0, score := some (94 / 100) },
         { station := station1, distance_km := some 0, score := some (91 / 100) },
         { station := stationCcs, distance_km := some 0, score := some (91 / 100) }] ∧
    DistancesNumeric gridDistance 41 29 storeFull.stations ∧
    (∀ (distanceKm : ℚ → ℚ → ℚ → ℚ → Option ℚ) (db : Store) (q : RecommendQuery)
        (time : String) (lat lng : ℚ),
      toNumber q.lat none = some lat → toNumber q.lng none = some lng →
      DistancesNumeric distanceKm lat lng db.stations →
      ∃ rs, (getRecommend distanceKm db q time).1 = .stations 200 rs ∧
        (∀ i a b, rs[i]? = some a → rs[i + 1]? = some b →
          ∃ x y, a.score = some x ∧ b.score = some y ∧ y ≤ x) ∧
        rs.Pairwise (fun a b => ∃ x y, a.score = some x ∧ b.score = some y ∧ y ≤ x)) := by
  refine ⟨reply_storeMixed, by norm_num, reply_storeFull, distancesNumeric_storeFull, ?_⟩
  intro distanceKm db q time lat lng hlat hlng hnum
  have hp : (topRecommendations distanceKm lat lng (queryBattery q) q.preferred (queryRange q)
      db.stations).Pairwise
      (fun a b => ∃ x y, a.score = some x ∧ b.score = some y ∧ y ≤ x) :=
    List.Pairwise.sublist (List.take_sublist 3 _)
      (pairwise_scores_of_numeric _ (recommendations_numeric _ _ _ _ _ _ _ hnum))
  refine ⟨_, getRecommend_reply distanceKm db q time lat lng hlat hlng, ?_, hp⟩
  intro i a b ha hb
  obtain ⟨hi, rfl⟩ := List.getElem?_eq_some_iff.1 ha
  obtain ⟨hj, rfl⟩ := List.getElem?_eq_some_iff.1 hb
  exact List.pairwise_iff_getElem.1 hp i (i + 1) hi hj (Nat.lt_succ_self i)

/-- C19. Best-scoring stations, evaluated at `?lat=41&lng=29&range_km=10` on the stations
Held (unavailable), NoLat (no `latitude` field), Alpha and Cheap (price 2), the three with
coordinates at the query location: recommend returns Held (0.61), NoLat (`null`) and Cheap
(0.94) and leaves out Alpha, which is eligible and has the greater score 0.91.  When no
scored station is at a `NaN` distance, every eligible station has an entry and no entry that
is left out of the result has a reported score strictly greater than that of a returned
station; with Beta in the place of NoLat recommend returns Cheap (0.94), Alpha (0.91),
Beta (0.91) and leaves out Held (0.61). -/
theorem recommend_best :
    (getRecommend gridDistance storeMixed queryRangeTen "12:00:00").1 =
      .stations 200
        [{ station := stationHeld, distance_km := some 0, score := some (61 / 100) },
         { station := stationNoLat, distance_km := none, score := none },
         { station := stationCheap, distance_km := some 0, score := some (94 / 100) }] ∧
    station1 ∈ storeMixed.stations ∧
    eligible (stationDistance gridDistance 41 29 station1) station1 (some 10) = true ∧
    entryOf gridDistance 41 29 50 "" (some 10) station1 =
      { station := station1, distance_km := some 0, score := some (91 / 100) } ∧
    station1 ≠ stationHeld ∧ station1 ≠ stationNoLat ∧ station1 ≠ stationCheap ∧
    (61 : ℚ) / 100 < 91 / 100 ∧
    (getRecommend gridDistance storeFull queryRangeTen "12:00:00").1 =
      .stations 200
        [{ station := stationCheap, distance_km := some 0, score := some (94 / 100) },
         { station := station1, distance_km := some 0, score := some (91 / 100) },
         { station := stationCcs, distance_km := some 0, score := some (91 / 100) }] ∧
    DistancesNumeric gridDistance 41 29 storeFull.stations ∧
    (∀ (distanceKm : ℚ → ℚ → ℚ → ℚ → Option ℚ) (db : Store) (q : RecommendQuery)
        (time : String) (lat lng : ℚ),
      toNumber q.lat none = some lat → toNumber q.lng none = some lng →
      DistancesNumeric distanceKm lat lng db.stations →
      ∃ rs, (getRecommend distanceKm db q time).1 = .stations 200 rs ∧
        (∀ st ∈ db.stations,
          eligible (stationDistance distanceKm lat lng st) st (queryRange q) = true →
          ∃ x ∈ recommendations distanceKm lat lng (queryBattery q) q.preferred (queryRange q)
              db.stations, x.station = st) ∧
        ∀ x ∈ recommendations distanceKm lat lng (queryBattery q) q.preferred (queryRange q)
            db.stations,
          x ∉ rs → ∀ y ∈ rs, ∃ sx sy, x.score = some sx ∧ y.score = some sy ∧ sx ≤ sy) := by
  have d1 : stationDistance gridDistance 41 29 station1 = some 0 :=
    stationDistance_here _ 41 29 rfl rfl
  refine ⟨reply_storeMixed, by simp [storeMixed], ?_, ?_, ?_, ?_, ?_, by norm_num,
    reply_storeFull, distancesNumeric_storeFull, ?_⟩
  · rw [d1]; simp [eligible, station1, truthy]
  · have h91 := toFixed_hundredths 91
    simp only [Nat.cast_ofNat] at h91
    rw [entryOf_of_distance _ _ _ _ _ _ _ 0 d1, score_station1_range, toFixed_zero, h91]
  · simp [stationHeld, station1]
  · simp [stationNoLat, station1]
  · simp [stationCheap, station1]
  · intro distanceKm db q time lat lng hlat hlng hnum
    refine ⟨_, getRecommend_reply distanceKm db q time lat lng hlat hlng, ?_, ?_⟩
    · intro st hst hs
      exact ⟨entryOf distanceKm lat lng (queryBattery q) q.preferred (queryRange q) st,
        (mem_recommendations _ _ _ _ _ _ _ _).2
          ⟨by rw [entryOf_station]; exact hst,
            by rw [entryOf_station]; exact pushed_of_eligible _ _ _ hs,
            by rw [entryOf_station]⟩,
        entryOf_station _ _ _ _ _ _ _⟩
    · intro x hx hxn y hy
      exact left_out_le _ (recommendations_numeric _ _ _ _ _ _ _ hnum) x y hx hxn hy

/-- C21. Tie-break, evaluated at `?lat=41&lng=29&range_km=10` on the stations Held
(unavailable), NoLat (no `latitude` field), Alpha and Beta, the three with coordinates at the
query location and the last two with the same score 0.91: recommend returns Held (0.61),
NoLat (`null`), Alpha (0.91), where the first 3 of the stable descending sort of the eligible
stations are Alpha, Beta, Held.  When no scored station is at a `NaN` distance, the result is
the first 3 elements of the stable descending sort of the eligible stations' entries by
reported score: of a permutation of the entries, sorted by non-increasing reported score, in
which two entries with equal reported score keep their stored order; when the entries are
pairwise different, the result never holds two entries of equal reported score in the order
opposite to the stored one; on Held, Alpha, Cheap, Beta recommend returns Cheap (0.94), Alpha
(0.91), Beta (0.91), the two of equal score in stored order. -/
theorem recommend_stable :
    (getRecommend gridDistance storeTie queryRangeTen "12:00:00").1 =
      .stations 200
        [{ station := stationHeld, distance_km := some 0, score := some (61 / 100) },
         { station := stationNoLat, distance_km := none, score := none },
         { station := station1, distance_km := some 0, score := some (91 / 100) }] ∧
    (((storeTie.stations.filter (fun st =>
        eligible (stationDistance gridDistance 41 29 st) st (some 10))).map
          (entryOf gridDistance 41 29 50 "" (some 10))).insertionSort scoreGe).take 3 =
      [{ station := station1, distance_km := some 0, score := some (91 / 100) },
       { station := stationCcs, distance_km := some 0, score := some (91 / 100) },
       { station := stationHeld, distance_km := some 0, score := some (61 / 100) }] ∧
    (getRecommend gridDistance storeFull queryRangeTen "12:00:00").1 =
      .stations 200
        [{ station := stationCheap, distance_km := some 0, score := some (94 / 100) },
         { station := station1, distance_km := some 0, score := some (91 / 100) },
         { station := stationCcs, distance_km := some 0, score := some (91 / 100) }] ∧
    DistancesNumeric gridDistance 41 29 storeFull.stations ∧
    (∀ (distanceKm : ℚ → ℚ → ℚ → ℚ → Option ℚ) (db : Store) (q : RecommendQuery)
        (time : String) (lat lng : ℚ),
      toNumber q.lat none = some lat → toNumber q.lng none = some lng →
      DistancesNumeric distanceKm lat lng db.stations →
      ∃ rs sorted : List Recommendation,
        (getRecommend distanceKm db q time).1 = .stations 200 rs ∧
        rs = sorted.take 3 ∧
        sorted = ((db.stations.filter (fun st =>
          eligible (stationDistance distanceKm lat lng st) st (queryRange q))).map
            (entryOf distanceKm lat lng (queryBattery q) q.preferred
              (queryRange q))).insertionSort scoreGe ∧
        sorted.Perm ((db.stations.filter (fun st =>
          eligible (stationDistance distanceKm lat lng st) st (queryRange q))).map
            (entryOf distanceKm lat lng (queryBattery q) q.preferred (queryRange q))) ∧
        sorted.Pairwise (fun a b => ∃ x y, a.score = some x ∧ b.score = some y ∧ y ≤ x) ∧
        (∀ a b, List.Sublist [a, b] ((db.stations.filter (fun st =>
            eligible (stationDistance distanceKm lat lng st) st (queryRange q))).map
              (entryOf distanceKm lat lng (queryBattery q) q.preferred (queryRange q))) →
          a.score = b.score → List.Sublist [a, b] sorted) ∧
        (((db.stations.filter (fun st =>
            eligible (stationDistance distanceKm lat lng st) st (queryRange q))).map
              (entryOf distanceKm lat lng (queryBattery q) q.preferred
                (queryRange q))).Nodup →
          ∀ a b, List.Sublist [a, b] ((db.stations.filter (fun st =>
              eligible (stationDistance distanceKm lat lng st) st (queryRange q))).map
                (entryOf distanceKm lat lng (queryBattery q) q.preferred (queryRange q))) →
            a.score = b.score → ¬ List.Sublist [b, a] rs)) := by
  have dH : stationDistance gridDistance 41 29 stationHeld = some 0 :=
    stationDistance_here _ 41 29 rfl rfl
  have d1 : stationDistance gridDistance 41 29 station1 = some 0 :=
    stationDistance_here _ 41 29 rfl rfl
  have dC : stationDistance gridDistance 41 29 stationCcs = some 0 :=
    stationDistance_here _ 41 29 rfl rfl
  refine ⟨?_, ?_, reply_storeFull, distancesNumeric_storeFull, ?_⟩
  · rw [getRecommend_reply gridDistance storeTie queryRangeTen "12:00:00" 41 29 rfl rfl,
      queryRangeTen_battery, queryRangeTen_range]
    exact congrArg _ top_storeTie
  · have h61 := toFixed_hundredths 61
    have h91 := toFixed_hundredths 91
    simp only [Nat.cast_ofNat] at h61 h91
    have eH : eligible (stationDistance gridDistance 41 29 stationHeld) stationHeld
        (some 10) = true := by rw [dH]; simp [eligible, stationHeld, station1, truthy]
    have eN : eligible (stationDistance gridDistance 41 29 stationNoLat) stationNoLat
        (some 10) = false := by rw [stationNoLat_distance]; simp [eligible]
    have e1 : eligible (stationDistance gridDistance 41 29 station1) station1
        (some 10) = true := by rw [d1]; simp [eligible, station1, truthy]
    have eC : eligible (stationDistance gridDistance 41 29 stationCcs) stationCcs
        (some 10) = true := by rw [dC]; simp [eligible, stationCcs, station1, truthy]
    simp only [storeTie, List.filter_cons, eH, eN, e1, eC, if_true, List.filter_nil,
      List.map_cons, List.map_nil, Bool.false_eq_true, if_false]
    rw [entryOf_of_distance _ _ _ _ _ _ _ 0 dH, entryOf_of_distance _ _ _ _ _ _ _ 0 d1,
      entryOf_of_distance _ _ _ _ _ _ _ 0 dC, score_stationHeld, score_station1_range,
      score_stationCcs_range, toFixed_zero, h61, h91]
    simp [List.insertionSort, List.orderedInsert, scoreGe]
    norm_num
  · intro distanceKm db q time lat lng hlat hlng hnum
    have hstable : ∀ a b, List.Sublist [a, b] ((db.stations.filter (fun st =>
        eligible (stationDistance distanceKm lat lng st) st (queryRange q))).map
          (entryOf distanceKm lat lng (queryBattery q) q.preferred (queryRange q))) →
        a.score = b.score →
        List.Sublist [a, b] (((db.stations.filter (fun st =>
          eligible (stationDistance distanceKm lat lng st) st (queryRange q))).map
            (entryOf distanceKm lat lng (queryBattery q) q.preferred
              (queryRange q))).insertionSort scoreGe) := by
      intro a b hab hs
      exact List.pair_sublist_insertionSort (r := scoreGe) (by unfold scoreGe; rw [hs]) hab
    have hperm := List.perm_insertionSort scoreGe ((db.stations.filter (fun st =>
        eligible (stationDistance distanceKm lat lng st) st (queryRange q))).map
          (entryOf distanceKm lat lng (queryBattery q) q.preferred (queryRange q)))
    have hrecs : recommendations distanceKm lat lng (queryBattery q) q.preferred (queryRange q)
        db.stations = (db.stations.filter (fun st =>
          eligible (stationDistance distanceKm lat lng st) st (queryRange q))).map
            (entryOf distanceKm lat lng (queryBattery q) q.preferred (queryRange q)) := by
      rw [recommendations_eq_map, filter_pushed_eq_eligible _ _ _ _ _ hnum]
    have hsorted := pairwise_scores_of_numeric _
      (recommendations_numeric distanceKm lat lng (queryBattery q) q.preferred (queryRange q)
        db.stations hnum)
    rw [sortByScore_of_numeric _ (recommendations_numeric _ _ _ _ _ _ _ hnum), hrecs]
      at hsorted
    refine ⟨_, _, ?_, rfl, rfl, hperm, hsorted, hstable, ?_⟩
    · rw [getRecommend_reply distanceKm db q time lat lng hlat hlng,
        topRecommendations_numeric _ _ _ _ _ _ _ hnum]
    · intro hnd a b hab hs hba
      have hnd2 := (hperm.nodup_iff).2 hnd
      exact not_both_sublist hnd2 (hstable a b hab hs) (hba.trans (List.take_sublist 3 _))

/-- C25, as stated, fails: the distance between (90, 0) and (90, 1e-150), two different
coordinates, is 0.  Over real-number trigonometry both are the north pole, where the cosine
of the latitude is 0; in the code's double arithmetic the product of the two cosines, about
3.7e-33, and the squared sine of the half difference, about 7.6e-305, underflows to 0, so
the code returns 0 as well. -/
theorem distance_zero_distinct_coordinates :
    distanceKm (⟨Real.pi, Real.sin, Real.cos, Real.sqrt, fun y x => Complex.arg ⟨x, y⟩⟩ :
        JsMath ℝ) 90 0 90 (1 / 10 ^ 150) = 0 ∧ (0 : ℝ) ≠ 1 / 10 ^ 150 :=
  ⟨distanceKm_pole _ ⟨rfl, rfl, rfl, rfl, fun _ _ => rfl⟩ 0 (1 / 10 ^ 150), by positivity⟩

/-- C25, amended. `distanceKm(a, a) = 0` for every coordinate `a`: for every `Math` whose
`sin` and `sqrt` are 0 at 0 and whose `atan2(0, sqrt(1))` is 0, as they are over real-number
trigonometry and in every implementation of the language. -/
theorem distance_self_zero (M : JsMath ℝ) (hsin : M.sin 0 = 0) (hsqrt : M.sqrt 0 = 0)
    (hatan : M.atan2 0 (M.sqrt 1) = 0) (lat lon : ℝ) :
    distanceKm M lat lon lat lon = 0 := by
  unfold distanceKm
  simp [hsin, hsqrt, hatan]

theorem distance_self_zero_witness :
    distanceKm (⟨Real.pi, Real.sin, Real.cos, Real.sqrt, fun y x => Complex.arg ⟨x, y⟩⟩ :
      JsMath ℝ) 41 29 41 29 = 0 :=
  distance_self_zero ⟨Real.pi, Real.sin, Real.cos, Real.sqrt, fun y x => Complex.arg ⟨x, y⟩⟩
    Real.sin_zero Real.sqrt_zero
    (by
      show Complex.arg ⟨Real.sqrt 1, 0⟩ = 0
      rw [Real.sqrt_one]
      exact Complex.arg_one) 41 29

end NextVolt
